import Mathlib

/-!
# si_arena.h: a shallow embedding of the arena allocator

The header builds one of two backends, selected at compile time by the
preprocessor symbol SIA_FORCE_MALLOC: the reserve/commit backend (namespace
`Reserve`) and the chunked heap backend (namespace `Malloc`).

Conventions of the embedding.

* `sia_u64` and `sia_u32` values are natural numbers; every C operation that can
  wrap is written with an explicit reduction modulo `2^64` or `2^32`.
* A pointer into a reserve arena is its byte offset from the arena base
  (`(sia_u8*)arena`).  A pointer of the chunked backend is an absolute address.
  A function that returns `void*` returns `Option Nat`: `none` is the C statement
  `return NULL`, `some p` is the return of a pointer expression.
* Calls into the host (`SIA_MEM_COMMIT`, `malloc`) are answered by an extra
  argument of the embedded function: the outcome of that call.
* The `error_callback` is a function pointer supplied by the caller; it receives the
  error by value and is taken not to touch the arena.
* Sizes that depend on the ABI are those of LP64: `sizeof(void*) = 8` and
  `sizeof(si_arena) = 64`.
* Pointer arithmetic (`ptr + size`, `node->data + pos_aligned`) is exact: C leaves
  its overflow undefined.  `SIA_MEM_DECOMMIT` and `free` change nothing the embedded
  state records.
-/

namespace SiArena

/-! ## Machine arithmetic -/

/-- Modulus of `sia_u64`. -/
def U64 : Nat := 2 ^ 64

/-- Modulus of `sia_u32`. -/
def U32 : Nat := 2 ^ 32

/-- Addition of two `sia_u64`. -/
def add64 (a b : Nat) : Nat := (a + b) % U64

/-- Subtraction of two `sia_u64` (wraps below zero). -/
def sub64 (a b : Nat) : Nat := (a % U64 + (U64 - b % U64)) % U64

/-- Bitwise complement of a `sia_u64`. -/
def not64 (a : Nat) : Nat := U64 - 1 - a % U64

/-- Macro `SIA_MIN(a, b) ((a) < (b) ? (a) : (b))`. -/
def SIA_MIN (a b : Nat) : Nat := if a < b then a else b

/-- Macro `SIA_MAX(a, b) ((a) > (b) ? (a) : (b))`. -/
def SIA_MAX (a b : Nat) : Nat := if a > b then a else b

/-- Macro `SIA_ALIGN_UP_POW2(x, b) (((sia_u64)(x) + ((sia_u64)(b) - 1)) & (~((sia_u64)(b) - 1)))`. -/
def SIA_ALIGN_UP_POW2 (x b : Nat) : Nat :=
  add64 (x % U64) (sub64 b 1) &&& not64 (sub64 b 1)

/-- The function `_sia_round_pow2` on `sia_u32`. -/
def _sia_round_pow2 (v : Nat) : Nat :=
  let v := (v % U32 + (U32 - 1)) % U32
  let v := v ||| (v >>> 1)
  let v := v ||| (v >>> 2)
  let v := v ||| (v >>> 4)
  let v := v ||| (v >>> 8)
  let v := v ||| (v >>> 16)
  (v + 1) % U32

/-! ## Errors and descriptions -/

/-- The enumeration `sia_error_code`. -/
inductive sia_error_code where
  | SIA_ERR_NONE
  | SIA_ERR_INIT_FAILED
  | SIA_ERR_MALLOC_FAILED
  | SIA_ERR_COMMIT_FAILED
  | SIA_ERR_OUT_OF_MEMORY
  | SIA_ERR_CANNOT_POP_MORE
  | SIA_ERR_REALLOC_FAILED
  | SIA_ERR_INVALID_PTR
  | SIA_ERR_MERGE_FAILED
  deriving DecidableEq

open sia_error_code

/-- The struct `sia_error`. -/
structure sia_error where
  code : sia_error_code
  msg : String
  deriving DecidableEq

/-- The struct `sia_desc` (the callback is not part of the embedded state). -/
structure sia_desc where
  desired_max_size : Nat
  desired_block_size : Nat
  align : Nat
  deriving DecidableEq

/-- The struct `_sia_init_data`. -/
structure _sia_init_data where
  max_size : Nat
  block_size : Nat
  align : Nat
  deriving DecidableEq

/-- The value of `sizeof(void*)`. -/
def sizeof_ptr : Nat := 8

/-- The value of `sizeof(si_arena)`: three `sia_u64`, one `sia_u32` with its padding,
the 8-byte backend union, the 16-byte `sia_error` and the callback pointer. -/
def sizeof_si_arena : Nat := 64

/-- The function `_sia_init_common`; `page_size` is the result of `SIA_MEM_PAGESIZE()`. -/
def _sia_init_common (page_size : Nat) (desc : sia_desc) : _sia_init_data :=
  let max_size := SIA_ALIGN_UP_POW2 desc.desired_max_size page_size
  let desired_block_size :=
    if desc.desired_block_size = 0 then
      SIA_ALIGN_UP_POW2 (max_size / 8) page_size % U32
    else desc.desired_block_size
  let desired_block_size := SIA_ALIGN_UP_POW2 desired_block_size page_size % U32
  { max_size := max_size
    block_size := _sia_round_pow2 desired_block_size
    align := if desc.align = 0 then sizeof_ptr else desc.align }

/-! ## Reserve/commit backend (SIA_FORCE_MALLOC not defined) -/

namespace Reserve

/-- Macro `SIA_MIN_POS SIA_ALIGN_UP_POW2(sizeof(si_arena), 64)`. -/
def SIA_MIN_POS : Nat := SIA_ALIGN_UP_POW2 sizeof_si_arena 64

/-- The struct `si_arena` with the union member `_reserve_backend`. -/
structure si_arena where
  _pos : Nat
  _size : Nat
  _block_size : Nat
  _align : Nat
  commit_pos : Nat
  _last_error : sia_error

/-- What the operations of one arena read and write: the arena handle, the
thread variable `last_error`, and the bytes of the reservation by offset. -/
structure State where
  arena : si_arena
  last_error : sia_error
  mem : Nat → Nat

/-- The four statements of every error site on an existing arena: store the error in
the thread variable, copy it to the arena, call the callback. -/
def raise (s : State) (code : sia_error_code) (msg : String) : State :=
  { s with last_error := ⟨code, msg⟩, arena := { s.arena with _last_error := ⟨code, msg⟩ } }

/-- The struct `sia_temp` (the arena is the one of the state). -/
structure sia_temp where
  _pos : Nat

/-- Function `sia_create`; `reserve_ok` and `commit_ok` are the outcomes of
`SIA_MEM_RESERVE` and `SIA_MEM_COMMIT`, `g` is the thread variable `last_error` and
`mem` the content of the fresh reservation.  An `error e` is the return of NULL
with `last_error = e`. -/
def sia_create (page_size : Nat) (reserve_ok commit_ok : Bool) (desc : sia_desc)
    (g : sia_error) (mem : Nat → Nat) : Except sia_error State :=
  let init_data := _sia_init_common page_size desc
  if !reserve_ok then
    .error ⟨SIA_ERR_INIT_FAILED, "Failed to reserve initial memory for arena"⟩
  else if !commit_ok then
    .error ⟨SIA_ERR_INIT_FAILED, "Failed to commit initial memory for arena"⟩
  else
    .ok { arena :=
            { _pos := SIA_MIN_POS
              _size := init_data.max_size
              _block_size := init_data.block_size
              _align := init_data.align
              commit_pos := init_data.block_size
              _last_error := ⟨SIA_ERR_NONE, ""⟩ }
          last_error := g
          mem := mem }

/-- Function `sia_push` of the reserve backend; `commit_ok` is the outcome of the
call of `SIA_MEM_COMMIT`, when the function makes one. -/
def sia_push (commit_ok : Bool) (s : State) (size : Nat) : State × Option Nat :=
  if add64 s.arena._pos size > s.arena._size then
    (raise s SIA_ERR_OUT_OF_MEMORY "Arena ran out of memory", none)
  else
    let pos_aligned := SIA_ALIGN_UP_POW2 s.arena._pos s.arena._align
    let out := pos_aligned
    let s1 : State := { s with arena := { s.arena with _pos := add64 pos_aligned size } }
    let commit_pos := s1.arena.commit_pos
    if s1.arena._pos > commit_pos then
      let commit_unclamped := SIA_ALIGN_UP_POW2 s1.arena._pos s1.arena._block_size
      let new_commit_pos := SIA_MIN commit_unclamped s1.arena._size
      if !commit_ok then
        (raise s1 SIA_ERR_COMMIT_FAILED "Failed to commit memory", none)
      else
        ({ s1 with arena := { s1.arena with commit_pos := new_commit_pos } }, some out)
    else
      (s1, some out)

/-- Function `sia_pop` of the reserve backend. -/
def sia_pop (s : State) (size : Nat) : State :=
  if size > sub64 s.arena._pos SIA_MIN_POS then
    raise s SIA_ERR_CANNOT_POP_MORE "Attempted to pop too much memory"
  else
    let s1 : State :=
      { s with arena := { s.arena with _pos := SIA_MAX SIA_MIN_POS (sub64 s.arena._pos size) } }
    let new_commit := SIA_MIN s1.arena._size (SIA_ALIGN_UP_POW2 s1.arena._pos s1.arena._block_size)
    let commit_pos := s1.arena.commit_pos
    if new_commit < commit_pos then
      { s1 with arena := { s1.arena with commit_pos := new_commit } }
    else
      s1

/-- Function `sia_pop_to`. -/
def sia_pop_to (s : State) (pos : Nat) : State :=
  sia_pop s (sub64 s.arena._pos pos)

/-- Function `sia_reset` of the reserve backend. -/
def sia_reset (s : State) : State :=
  sia_pop_to s SIA_MIN_POS

/-- Function `sia_temp_begin`. -/
def sia_temp_begin (s : State) : sia_temp :=
  { _pos := s.arena._pos }

/-- Function `sia_temp_end`. -/
def sia_temp_end (s : State) (temp : sia_temp) : State :=
  sia_pop_to s temp._pos

/-- Function `sia_get_pos`. -/
def sia_get_pos (s : State) : Nat := s.arena._pos

/-- Macro `SIA_MEMCPY(dst, src, n)` on the bytes of the reservation. -/
def SIA_MEMCPY (mem : Nat → Nat) (dst src n : Nat) : Nat → Nat :=
  fun i => if dst ≤ i ∧ i < dst + n then mem (src + (i - dst)) else mem i

/-- Function `_sia_is_valid_ptr` of the reserve backend, for a pointer that is not
NULL. -/
def _sia_is_valid_ptr (s : State) (ptr size : Nat) : Bool :=
  decide (ptr ≥ SIA_MIN_POS ∧ ptr + size ≤ s.arena._pos)

/-- Function `_sia_is_last_allocation` of the reserve backend. -/
def _sia_is_last_allocation (s : State) (ptr size : Nat) : Bool :=
  if ptr < SIA_MIN_POS ∨ ptr ≥ s.arena._pos then false
  else
    let ptr_offset := ptr
    let aligned_offset := SIA_ALIGN_UP_POW2 ptr_offset s.arena._align
    let allocation_end := add64 aligned_offset size
    decide (allocation_end = s.arena._pos)

/-- Macro `SIA_MEMSET(dst, c, n)` on the bytes of the reservation. -/
def SIA_MEMSET (mem : Nat → Nat) (dst c n : Nat) : Nat → Nat :=
  fun i => if dst ≤ i ∧ i < dst + n then c else mem i

/-- Function `sia_push_zero`.  The source calls `SIA_MEMSET(out, 0, size)` whatever
`sia_push` returned; `none` is the write of `size > 0` bytes through NULL. -/
def sia_push_zero (commit_ok : Bool) (s : State) (size : Nat) : Option (State × Option Nat) :=
  let r := sia_push commit_ok s size
  match r.2 with
  | some out => some ({ r.1 with mem := SIA_MEMSET r.1.mem out 0 size }, some out)
  | none => if size = 0 then some (r.1, none) else none

/-- Function `sia_realloc` of the reserve backend, for an arena that is not NULL.
The arguments `c1`, `c2`, `c3` are the outcomes of the calls of `SIA_MEM_COMMIT` made
by the first `sia_push`, by the in-place extension and by the last `sia_push`. -/
def sia_realloc (c1 c2 c3 : Bool) (s : State) (ptr : Option Nat) (old_size new_size : Nat) :
    State × Option Nat :=
  match ptr with
  | none => sia_push c1 s new_size
  | some p =>
    if new_size = 0 then
      (raise s SIA_ERR_INVALID_PTR "New size is 0", none)
    else if new_size ≤ old_size then
      if !_sia_is_valid_ptr s p old_size then
        (raise s SIA_ERR_INVALID_PTR "Invalid pointer for realloc", none)
      else (s, some p)
    else if !_sia_is_valid_ptr s p old_size then
      (raise s SIA_ERR_INVALID_PTR "Invalid pointer for realloc", none)
    else
      -- lines 908-919: the state after the first attempt, and whether it returned `ptr`
      let first : State × Bool :=
        if _sia_is_last_allocation s p old_size then
          let additional_size := sub64 new_size old_size
          let r := sia_push c1 s additional_size
          if r.2 = some (p + old_size) then (r.1, true)
          else (sia_pop r.1 additional_size, false)
        else (s, false)
      if first.2 then (first.1, some p)
      else
        let s := first.1
        let aligned_offset := SIA_ALIGN_UP_POW2 p s.arena._align
        let allocation_end := add64 aligned_offset old_size
        let additional_size := sub64 new_size old_size
        let space_available := sub64 s.arena._size s.arena._pos
        if p ≥ SIA_MIN_POS ∧ p < s.arena._pos ∧ allocation_end = s.arena._pos
            ∧ additional_size ≤ space_available then
          let s1 : State :=
            { s with arena := { s.arena with _pos := add64 s.arena._pos additional_size } }
          let commit_pos := s1.arena.commit_pos
          if s1.arena._pos > commit_pos then
            let commit_unclamped := SIA_ALIGN_UP_POW2 s1.arena._pos s1.arena._block_size
            let new_commit_pos := SIA_MIN commit_unclamped s1.arena._size
            if !c2 then
              (raise { s1 with arena := { s1.arena with _pos := sub64 s1.arena._pos additional_size } }
                SIA_ERR_COMMIT_FAILED "Failed to commit memory for realloc", none)
            else
              ({ s1 with arena := { s1.arena with commit_pos := new_commit_pos } }, some p)
          else (s1, some p)
        else
          let r := sia_push c3 s new_size
          match r.2 with
          | none =>
            (raise r.1 SIA_ERR_REALLOC_FAILED "Failed to allocate new memory for realloc", none)
          | some new_ptr =>
            ({ r.1 with mem := SIA_MEMCPY r.1.mem new_ptr p old_size }, some new_ptr)

/-- Function `sia_get_error`; `arena_null` tells whether the argument is NULL, in
which case the slot is the thread variable `last_error`. -/
def sia_get_error (s : State) (arena_null : Bool) : State × sia_error :=
  if arena_null then
    ({ s with last_error := ⟨SIA_ERR_NONE, ""⟩ }, s.last_error)
  else
    ({ s with arena := { s.arena with _last_error := ⟨SIA_ERR_NONE, ""⟩ } }, s.arena._last_error)

/-- The call `SIA_MEMCPY(dst, src_data, n)` of `sia_merge`: the source bytes are those
of another reservation, `src_mem`. -/
def SIA_MEMCPY_from (mem : Nat → Nat) (dst : Nat) (src_mem : Nat → Nat) (src n : Nat) :
    Nat → Nat :=
  fun i => if dst ≤ i ∧ i < dst + n then src_mem (src + (i - dst)) else mem i

/-- The loop of `sia_merge` that sums `total_size` (a `sia_u64`). -/
def sia_merge_total_size (arenas : List State) : Nat :=
  arenas.foldl (fun total_size a => add64 total_size (sub64 a.arena._pos SIA_MIN_POS)) 0

/-- The loop of `sia_merge` that computes `max_block_size` (a `sia_u32`). -/
def sia_merge_max_block_size (arenas : List State) : Nat :=
  arenas.foldl
    (fun max_block_size a =>
      if a.arena._block_size > max_block_size then a.arena._block_size % U32
      else max_block_size) 0

/-- The loop of `sia_merge` that computes `max_align` (a `sia_u32`). -/
def sia_merge_max_align (arenas : List State) : Nat :=
  arenas.foldl
    (fun max_align a => if a.arena._align > max_align then a.arena._align % U32 else max_align) 0

/-- The copy loop of `sia_merge` on the reserve backend, from source number `i` on;
`push_commit_ok i` is the outcome of the commit the push for source `i` makes.  An
`error e` is the return of NULL with `last_error = e`. -/
def sia_merge_copy (push_commit_ok : Nat → Bool) :
    Nat → List State → State → Except sia_error State
  | _, [], merged => .ok merged
  | i, src :: rest, merged =>
    let src_used := src.arena._pos
    if src_used > SIA_MIN_POS then
      let copy_size := sub64 src_used SIA_MIN_POS
      let r := sia_push (push_commit_ok i) merged copy_size
      match r.2 with
      | none => .error ⟨SIA_ERR_MERGE_FAILED, "Failed to allocate space in merged arena"⟩
      | some dst =>
        sia_merge_copy push_commit_ok (i + 1) rest
          { r.1 with mem := SIA_MEMCPY_from r.1.mem dst src.mem SIA_MIN_POS copy_size }
    else
      sia_merge_copy push_commit_ok (i + 1) rest merged

/-- Function `sia_merge` on the reserve backend.  An element `none` of `arenas` is a
NULL pointer in the array; the empty list also stands for a NULL array.
`reserve_ok` and `commit_ok` are the outcomes of the host calls of `sia_create`,
`g` the thread variable `last_error`, `mem` the content of the new reservation.
The result `error e` is the return of NULL with `last_error = e`. -/
def sia_merge (page_size : Nat) (reserve_ok commit_ok : Bool) (push_commit_ok : Nat → Bool)
    (arenas : List (Option State)) (g : sia_error) (mem : Nat → Nat) :
    Except sia_error State :=
  if arenas.isEmpty then
    .error ⟨SIA_ERR_INVALID_PTR, "Arenas are NULL or empty"⟩
  else if arenas.any Option.isNone then
    .error ⟨SIA_ERR_INVALID_PTR, "Arena is NULL"⟩
  else
    let srcs := arenas.filterMap id
    let total_size := sia_merge_total_size srcs
    let merged_desc : sia_desc :=
      { desired_max_size := total_size
        desired_block_size := sia_merge_max_block_size srcs
        align := sia_merge_max_align srcs }
    match sia_create page_size reserve_ok commit_ok merged_desc g mem with
    | .error e => .error e
    | .ok merged =>
      match sia_merge_copy push_commit_ok 0 srcs merged with
      | .error e => .error e
      | .ok merged =>
        let merged_used := sia_get_pos merged
        if sub64 merged_used SIA_MIN_POS ≠ total_size then
          .error ⟨SIA_ERR_MERGE_FAILED, "Merge validation failed: size mismatch"⟩
        else .ok merged

end Reserve

/-! ## Chunked heap backend (SIA_FORCE_MALLOC defined) -/

namespace Malloc

/-- The struct `_sia_malloc_node` without its `prev` pointer: the chain is the list
`prev` of the arena, nearest node first.  The field `data` is the address of the
buffer. -/
structure _sia_malloc_node where
  size : Nat
  pos : Nat
  data : Nat
  deriving DecidableEq

/-- The struct `si_arena` with the union member `_malloc_backend`: `cur_node` is the
node `_malloc_backend.cur_node` points to, `prev` the nodes reached from it through
the `prev` pointers, ending where the pointer is NULL. -/
structure si_arena where
  _pos : Nat
  _size : Nat
  _block_size : Nat
  _align : Nat
  cur_node : _sia_malloc_node
  prev : List _sia_malloc_node
  _last_error : sia_error

/-- What the operations of one arena read and write: the arena handle, the
thread variable `last_error`, and the bytes of the heap by address. -/
structure State where
  arena : si_arena
  last_error : sia_error
  mem : Nat → Nat

/-- The four statements of every error site on an existing arena. -/
def raise (s : State) (code : sia_error_code) (msg : String) : State :=
  { s with last_error := ⟨code, msg⟩, arena := { s.arena with _last_error := ⟨code, msg⟩ } }

/-- All nodes of the chain, the current node first. -/
def nodes (a : si_arena) : List _sia_malloc_node := a.cur_node :: a.prev

/-- Function `sia_create` of the chunked backend.  `arena_ok` and `node_ok` tell whether
the two `malloc` calls for the records returned a pointer, `data` is the address
returned for the buffer (0 for NULL).  An `error e` is the return of NULL with
`last_error = e`; `none` is the store through the unchecked NULL node pointer. -/
def sia_create (page_size : Nat) (arena_ok node_ok : Bool) (data : Nat) (desc : sia_desc)
    (g : sia_error) (mem : Nat → Nat) : Option (Except sia_error State) :=
  let init_data := _sia_init_common page_size desc
  if !arena_ok then
    some (.error ⟨SIA_ERR_INIT_FAILED, "Failed to malloc initial memory for arena"⟩)
  else if !node_ok then none
  else
    some (.ok
      { arena :=
          { _pos := 0
            _size := init_data.max_size
            _block_size := init_data.block_size
            _align := init_data.align
            cur_node := { size := init_data.block_size, pos := 0, data := data }
            prev := []
            _last_error := ⟨SIA_ERR_NONE, ""⟩ }
        last_error := g
        mem := mem })

/-- Function `sia_push` of the chunked backend.  `new_node_ok` tells whether `malloc`
returned a pointer for the node record, `data` is the address it returned for the
buffer (0 for NULL). -/
def sia_push (new_node_ok : Bool) (data : Nat) (s : State) (size : Nat) : State × Option Nat :=
  if add64 s.arena._pos size > s.arena._size then
    (raise s SIA_ERR_OUT_OF_MEMORY "Arena ran out of memory", none)
  else
    let node := s.arena.cur_node
    let pos_aligned := SIA_ALIGN_UP_POW2 node.pos s.arena._align
    let diff := sub64 pos_aligned node.pos % U32
    let s1 : State :=
      { s with arena := { s.arena with _pos := add64 s.arena._pos (add64 diff size) } }
    if s1.arena._pos ≥ node.size then
      let unclamped_node_size := SIA_ALIGN_UP_POW2 size s1.arena._block_size
      let max_node_size := sub64 s1.arena._size s1.arena._pos
      let node_size := SIA_MIN unclamped_node_size max_node_size
      if !new_node_ok ∨ data = 0 then
        (raise s1 SIA_ERR_MALLOC_FAILED "Failed to malloc new node", none)
      else
        ({ s1 with arena :=
            { s1.arena with
              cur_node := { pos := size, size := node_size, data := data }
              prev := node :: s1.arena.prev } },
         some data)
    else
      ({ s1 with arena := { s1.arena with cur_node := { node with pos := add64 pos_aligned size } } },
       some (node.data + pos_aligned))

/-- The loop of `sia_pop`: `while (size_left > node->pos)`.  The result is the value of
`size_left`, the node the loop stops at and the chain behind it; `none` is the read of
`node->pos` through the NULL `prev` pointer of the first node. -/
def sia_pop_loop (size_left : Nat) (node : _sia_malloc_node) :
    List _sia_malloc_node → Option (Nat × _sia_malloc_node × List _sia_malloc_node)
  | [] => if size_left > node.pos then none else some (size_left, node, [])
  | p :: ps =>
    if size_left > node.pos then sia_pop_loop (sub64 size_left node.pos) p ps
    else some (size_left, node, p :: ps)

/-- Function `sia_pop` of the chunked backend.  The error branch has no `return`:
the function goes on after recording the error.  `none` is the read through NULL. -/
def sia_pop (s : State) (size : Nat) : Option State :=
  let s0 : State :=
    if size > s.arena._pos then
      raise s SIA_ERR_CANNOT_POP_MORE "Attempted to pop too much memory"
    else s
  match sia_pop_loop size s0.arena.cur_node s0.arena.prev with
  | none => none
  | some (size_left, node, rest) =>
    some { s0 with arena :=
      { s0.arena with
        cur_node := { node with pos := sub64 node.pos size_left }
        prev := rest
        _pos := sub64 s0.arena._pos size } }

/-- Function `sia_pop_to`. -/
def sia_pop_to (s : State) (pos : Nat) : Option State :=
  sia_pop s (sub64 s.arena._pos pos)

/-- Function `sia_reset` of the chunked backend. -/
def sia_reset (s : State) : Option State :=
  sia_pop_to s 0

/-- The struct `sia_temp` (the arena is the one of the state). -/
structure sia_temp where
  _pos : Nat

/-- Function `sia_temp_begin`. -/
def sia_temp_begin (s : State) : sia_temp :=
  { _pos := s.arena._pos }

/-- Function `sia_temp_end`. -/
def sia_temp_end (s : State) (temp : sia_temp) : Option State :=
  sia_pop_to s temp._pos

/-- Function `sia_get_error`; `arena_null` tells whether the argument is NULL, in
which case the slot is the thread variable `last_error`. -/
def sia_get_error (s : State) (arena_null : Bool) : State × sia_error :=
  if arena_null then
    ({ s with last_error := ⟨SIA_ERR_NONE, ""⟩ }, s.last_error)
  else
    ({ s with arena := { s.arena with _last_error := ⟨SIA_ERR_NONE, ""⟩ } }, s.arena._last_error)

/-- Macro `SIA_MEMSET(dst, c, n)` on the bytes of the heap. -/
def SIA_MEMSET (mem : Nat → Nat) (dst c n : Nat) : Nat → Nat :=
  fun i => if dst ≤ i ∧ i < dst + n then c else mem i

/-- Macro `SIA_MEMCPY(dst, src, n)` on the bytes of the heap. -/
def SIA_MEMCPY (mem : Nat → Nat) (dst src n : Nat) : Nat → Nat :=
  fun i => if dst ≤ i ∧ i < dst + n then mem (src + (i - dst)) else mem i

/-- Function `sia_push_zero`.  The source calls `SIA_MEMSET(out, 0, size)` whatever
`sia_push` returned; `none` is the write of `size > 0` bytes through NULL. -/
def sia_push_zero (new_node_ok : Bool) (data : Nat) (s : State) (size : Nat) :
    Option (State × Option Nat) :=
  let r := sia_push new_node_ok data s size
  match r.2 with
  | some out => some ({ r.1 with mem := SIA_MEMSET r.1.mem out 0 size }, some out)
  | none => if size = 0 then some (r.1, none) else none

/-- Function `_sia_is_valid_ptr` of the chunked backend, for a pointer that is not
NULL: the scan of the node chain. -/
def _sia_is_valid_ptr (s : State) (ptr size : Nat) : Bool :=
  (nodes s.arena).any (fun node => decide (ptr ≥ node.data ∧ ptr + size ≤ node.data + node.size))

/-- Function `_sia_is_last_allocation` of the chunked backend. -/
def _sia_is_last_allocation (s : State) (ptr size : Nat) : Bool :=
  let node := s.arena.cur_node
  if ptr < node.data ∨ ptr ≥ node.data + node.size then false
  else
    let ptr_offset := ptr - node.data
    let aligned_offset := SIA_ALIGN_UP_POW2 ptr_offset s.arena._align
    let allocation_end := add64 aligned_offset size
    decide (allocation_end = node.pos)

/-- The part of `sia_realloc` after the first attempt, chunked backend (lines 921-957):
the in-place extension inside the current node, else push and copy.  `ok2` and `data2`
answer the `malloc` calls of that push. -/
def sia_realloc_grow (ok2 : Bool) (data2 : Nat) (s : State) (p old_size new_size : Nat) :
    State × Option Nat :=
  let node := s.arena.cur_node
  let aligned_offset := SIA_ALIGN_UP_POW2 (p - node.data) s.arena._align
  let allocation_end := add64 aligned_offset old_size
  let additional_size := sub64 new_size old_size
  let space_available := sub64 node.size node.pos
  if p ≥ node.data ∧ p < node.data + node.size ∧ allocation_end = node.pos
      ∧ additional_size ≤ space_available then
    ({ s with arena :=
        { s.arena with
          _pos := add64 s.arena._pos additional_size
          cur_node := { node with pos := add64 node.pos additional_size } } },
     some p)
  else
    let r := sia_push ok2 data2 s new_size
    match r.2 with
    | none =>
      (raise r.1 SIA_ERR_REALLOC_FAILED "Failed to allocate new memory for realloc", none)
    | some new_ptr =>
      ({ r.1 with mem := SIA_MEMCPY r.1.mem new_ptr p old_size }, some new_ptr)

/-- Function `sia_realloc` of the chunked backend, for an arena that is not NULL.
`ok1`, `data1` answer the `malloc` calls of the first `sia_push`, `ok2`, `data2` those
of the last one; `none` is the read through NULL inside `sia_pop`. -/
def sia_realloc (ok1 : Bool) (data1 : Nat) (ok2 : Bool) (data2 : Nat) (s : State)
    (ptr : Option Nat) (old_size new_size : Nat) : Option (State × Option Nat) :=
  match ptr with
  | none => some (sia_push ok1 data1 s new_size)
  | some p =>
    if new_size = 0 then
      some (raise s SIA_ERR_INVALID_PTR "New size is 0", none)
    else if new_size ≤ old_size then
      if !_sia_is_valid_ptr s p old_size then
        some (raise s SIA_ERR_INVALID_PTR "Invalid pointer for realloc", none)
      else some (s, some p)
    else if !_sia_is_valid_ptr s p old_size then
      some (raise s SIA_ERR_INVALID_PTR "Invalid pointer for realloc", none)
    else if _sia_is_last_allocation s p old_size then
      let additional_size := sub64 new_size old_size
      let r := sia_push ok1 data1 s additional_size
      if r.2 = some (p + old_size) then some (r.1, some p)
      else
        match sia_pop r.1 additional_size with
        | none => none
        | some s1 => some (sia_realloc_grow ok2 data2 s1 p old_size new_size)
    else some (sia_realloc_grow ok2 data2 s p old_size new_size)

end Malloc

/-! ## Scratch pool -/

namespace Scratch

/-- The struct `sia_temp` as `sia_scratch_get` returns it: `arena` is the address of
the arena (0 for NULL), `_pos` the saved position. -/
structure sia_temp where
  arena : Nat
  _pos : Nat
  deriving DecidableEq

/-- The default of the macro `SIA_SCRATCH_COUNT`. -/
def SIA_SCRATCH_COUNT : Nat := 2

/-- The second loop of `sia_scratch_get` over the slots that are left, `out` being the
value of the variable `out` so far.  The inner loop over `conflicts` is the membership
test; `pos_of a` is `a->_pos`; `none` is the call of `sia_temp_begin` on a NULL slot. -/
def sia_scratch_get_loop (pos_of : Nat → Nat) (conflicts : List Nat) :
    List Nat → sia_temp → Option sia_temp
  | [], out => some out
  | arena :: rest, out =>
    if arena ∈ conflicts then sia_scratch_get_loop pos_of conflicts rest out
    else if arena = 0 then none
    else sia_scratch_get_loop pos_of conflicts rest { arena := arena, _pos := pos_of arena }

/-- Function `sia_scratch_get`.  `scratch_arenas` is the thread variable
`_sia_scratch_arenas`, `created` the pointers the calls of `sia_create` return when
the pool is not materialised yet.  The result is the array after the call and the
temp returned. -/
def sia_scratch_get (created scratch_arenas : List Nat) (pos_of : Nat → Nat)
    (conflicts : List Nat) : List Nat × Option sia_temp :=
  let scratch_arenas := if scratch_arenas.head? = some 0 then created else scratch_arenas
  (scratch_arenas, sia_scratch_get_loop pos_of conflicts scratch_arenas { arena := 0, _pos := 0 })

end Scratch


/-! ## Predicates and inputs used by the statements -/

/-- The value of `last_error` before any error: code `SIA_ERR_NONE`. -/
def no_error : sia_error := ⟨SIA_ERR_NONE, ""⟩

/-- Memory whose bytes all read 0. -/
def zero_mem : Nat → Nat := fun _ => 0

namespace Reserve

/-- The invariant the data model states for the reserve backend: `commit_pos` is a
multiple of `block_size` or equals `size`, and `MIN_POS ≤ pos ≤ commit_pos ≤ size`. -/
def invariant (s : State) : Prop :=
  (s.arena.commit_pos % s.arena._block_size = 0 ∨ s.arena.commit_pos = s.arena._size) ∧
  SIA_MIN_POS ≤ s.arena._pos ∧ s.arena._pos ≤ s.arena.commit_pos ∧
  s.arena.commit_pos ≤ s.arena._size

instance (s : State) : Decidable (invariant s) := by
  unfold invariant; infer_instance

/-- The arena `sia_create` returns for `max = 4096, block = 4096, align = 8` with
4096-byte pages. -/
def fresh_4k : State :=
  { arena := { _pos := 64, _size := 4096, _block_size := 4096, _align := 8,
               commit_pos := 4096, _last_error := no_error }
    last_error := no_error
    mem := zero_mem }

/-- The arena `sia_create` returns for `max = 1 MiB, block = 64 KiB, align = 8` with
4096-byte pages. -/
def fresh_1m : State :=
  { arena := { _pos := 64, _size := 1048576, _block_size := 65536, _align := 8,
               commit_pos := 65536, _last_error := no_error }
    last_error := no_error
    mem := zero_mem }

end Reserve

namespace Malloc

/-- Sum of the `pos` fields of all nodes of the chain. -/
def sum_pos (a : si_arena) : Nat := ((nodes a).map (fun n => n.pos)).sum

/-- The arena `sia_create` returns for `max = 1 MiB, block = 4096, align = 8` with
4096-byte pages, its first buffer at address `0x10000`. -/
def fresh_1m : State :=
  { arena := { _pos := 0, _size := 1048576, _block_size := 4096, _align := 8,
               cur_node := { size := 4096, pos := 0, data := 0x10000 }, prev := [],
               _last_error := no_error }
    last_error := no_error
    mem := zero_mem }

/-- The arena `sia_create` returns for `max = 8192, block = 4096, align = 8` with
4096-byte pages, its first buffer at address `0x10000`. -/
def fresh_8k : State :=
  { arena := { _pos := 0, _size := 8192, _block_size := 4096, _align := 8,
               cur_node := { size := 4096, pos := 0, data := 0x10000 }, prev := [],
               _last_error := no_error }
    last_error := no_error
    mem := zero_mem }

end Malloc

/-- The bytes a caller stores through the pointer `dst`. -/
def write_bytes (mem : Nat → Nat) (dst : Nat) (bytes : List Nat) : Nat → Nat :=
  fun i => if dst ≤ i ∧ i < dst + bytes.length then bytes.getD (i - dst) 0 else mem i

namespace Reserve

/-- The live bytes of a reserve arena, those at the offsets `[MIN_POS, pos)`. -/
def live_bytes (s : State) : List Nat :=
  (List.range (s.arena._pos - SIA_MIN_POS)).map (fun i => s.mem (SIA_MIN_POS + i))

/-- The arena `sia_create` returns for `max = 4096, block = 64 KiB, align = 8` with
4096-byte pages, when the host grants the commit of the first block. -/
def fresh_4k_block_64k : State :=
  { arena := { _pos := 64, _size := 4096, _block_size := 65536, _align := 8,
               commit_pos := 65536, _last_error := no_error }
    last_error := no_error
    mem := zero_mem }

/-- The arena X of the merge scenario: created with the default alignment, then
`push(5)` and the bytes of "HELLO" stored at the pointer returned (offset 64). -/
def arena_hello : State :=
  { (sia_push true fresh_1m 5).1 with mem := write_bytes zero_mem 64 [72, 69, 76, 76, 79] }

/-- The arena Y of the merge scenario, holding the bytes of "WORLD". -/
def arena_world : State :=
  { (sia_push true fresh_1m 5).1 with mem := write_bytes zero_mem 64 [87, 79, 82, 76, 68] }

end Reserve

namespace Reserve

/-- The arena `sia_create` returns for `max = 4096, block = 4096, align = 128` with
4096-byte pages. -/
def fresh_4k_align_128 : State :=
  { arena := { _pos := 64, _size := 4096, _block_size := 4096, _align := 128,
               commit_pos := 4096, _last_error := no_error }
    last_error := no_error
    mem := zero_mem }

/-- One call on a reserve arena. -/
inductive Op where
  | push (size : Nat)
  | pop (size : Nat)
  | pop_to (pos : Nat)
  | reset
  | realloc (ptr : Option Nat) (old_size new_size : Nat)

/-- The state after one call, every `SIA_MEM_COMMIT` of the call being granted. -/
def step (s : State) : Op → State
  | .push size => (sia_push true s size).1
  | .pop size => sia_pop s size
  | .pop_to pos => sia_pop_to s pos
  | .reset => sia_reset s
  | .realloc ptr old_size new_size => (sia_realloc true true true s ptr old_size new_size).1

/-- The state after a sequence of calls, every commit being granted. -/
def run (s : State) (ops : List Op) : State := ops.foldl step s

/-- No `sia_u64` sum of the call can wrap: the position, the alignment padding, the
bytes requested and one block stay below `2^64` together, and `pop_to` is given a
position that is not above the current one. -/
def no_wrap (s : State) : Op → Prop
  | .push size => s.arena._pos + s.arena._align + size + s.arena._block_size ≤ 2 ^ 64
  | .pop _ => True
  | .pop_to pos => pos ≤ s.arena._pos
  | .reset => True
  | .realloc _ _ new_size =>
    s.arena._pos + 2 * s.arena._align + 2 * new_size + s.arena._block_size ≤ 2 ^ 64

/-- No call of the sequence wraps, each taken in the state the calls before it leave. -/
def run_no_wrap : State → List Op → Prop
  | _, [] => True
  | s, op :: ops => no_wrap s op ∧ run_no_wrap (step s op) ops

instance (s : State) (op : Op) : Decidable (no_wrap s op) := by
  cases op <;> unfold no_wrap <;> infer_instance

/-- Deciding `run_no_wrap` call by call. -/
def run_no_wrap_dec : (ops : List Op) → (s : State) → Decidable (run_no_wrap s ops)
  | [], _ => isTrue trivial
  | op :: ops, s =>
    @instDecidableAnd _ _ (inferInstance : Decidable (no_wrap s op))
      (run_no_wrap_dec ops (step s op))

instance (s : State) (ops : List Op) : Decidable (run_no_wrap s ops) := run_no_wrap_dec ops s

/-- Exact commit tracking: `commit_pos == min(size, ceil_to_block(pos))` and
`pos >= MIN_POS`. -/
def tracked (s : State) : Prop :=
  s.arena.commit_pos = SIA_MIN s.arena._size (SIA_ALIGN_UP_POW2 s.arena._pos s.arena._block_size) ∧
  SIA_MIN_POS ≤ s.arena._pos

instance (s : State) : Decidable (tracked s) := by
  unfold tracked; infer_instance

end Reserve

namespace Reserve

/-- The part of `sia_realloc` after the first attempt, reserve backend (lines 958-1010):
the in-place extension at the end of the arena, else push and copy.  `c2` and `c3`
are the outcomes of the `SIA_MEM_COMMIT` calls of the extension and of the push. -/
def sia_realloc_grow (c2 c3 : Bool) (s : State) (p old_size new_size : Nat) :
    State × Option Nat :=
  let aligned_offset := SIA_ALIGN_UP_POW2 p s.arena._align
  let allocation_end := add64 aligned_offset old_size
  let additional_size := sub64 new_size old_size
  let space_available := sub64 s.arena._size s.arena._pos
  if p ≥ SIA_MIN_POS ∧ p < s.arena._pos ∧ allocation_end = s.arena._pos
      ∧ additional_size ≤ space_available then
    let s1 : State :=
      { s with arena := { s.arena with _pos := add64 s.arena._pos additional_size } }
    let commit_pos := s1.arena.commit_pos
    if s1.arena._pos > commit_pos then
      let commit_unclamped := SIA_ALIGN_UP_POW2 s1.arena._pos s1.arena._block_size
      let new_commit_pos := SIA_MIN commit_unclamped s1.arena._size
      if !c2 then
        (raise { s1 with arena := { s1.arena with _pos := sub64 s1.arena._pos additional_size } }
          SIA_ERR_COMMIT_FAILED "Failed to commit memory for realloc", none)
      else
        ({ s1 with arena := { s1.arena with commit_pos := new_commit_pos } }, some p)
    else (s1, some p)
  else
    let r := sia_push c3 s new_size
    match r.2 with
    | none =>
      (raise r.1 SIA_ERR_REALLOC_FAILED "Failed to allocate new memory for realloc", none)
    | some new_ptr =>
      ({ r.1 with mem := SIA_MEMCPY r.1.mem new_ptr p old_size }, some new_ptr)

end Reserve

namespace Reserve

/-- The invariant behind exact commit tracking, for a block size `2^j`: the block size
holds at least the reserved prefix, `align` is a positive `sia_u64`, `size` is a
`sia_u64`, `pos >= MIN_POS`, the round-up of `pos` to a block does not wrap, and
`commit_pos == min(size, ceil_to_block(pos))`. -/
def tracked_inv (j : Nat) (s : State) : Prop :=
  j < 64 ∧ s.arena._block_size = 2 ^ j ∧
  1 ≤ s.arena._align ∧ s.arena._align < 2 ^ 64 ∧ s.arena._size < 2 ^ 64 ∧
  SIA_MIN_POS ≤ s.arena._pos ∧ s.arena._pos + 2 ^ j ≤ 2 ^ 64 ∧
  s.arena.commit_pos = min s.arena._size ((s.arena._pos + (2 ^ j - 1)) / 2 ^ j * 2 ^ j)

end Reserve

/-! ## Alignment arithmetic -/

/-- Masking a 64-bit value with `2^64 - 2^k` clears its `k` low bits. -/
theorem and_high_mask (y k : Nat) (hk : k ≤ 64) (hy : y < 2 ^ 64) :
    y &&& (2 ^ 64 - 2 ^ k) = y / 2 ^ k * 2 ^ k := by
  have hM : 2 ^ 64 - 2 ^ k = 2 ^ k * (2 ^ (64 - k) - 1) := by
    have h1 : (2:Nat) ^ 64 = 2 ^ k * 2 ^ (64 - k) := by
      rw [← pow_add]; congr 1; omega
    rw [Nat.mul_sub, h1, Nat.mul_one]
  apply Nat.eq_of_testBit_eq
  intro i
  rw [hM, Nat.testBit_and, Nat.mul_comm (y / 2 ^ k), Nat.testBit_mul_pow_two,
    Nat.testBit_mul_pow_two, Nat.testBit_two_pow_sub_one, ← Nat.shiftRight_eq_div_pow,
    Nat.testBit_shiftRight]
  by_cases hki : k ≤ i
  · have e : k + (i - k) = i := by omega
    rw [e]
    by_cases hi : i < 64
    · have : i - k < 64 - k := by omega
      simp [hki, this]
    · have hlt : y < 2 ^ i := lt_of_lt_of_le hy (Nat.pow_le_pow_right (by decide) (by omega))
      simp [Nat.testBit_lt_two_pow hlt]
  · simp [hki]

/-- For a power of two `b = 2^k` that fits 64 bits the macro rounds `x + (b - 1)`
(reduced modulo `2^64`) down to a multiple of `b`. -/
theorem SIA_ALIGN_UP_POW2_eq (x k : Nat) (hk : k < 64) :
    SIA_ALIGN_UP_POW2 x (2 ^ k) = (x % 2 ^ 64 + (2 ^ k - 1)) % 2 ^ 64 / 2 ^ k * 2 ^ k := by
  have hb : (2:Nat) ^ k < 2 ^ 64 := Nat.pow_lt_pow_right (by decide) hk
  have hb1 : 1 ≤ (2:Nat) ^ k := Nat.one_le_two_pow
  have hsub : sub64 (2 ^ k) 1 = 2 ^ k - 1 := by
    unfold sub64 U64
    rw [Nat.mod_eq_of_lt hb]
    have : 2 ^ k + (2 ^ 64 - 1 % 2 ^ 64) = (2 ^ k - 1) + 2 ^ 64 := by
      have : (1:Nat) % 2 ^ 64 = 1 := by decide
      omega
    rw [this, Nat.add_mod_right, Nat.mod_eq_of_lt (by omega)]
  have hnot : not64 (2 ^ k - 1) = 2 ^ 64 - 2 ^ k := by
    unfold not64 U64
    rw [Nat.mod_eq_of_lt (by omega)]
    omega
  unfold SIA_ALIGN_UP_POW2
  rw [hsub, hnot]
  unfold add64 U64
  exact and_high_mask _ k (by omega) (Nat.mod_lt _ (by positivity))

/-- The result of the macro is a multiple of the power of two. -/
theorem SIA_ALIGN_UP_POW2_mod (x k : Nat) (hk : k < 64) :
    SIA_ALIGN_UP_POW2 x (2 ^ k) % 2 ^ k = 0 := by
  rw [SIA_ALIGN_UP_POW2_eq x k hk]
  exact Nat.mul_mod_left _ _

/-- Without wrap-around the macro returns the least multiple of `2^k` at or above `x`:
it lies in `[x, x + 2^k)`. -/
theorem SIA_ALIGN_UP_POW2_bounds (x k : Nat) (hk : k < 64) (hx : x + 2 ^ k ≤ 2 ^ 64) :
    x ≤ SIA_ALIGN_UP_POW2 x (2 ^ k) ∧ SIA_ALIGN_UP_POW2 x (2 ^ k) < x + 2 ^ k := by
  have hb1 : 1 ≤ (2:Nat) ^ k := Nat.one_le_two_pow
  rw [SIA_ALIGN_UP_POW2_eq x k hk, Nat.mod_eq_of_lt (by omega), Nat.mod_eq_of_lt (by omega)]
  have h1 := Nat.div_add_mod (x + (2 ^ k - 1)) (2 ^ k)
  have h2 := Nat.mod_lt (x + (2 ^ k - 1)) (show 0 < 2 ^ k by omega)
  rw [Nat.mul_comm] at h1
  constructor <;> omega


/-- Subtraction of `sia_u64` values does not wrap when the result is not negative. -/
theorem sub64_eq (a b : Nat) (ha : a < 2 ^ 64) (hb : b ≤ a) : sub64 a b = a - b := by
  unfold sub64 U64
  rw [Nat.mod_eq_of_lt ha, Nat.mod_eq_of_lt (lt_of_le_of_lt hb ha)]
  have : a + (2 ^ 64 - b) = (a - b) + 2 ^ 64 := by omega
  rw [this, Nat.add_mod_right, Nat.mod_eq_of_lt (by omega)]

/-- The macro `SIA_MIN` is the minimum. -/
theorem SIA_MIN_eq (a b : Nat) : SIA_MIN a b = min a b := by
  unfold SIA_MIN
  split_ifs <;> omega

/-- The macro `SIA_MAX` is the maximum. -/
theorem SIA_MAX_eq (a b : Nat) : SIA_MAX a b = max a b := by
  unfold SIA_MAX
  split_ifs <;> omega

/-- The reserved prefix is 64 bytes. -/
theorem Reserve.SIA_MIN_POS_eq : Reserve.SIA_MIN_POS = 64 := by decide

/-- A reserve pop of more than `pos - MIN_POS` only records the error. -/
theorem Reserve.sia_pop_of_gt (s : Reserve.State) (k : Nat)
    (h : k > sub64 s.arena._pos Reserve.SIA_MIN_POS) :
    Reserve.sia_pop s k
      = Reserve.raise s SIA_ERR_CANNOT_POP_MORE "Attempted to pop too much memory" := by
  unfold Reserve.sia_pop
  rw [if_pos h]

/-- The position after a reserve pop that passes the check. -/
theorem Reserve.sia_pop_pos_of_le (s : Reserve.State) (k : Nat)
    (h : ¬ k > sub64 s.arena._pos Reserve.SIA_MIN_POS) :
    (Reserve.sia_pop s k).arena._pos
      = SIA_MAX Reserve.SIA_MIN_POS (sub64 s.arena._pos k) := by
  unfold Reserve.sia_pop
  rw [if_neg h]
  simp only []
  split_ifs <;> rfl

/-- The commit position after a reserve pop that passes the check. -/
theorem Reserve.sia_pop_commit_of_le (s : Reserve.State) (k : Nat)
    (h : ¬ k > sub64 s.arena._pos Reserve.SIA_MIN_POS) :
    (Reserve.sia_pop s k).arena.commit_pos
      = min s.arena.commit_pos
          (SIA_MIN s.arena._size
            (SIA_ALIGN_UP_POW2 (SIA_MAX Reserve.SIA_MIN_POS (sub64 s.arena._pos k))
              s.arena._block_size)) := by
  unfold Reserve.sia_pop
  rw [if_neg h]
  simp only []
  split_ifs with h2
  · simp only []; omega
  · simp only []; omega

/-- A reserve pop that passes the check leaves both error slots as they were. -/
theorem Reserve.sia_pop_errors_of_le (s : Reserve.State) (k : Nat)
    (h : ¬ k > sub64 s.arena._pos Reserve.SIA_MIN_POS) :
    (Reserve.sia_pop s k).arena._last_error = s.arena._last_error ∧
    (Reserve.sia_pop s k).last_error = s.last_error := by
  unfold Reserve.sia_pop
  rw [if_neg h]
  simp only []
  split_ifs <;> exact ⟨rfl, rfl⟩

/-! ## Reserve backend: the capacity check of push -/

/-- C1: the out-of-memory rule of the reserve push, evaluated on the arena created
with `max = 4096, block = 4096, align = 8` after `push(1)`.  There `pos = 65`,
`align_up(pos, 8) + 4031 = 4103` exceeds `size = 4096`, yet `push(4031)` passes the
check `pos + size > size` made on the unaligned position: with the commit succeeding
it returns offset 72 and leaves `pos = 4103`, with the commit failing it records
`SIA_ERR_COMMIT_FAILED`, not `SIA_ERR_OUT_OF_MEMORY`, and still leaves `pos = 4103`.
The sum of the check also wraps: on the fresh arena `push(2^64 - 1)` returns offset
64 and leaves `pos = 63`. -/
theorem reserve_push_capacity_check_unaligned :
    Reserve.sia_create 4096 true true ⟨4096, 4096, 8⟩ no_error zero_mem = .ok Reserve.fresh_4k ∧
    (Reserve.sia_push true Reserve.fresh_4k 1).2 = some 64 ∧
    (Reserve.sia_push true Reserve.fresh_4k 1).1.arena._pos = 65 ∧
    SIA_ALIGN_UP_POW2 65 8 + 4031 = 4103 ∧
    (Reserve.sia_push true Reserve.fresh_4k 1).1.arena._size = 4096 ∧
    (Reserve.sia_push true (Reserve.sia_push true Reserve.fresh_4k 1).1 4031).2 = some 72 ∧
    (Reserve.sia_push true (Reserve.sia_push true Reserve.fresh_4k 1).1 4031).1.arena._pos = 4103 ∧
    (Reserve.sia_push true (Reserve.sia_push true Reserve.fresh_4k 1).1 4031).1.arena._last_error.code
      = SIA_ERR_NONE ∧
    (Reserve.sia_push false (Reserve.sia_push true Reserve.fresh_4k 1).1 4031).2 = none ∧
    (Reserve.sia_push false (Reserve.sia_push true Reserve.fresh_4k 1).1 4031).1.arena._pos = 4103 ∧
    (Reserve.sia_push false (Reserve.sia_push true Reserve.fresh_4k 1).1 4031).1.arena._last_error.code
      = SIA_ERR_COMMIT_FAILED ∧
    (Reserve.sia_push true Reserve.fresh_4k (2 ^ 64 - 1)).2 = some 64 ∧
    (Reserve.sia_push true Reserve.fresh_4k (2 ^ 64 - 1)).1.arena._pos = 63 := by
  refine ⟨rfl, ?_, ?_, ?_, ?_, ?_, ?_, ?_, ?_, ?_, ?_, ?_, ?_⟩ <;> decide


/-! ## Failed pushes and the position -/

/-- C2: a push that returns NULL after the capacity check has already moved the
position.  Reserve backend, arena created with `max = 1 MiB, block = 64 KiB,
align = 8`: `push(71680)` whose commit fails returns NULL with
`SIA_ERR_COMMIT_FAILED` and leaves `pos = 71744`, not 64.  Chunked backend, arena
created with `max = 1 MiB, block = 4096, align = 8`: `push(5000)` whose `malloc`
fails returns NULL with `SIA_ERR_MALLOC_FAILED` and leaves `pos = 5000`, not 0. -/
theorem failed_push_moves_pos :
    Reserve.sia_create 4096 true true ⟨1048576, 65536, 8⟩ no_error zero_mem
      = .ok Reserve.fresh_1m ∧
    Reserve.fresh_1m.arena._pos = 64 ∧
    (Reserve.sia_push false Reserve.fresh_1m 71680).2 = none ∧
    (Reserve.sia_push false Reserve.fresh_1m 71680).1.arena._last_error.code
      = SIA_ERR_COMMIT_FAILED ∧
    (Reserve.sia_push false Reserve.fresh_1m 71680).1.arena._pos = 71744 ∧
    Malloc.sia_create 4096 true true 0x10000 ⟨1048576, 4096, 8⟩ no_error zero_mem
      = some (.ok Malloc.fresh_1m) ∧
    Malloc.fresh_1m.arena._pos = 0 ∧
    (Malloc.sia_push false 0 Malloc.fresh_1m 5000).2 = none ∧
    (Malloc.sia_push false 0 Malloc.fresh_1m 5000).1.arena._last_error.code
      = SIA_ERR_MALLOC_FAILED ∧
    (Malloc.sia_push false 0 Malloc.fresh_1m 5000).1.arena._pos = 5000 := by
  refine ⟨rfl, ?_, ?_, ?_, ?_, rfl, ?_, ?_, ?_, ?_⟩ <;> decide

/-! ## Reserve backend: the state invariant -/

/-- C3: the reserve invariant on reachable states.  It holds in the arena created with
`max = 1 MiB, block = 64 KiB, align = 8`; after `push(71680)` whose commit fails
`pos = 71744` exceeds `commit_pos = 65536`.  With every commit succeeding it breaks
too: on the arena created with `max = 4096, block = 4096, align = 8` the calls
`push(1); push(4031)` end with `pos = 4103` above `commit_pos = size = 4096`. -/
theorem reserve_invariant_broken_by_push :
    Reserve.sia_create 4096 true true ⟨1048576, 65536, 8⟩ no_error zero_mem
      = .ok Reserve.fresh_1m ∧
    Reserve.invariant Reserve.fresh_1m ∧
    (Reserve.sia_push false Reserve.fresh_1m 71680).1.arena._pos = 71744 ∧
    (Reserve.sia_push false Reserve.fresh_1m 71680).1.arena.commit_pos = 65536 ∧
    ¬ Reserve.invariant (Reserve.sia_push false Reserve.fresh_1m 71680).1 ∧
    Reserve.sia_create 4096 true true ⟨4096, 4096, 8⟩ no_error zero_mem = .ok Reserve.fresh_4k ∧
    Reserve.invariant Reserve.fresh_4k ∧
    Reserve.invariant (Reserve.sia_push true Reserve.fresh_4k 1).1 ∧
    (Reserve.sia_push true (Reserve.sia_push true Reserve.fresh_4k 1).1 4031).1.arena.commit_pos
      = 4096 ∧
    ¬ Reserve.invariant (Reserve.sia_push true (Reserve.sia_push true Reserve.fresh_4k 1).1 4031).1 := by
  refine ⟨rfl, ?_, ?_, ?_, ?_, rfl, ?_, ?_, ?_, ?_⟩ <;> decide

/-! ## Alignment of the result of push -/

/-- C4: when `align` is a power of two (a `sia_u32`, so `2^k` with `k < 32`), the
offset a reserve push returns is `SIA_ALIGN_UP_POW2(pos, align)` of the position before
the call, it is a multiple of `align`, and unless `pos + align` exceeds `2^64` it is
the least such multiple at or above `pos`; the pointer a chunked push returns lies in
the buffer of the node that is current after the call, at an offset from the buffer
start that is a multiple of `align`. -/
theorem sia_push_result_aligned (k : Nat) (hk : k < 32)
    (commit_ok : Bool) (s : Reserve.State) (hs : s.arena._align = 2 ^ k)
    (new_node_ok : Bool) (data : Nat) (m : Malloc.State) (hm : m.arena._align = 2 ^ k)
    (n : Nat) :
    (∀ off, (Reserve.sia_push commit_ok s n).2 = some off →
      off = SIA_ALIGN_UP_POW2 s.arena._pos s.arena._align ∧ off % s.arena._align = 0 ∧
      (s.arena._pos + s.arena._align ≤ 2 ^ 64 →
        s.arena._pos ≤ off ∧ off < s.arena._pos + s.arena._align)) ∧
    (∀ p, (Malloc.sia_push new_node_ok data m n).2 = some p →
      (Malloc.sia_push new_node_ok data m n).1.arena.cur_node.data ≤ p ∧
      (p - (Malloc.sia_push new_node_ok data m n).1.arena.cur_node.data) % m.arena._align = 0) := by
  have hk64 : k < 64 := by omega
  constructor
  · intro off h
    have hoff : off = SIA_ALIGN_UP_POW2 s.arena._pos s.arena._align := by
      unfold Reserve.sia_push at h
      simp only [] at h
      split_ifs at h <;> simp_all
    refine ⟨hoff, ?_, ?_⟩
    · rw [hoff, hs]; exact SIA_ALIGN_UP_POW2_mod _ k hk64
    · intro hb
      rw [hoff, hs] at *
      exact SIA_ALIGN_UP_POW2_bounds _ k hk64 hb
  · intro p h
    unfold Malloc.sia_push at h ⊢
    simp only [] at h ⊢
    split_ifs at h ⊢ with h1 h2 h3
    · simp only [Option.some.injEq] at h
      subst h
      simp
    · simp only [Option.some.injEq] at h
      subst h
      simp only [le_add_iff_nonneg_right, zero_le, add_tsub_cancel_left, true_and]
      rw [hm]
      exact SIA_ALIGN_UP_POW2_mod _ k hk64


/-- C4 at a concrete input: the reserve arena at `pos = 164` with `align = 8` returns
offset 168 for `push(50)`, the chunked arena whose node is at `pos = 1` returns the
address 8 bytes into the node buffer. -/
theorem sia_push_result_aligned_witness :
    (Reserve.sia_push true Reserve.fresh_1m 100).1.arena._pos = 164 ∧
    (Reserve.sia_push true (Reserve.sia_push true Reserve.fresh_1m 100).1 50).2 = some 168 ∧
    (168 = SIA_ALIGN_UP_POW2 164 8 ∧ 168 % 8 = 0 ∧
      (164 + 8 ≤ 2 ^ 64 → 164 ≤ 168 ∧ 168 < 164 + 8)) ∧
    (Malloc.sia_push true 0 (Malloc.sia_push true 0 Malloc.fresh_1m 1).1 50).2 = some 0x10008 ∧
    (0x10000 ≤ 0x10008 ∧ (0x10008 - 0x10000) % 8 = 0) :=
  ⟨by decide, by decide,
   (sia_push_result_aligned 3 (by decide) true (Reserve.sia_push true Reserve.fresh_1m 100).1 rfl
      true 0 (Malloc.sia_push true 0 Malloc.fresh_1m 1).1 rfl 50).1 168 (by decide),
   by decide,
   (sia_push_result_aligned 3 (by decide) true (Reserve.sia_push true Reserve.fresh_1m 100).1 rfl
      true 0 (Malloc.sia_push true 0 Malloc.fresh_1m 1).1 rfl 50).2 0x10008 (by decide)⟩

/-! ## Chunked backend: nodes -/

/-- C5: the bound `node.pos ≤ node.size` on the chunked arena created with
`max = 8192, block = 4096, align = 8`.  `push(5000)` passes the capacity check, does
not fit the first node and spawns a node of `min(8192, 8192 - 5000) = 3192` bytes
whose `pos` is set to 5000: the 5000 bytes returned start at the buffer of a node
that holds 3192. -/
theorem chunked_spawned_node_too_small :
    Malloc.sia_create 4096 true true 0x10000 ⟨8192, 4096, 8⟩ no_error zero_mem
      = some (.ok Malloc.fresh_8k) ∧
    (Malloc.sia_push true 0x20000 Malloc.fresh_8k 5000).2 = some 0x20000 ∧
    (Malloc.sia_push true 0x20000 Malloc.fresh_8k 5000).1.arena.cur_node
      = { size := 3192, pos := 5000, data := 0x20000 } ∧
    (Malloc.sia_push true 0x20000 Malloc.fresh_8k 5000).1.arena.cur_node.size
      < (Malloc.sia_push true 0x20000 Malloc.fresh_8k 5000).1.arena.cur_node.pos ∧
    (Malloc.sia_push true 0x20000 Malloc.fresh_8k 5000).1.arena._last_error.code
      = SIA_ERR_NONE := by
  refine ⟨rfl, ?_, ?_, ?_, ?_⟩ <;> decide

/-- C6: the accounting of the chunked arena created with `max = 1 MiB, block = 4096,
align = 8`.  After `push(1); push(4096)`, both succeeding, the arena `pos` is 4104
(the second push counted 7 bytes of alignment in the node it left) while the `pos`
fields of the two nodes sum to 4097; `sia_reset` then pops 4104 bytes and walks off
the end of the chain. -/
theorem chunked_pos_differs_from_node_sum :
    Malloc.sia_create 4096 true true 0x10000 ⟨1048576, 4096, 8⟩ no_error zero_mem
      = some (.ok Malloc.fresh_1m) ∧
    Malloc.sum_pos Malloc.fresh_1m.arena = Malloc.fresh_1m.arena._pos ∧
    (Malloc.sia_push true 0x20000 Malloc.fresh_1m 1).2 = some 0x10000 ∧
    Malloc.sum_pos (Malloc.sia_push true 0x20000 Malloc.fresh_1m 1).1.arena = 1 ∧
    (Malloc.sia_push true 0x20000 Malloc.fresh_1m 1).1.arena._pos = 1 ∧
    (Malloc.sia_push true 0x20000 (Malloc.sia_push true 0x20000 Malloc.fresh_1m 1).1 4096).2
      = some 0x20000 ∧
    (Malloc.sia_push true 0x20000 (Malloc.sia_push true 0x20000 Malloc.fresh_1m 1).1 4096).1.arena._pos
      = 4104 ∧
    Malloc.sum_pos
      (Malloc.sia_push true 0x20000 (Malloc.sia_push true 0x20000 Malloc.fresh_1m 1).1 4096).1.arena
      = 4097 ∧
    (Malloc.sia_reset
      (Malloc.sia_push true 0x20000 (Malloc.sia_push true 0x20000 Malloc.fresh_1m 1).1 4096).1).isNone
      = true := by
  refine ⟨rfl, ?_, ?_, ?_, ?_, ?_, ?_, ?_, ?_⟩ <;> decide


/-! ## Pop -/

/-- C7: the reserve pop on an arena whose position `p` is a `sia_u64` at or above
`MIN_POS`.  If `k > p - MIN_POS` the call only records `SIA_ERR_CANNOT_POP_MORE` in both
error slots: `pos` and `commit_pos` stay.  Otherwise `pos` becomes `p - k`, which is
`max(MIN_POS, p - k)`, `commit_pos` becomes the smaller of its old value and
`min(size, SIA_ALIGN_UP_POW2(p - k, block_size))`, and no error is recorded.  Popping
`p - MIN_POS` reaches `MIN_POS`; popping one byte more fails. -/
theorem reserve_sia_pop_spec (s : Reserve.State) (k : Nat)
    (hmin : Reserve.SIA_MIN_POS ≤ s.arena._pos) (hpos : s.arena._pos < 2 ^ 64) :
    (k > s.arena._pos - Reserve.SIA_MIN_POS →
      Reserve.sia_pop s k
        = Reserve.raise s SIA_ERR_CANNOT_POP_MORE "Attempted to pop too much memory" ∧
      (Reserve.sia_pop s k).arena._last_error.code = SIA_ERR_CANNOT_POP_MORE ∧
      (Reserve.sia_pop s k).last_error.code = SIA_ERR_CANNOT_POP_MORE ∧
      (Reserve.sia_pop s k).arena._pos = s.arena._pos ∧
      (Reserve.sia_pop s k).arena.commit_pos = s.arena.commit_pos) ∧
    (k ≤ s.arena._pos - Reserve.SIA_MIN_POS →
      (Reserve.sia_pop s k).arena._pos = s.arena._pos - k ∧
      s.arena._pos - k = max Reserve.SIA_MIN_POS (s.arena._pos - k) ∧
      (Reserve.sia_pop s k).arena.commit_pos
        = min s.arena.commit_pos
            (min s.arena._size (SIA_ALIGN_UP_POW2 (s.arena._pos - k) s.arena._block_size)) ∧
      (Reserve.sia_pop s k).arena._last_error = s.arena._last_error ∧
      (Reserve.sia_pop s k).last_error = s.last_error) ∧
    (Reserve.sia_pop s (s.arena._pos - Reserve.SIA_MIN_POS)).arena._pos = Reserve.SIA_MIN_POS ∧
    (Reserve.sia_pop s (s.arena._pos - Reserve.SIA_MIN_POS + 1)).arena._last_error.code
      = SIA_ERR_CANNOT_POP_MORE ∧
    (Reserve.sia_pop s (s.arena._pos - Reserve.SIA_MIN_POS + 1)).arena._pos = s.arena._pos := by
  have hsub : sub64 s.arena._pos Reserve.SIA_MIN_POS = s.arena._pos - Reserve.SIA_MIN_POS :=
    sub64_eq _ _ hpos hmin
  have hfail : ∀ j, j > s.arena._pos - Reserve.SIA_MIN_POS →
      Reserve.sia_pop s j
        = Reserve.raise s SIA_ERR_CANNOT_POP_MORE "Attempted to pop too much memory" := by
    intro j hj
    exact Reserve.sia_pop_of_gt s j (by rw [hsub]; exact hj)
  have hok : ∀ j, j ≤ s.arena._pos - Reserve.SIA_MIN_POS →
      ¬ j > sub64 s.arena._pos Reserve.SIA_MIN_POS ∧
      SIA_MAX Reserve.SIA_MIN_POS (sub64 s.arena._pos j) = s.arena._pos - j ∧
      s.arena._pos - j = max Reserve.SIA_MIN_POS (s.arena._pos - j) := by
    intro j hj
    have hs : sub64 s.arena._pos j = s.arena._pos - j := sub64_eq _ _ hpos (by omega)
    refine ⟨by rw [hsub]; omega, ?_, ?_⟩
    · rw [hs, SIA_MAX_eq]; omega
    · omega
  refine ⟨?_, ?_, ?_, ?_, ?_⟩
  · intro hk
    rw [hfail k hk]
    exact ⟨rfl, rfl, rfl, rfl, rfl⟩
  · intro hk
    obtain ⟨h1, h2, h3⟩ := hok k hk
    refine ⟨?_, h3, ?_, Reserve.sia_pop_errors_of_le s k h1⟩
    · rw [Reserve.sia_pop_pos_of_le s k h1, h2]
    · rw [Reserve.sia_pop_commit_of_le s k h1, h2, SIA_MIN_eq]
  · obtain ⟨h1, h2, _⟩ := hok (s.arena._pos - Reserve.SIA_MIN_POS) le_rfl
    rw [Reserve.sia_pop_pos_of_le s _ h1, h2]
    omega
  · rw [hfail _ (by omega)]
    rfl
  · rw [hfail _ (by omega)]
    rfl

/-- C7 at a concrete input: the arena at `pos = 164` (created with `max = 1 MiB,
block = 64 KiB, align = 8`, then `push(100)`).  `pop(101)` fails and keeps 164,
`pop(100)` reaches `MIN_POS = 64` and keeps `commit_pos = 65536`. -/
theorem reserve_sia_pop_spec_witness :
    Reserve.SIA_MIN_POS ≤ (Reserve.sia_push true Reserve.fresh_1m 100).1.arena._pos ∧
    (Reserve.sia_push true Reserve.fresh_1m 100).1.arena._pos = 164 ∧
    (Reserve.sia_pop (Reserve.sia_push true Reserve.fresh_1m 100).1 100).arena._pos = 164 - 100 ∧
    (Reserve.sia_pop (Reserve.sia_push true Reserve.fresh_1m 100).1 100).arena.commit_pos
      = min 65536 (min 1048576 (SIA_ALIGN_UP_POW2 (164 - 100) 65536)) ∧
    (Reserve.sia_pop (Reserve.sia_push true Reserve.fresh_1m 100).1 101).arena._pos = 164 ∧
    (Reserve.sia_pop (Reserve.sia_push true Reserve.fresh_1m 100).1 101).arena._last_error.code
      = SIA_ERR_CANNOT_POP_MORE :=
  ⟨by decide, by decide,
   ((reserve_sia_pop_spec (Reserve.sia_push true Reserve.fresh_1m 100).1 100
      (by decide) (by decide)).2.1 (by decide)).1,
   ((reserve_sia_pop_spec (Reserve.sia_push true Reserve.fresh_1m 100).1 100
      (by decide) (by decide)).2.1 (by decide)).2.2.1,
   ((reserve_sia_pop_spec (Reserve.sia_push true Reserve.fresh_1m 100).1 101
      (by decide) (by decide)).1 (by decide)).2.2.2.1,
   ((reserve_sia_pop_spec (Reserve.sia_push true Reserve.fresh_1m 100).1 101
      (by decide) (by decide)).1 (by decide)).2.1⟩

/-- C8: the chunked pop of more than the arena holds.  The error branch of `sia_pop`
records the error and does not return, so the loop runs: on the fresh arena
(`pos = 0`) `pop(1)`, and on the arena holding 5 bytes `pop(6)`, leave the first node
through its NULL `prev` pointer instead of returning with the state unchanged. -/
theorem chunked_pop_too_much_walks_off_chain :
    Malloc.fresh_1m.arena._pos = 0 ∧
    Malloc.fresh_1m.arena.prev = [] ∧
    Malloc.sia_pop_loop 1 Malloc.fresh_1m.arena.cur_node Malloc.fresh_1m.arena.prev = none ∧
    (Malloc.sia_pop Malloc.fresh_1m 1).isNone = true ∧
    (Malloc.sia_push true 0 Malloc.fresh_1m 5).1.arena._pos = 5 ∧
    (Malloc.sia_push true 0 Malloc.fresh_1m 5).1.arena.cur_node.pos = 5 ∧
    (Malloc.sia_pop (Malloc.sia_push true 0 Malloc.fresh_1m 5).1 6).isNone = true := by
  refine ⟨?_, ?_, ?_, ?_, ?_, ?_, ?_⟩ <;> decide

/-! ## Realloc -/

/-- C9: growing the last allocation, on the input the claim names.  On the reserve arena
created with `max = 1 MiB, block = 64 KiB` and `align = 8` (also the default),
`push(100)` returns offset 64 and leaves `pos = 164`; the block is the last
allocation, 100 more bytes fit and no commit is needed, yet `realloc(p, 100, 200)`
returns offset 168 and leaves `pos = 368` instead of returning 64 with `pos = 264`:
the first attempt pushes at the aligned offset 168 and the pop that undoes it leaves
`pos = 168`, so the in-place test `64 + 100 == pos` fails. -/
theorem realloc_last_allocation_moves :
    Reserve.sia_create 4096 true true ⟨1048576, 65536, 0⟩ no_error zero_mem
      = .ok Reserve.fresh_1m ∧
    (Reserve.sia_push true Reserve.fresh_1m 100).2 = some 64 ∧
    (Reserve.sia_push true Reserve.fresh_1m 100).1.arena._pos = 164 ∧
    Reserve._sia_is_last_allocation (Reserve.sia_push true Reserve.fresh_1m 100).1 64 100 = true ∧
    (Reserve.sia_realloc true true true (Reserve.sia_push true Reserve.fresh_1m 100).1
      (some 64) 100 200).2 = some 168 ∧
    (Reserve.sia_realloc true true true (Reserve.sia_push true Reserve.fresh_1m 100).1
      (some 64) 100 200).1.arena._pos = 368 := by
  refine ⟨rfl, ?_, ?_, ?_, ?_, ?_⟩ <;> decide

/-- C10: a growing realloc that returns a block below the previous position.  On the
reserve arena created with `max = 4096, block = 4096, align = 8`, `push(1936)`
returns 64 and `push(1000)` returns 2000, `pos = 3000`.  In `realloc(2000, 1000, 2100)`
the first attempt `push(1100)` fails, the pop of 1100 bytes that follows it runs all
the same and lowers `pos` to 1900, and the final `push(2100)` returns offset 1904:
the block `[1904, 4004)` starts below the old position 3000 and covers the end of
the first allocation and the block being grown. -/
theorem realloc_returns_block_below_pos :
    Reserve.sia_create 4096 true true ⟨4096, 4096, 8⟩ no_error zero_mem = .ok Reserve.fresh_4k ∧
    (Reserve.sia_push true Reserve.fresh_4k 1936).2 = some 64 ∧
    (Reserve.sia_push true (Reserve.sia_push true Reserve.fresh_4k 1936).1 1000).2 = some 2000 ∧
    (Reserve.sia_push true (Reserve.sia_push true Reserve.fresh_4k 1936).1 1000).1.arena._pos
      = 3000 ∧
    (Reserve.sia_realloc true true true
      (Reserve.sia_push true (Reserve.sia_push true Reserve.fresh_4k 1936).1 1000).1
      (some 2000) 1000 2100).2 = some 1904 ∧
    1904 < 3000 ∧
    (Reserve.sia_realloc true true true
      (Reserve.sia_push true (Reserve.sia_push true Reserve.fresh_4k 1936).1 1000).1
      (some 2000) 1000 2100).1.arena._pos = 4004 := by
  refine ⟨rfl, ?_, ?_, ?_, ?_, ?_, ?_⟩ <;> decide


/-- C12: a realloc to a size `new` with `1 ≤ new ≤ old` of a pointer that passes
`_sia_is_valid_ptr` for `old` bytes returns that pointer and leaves the whole state as
it was (position, commit position or node chain, both error slots, memory), on the
reserve and on the chunked backend. -/
theorem sia_realloc_shrink_noop (old new : Nat) (hnew : 1 ≤ new) (hle : new ≤ old)
    (c1 c2 c3 : Bool) (s : Reserve.State) (p : Nat)
    (ok1 : Bool) (data1 : Nat) (ok2 : Bool) (data2 : Nat) (m : Malloc.State) (pm : Nat) :
    (Reserve._sia_is_valid_ptr s p old = true →
      Reserve.sia_realloc c1 c2 c3 s (some p) old new = (s, some p)) ∧
    (Malloc._sia_is_valid_ptr m pm old = true →
      Malloc.sia_realloc ok1 data1 ok2 data2 m (some pm) old new = some (m, some pm)) := by
  have h0 : new ≠ 0 := by omega
  constructor
  · intro hp
    simp only [Reserve.sia_realloc, h0, hle, hp, if_true, if_false, Bool.not_true]
    rfl
  · intro hpm
    simp only [Malloc.sia_realloc, h0, hle, hpm, if_true, if_false, Bool.not_true]
    rfl

/-- C12 at concrete inputs: the block of 100 bytes at offset 64 of the reserve arena
reallocated to 100 bytes, the block of 100 bytes at the start of the first node of
the chunked arena reallocated to 40 bytes. -/
theorem sia_realloc_shrink_noop_witness :
    Reserve._sia_is_valid_ptr (Reserve.sia_push true Reserve.fresh_1m 100).1 64 100 = true ∧
    Malloc._sia_is_valid_ptr (Malloc.sia_push true 0 Malloc.fresh_1m 100).1 0x10000 100 = true ∧
    Reserve.sia_realloc true true true (Reserve.sia_push true Reserve.fresh_1m 100).1
        (some 64) 100 100
      = ((Reserve.sia_push true Reserve.fresh_1m 100).1, some 64) ∧
    Malloc.sia_realloc true 0 true 0 (Malloc.sia_push true 0 Malloc.fresh_1m 100).1
        (some 0x10000) 100 40
      = some ((Malloc.sia_push true 0 Malloc.fresh_1m 100).1, some 0x10000) :=
  ⟨by decide, by decide,
   (sia_realloc_shrink_noop 100 100 (by decide) (by decide) true true true
      (Reserve.sia_push true Reserve.fresh_1m 100).1 64
      true 0 true 0 (Malloc.sia_push true 0 Malloc.fresh_1m 100).1 0x10000).1 (by decide),
   (sia_realloc_shrink_noop 100 40 (by decide) (by decide) true true true
      (Reserve.sia_push true Reserve.fresh_1m 100).1 64
      true 0 true 0 (Malloc.sia_push true 0 Malloc.fresh_1m 100).1 0x10000).2 (by decide)⟩

/-- C13: a realloc of a non-NULL pointer with `new = 0`, or with a pointer that fails
the validity check for `old` bytes, returns NULL, stores `SIA_ERR_INVALID_PTR` in the
arena slot and in the thread slot and changes nothing else: position, commit
position or node chain and memory stay.  On the reserve backend the check fails
exactly when `ptr < MIN_POS` or `ptr + old > pos`. -/
theorem sia_realloc_rejects_bad_arguments (old new : Nat)
    (c1 c2 c3 : Bool) (s : Reserve.State) (p : Nat)
    (ok1 : Bool) (data1 : Nat) (ok2 : Bool) (data2 : Nat) (m : Malloc.State) (pm : Nat) :
    (Reserve._sia_is_valid_ptr s p old = false ↔
      (p < Reserve.SIA_MIN_POS ∨ p + old > s.arena._pos)) ∧
    (new = 0 ∨ p < Reserve.SIA_MIN_POS ∨ p + old > s.arena._pos →
      (Reserve.sia_realloc c1 c2 c3 s (some p) old new).2 = none ∧
      (Reserve.sia_realloc c1 c2 c3 s (some p) old new).1.arena._last_error.code
        = SIA_ERR_INVALID_PTR ∧
      (Reserve.sia_realloc c1 c2 c3 s (some p) old new).1.last_error.code
        = SIA_ERR_INVALID_PTR ∧
      (Reserve.sia_realloc c1 c2 c3 s (some p) old new).1.arena._pos = s.arena._pos ∧
      (Reserve.sia_realloc c1 c2 c3 s (some p) old new).1.arena.commit_pos
        = s.arena.commit_pos ∧
      (Reserve.sia_realloc c1 c2 c3 s (some p) old new).1.mem = s.mem) ∧
    (new = 0 ∨ Malloc._sia_is_valid_ptr m pm old = false →
      ∃ r, Malloc.sia_realloc ok1 data1 ok2 data2 m (some pm) old new = some (r, none) ∧
        r.arena._last_error.code = SIA_ERR_INVALID_PTR ∧
        r.last_error.code = SIA_ERR_INVALID_PTR ∧
        r.arena._pos = m.arena._pos ∧
        r.arena.cur_node = m.arena.cur_node ∧ r.arena.prev = m.arena.prev ∧
        r.mem = m.mem) := by
  have hv : Reserve._sia_is_valid_ptr s p old = false ↔
      (p < Reserve.SIA_MIN_POS ∨ p + old > s.arena._pos) := by
    unfold Reserve._sia_is_valid_ptr
    rw [decide_eq_false_iff_not]
    omega
  refine ⟨hv, ?_, ?_⟩
  · intro h
    by_cases h0 : new = 0
    · have e : Reserve.sia_realloc c1 c2 c3 s (some p) old new
          = (Reserve.raise s SIA_ERR_INVALID_PTR "New size is 0", none) := by
        simp only [Reserve.sia_realloc, h0, if_true]
      rw [e]
      exact ⟨rfl, rfl, rfl, rfl, rfl, rfl⟩
    · have hbad : Reserve._sia_is_valid_ptr s p old = false :=
        hv.mpr (h.resolve_left h0)
      have e : Reserve.sia_realloc c1 c2 c3 s (some p) old new
          = (Reserve.raise s SIA_ERR_INVALID_PTR "Invalid pointer for realloc", none) := by
        by_cases hle : new ≤ old
        · simp only [Reserve.sia_realloc, h0, hle, hbad, if_true, if_false, Bool.not_false]
        · simp only [Reserve.sia_realloc, h0, hle, hbad, if_true, if_false, Bool.not_false]
      rw [e]
      exact ⟨rfl, rfl, rfl, rfl, rfl, rfl⟩
  · intro h
    by_cases h0 : new = 0
    · refine ⟨Malloc.raise m SIA_ERR_INVALID_PTR "New size is 0", ?_, rfl, rfl, rfl, rfl, rfl, rfl⟩
      simp only [Malloc.sia_realloc, h0, if_true]
    · have hbad : Malloc._sia_is_valid_ptr m pm old = false := h.resolve_left h0
      refine ⟨Malloc.raise m SIA_ERR_INVALID_PTR "Invalid pointer for realloc", ?_,
        rfl, rfl, rfl, rfl, rfl, rfl⟩
      by_cases hle : new ≤ old
      · simp only [Malloc.sia_realloc, h0, hle, hbad, if_true, if_false, Bool.not_false]
      · simp only [Malloc.sia_realloc, h0, hle, hbad, if_true, if_false, Bool.not_false]

/-- C13 at concrete inputs: on the reserve arena holding 100 bytes, `realloc(64, 100, 0)`
and `realloc(64, 200, 300)` (the block would end beyond `pos = 164`); on the chunked
arena a pointer below the node buffer. -/
theorem sia_realloc_rejects_bad_arguments_witness :
    ((Reserve.sia_realloc true true true (Reserve.sia_push true Reserve.fresh_1m 100).1
        (some 64) 100 0).2 = none ∧
      (Reserve.sia_realloc true true true (Reserve.sia_push true Reserve.fresh_1m 100).1
        (some 64) 100 0).1.arena._last_error.code = SIA_ERR_INVALID_PTR) ∧
    ((Reserve.sia_realloc true true true (Reserve.sia_push true Reserve.fresh_1m 100).1
        (some 64) 200 300).2 = none ∧
      (Reserve.sia_realloc true true true (Reserve.sia_push true Reserve.fresh_1m 100).1
        (some 64) 200 300).1.arena._pos = 164) ∧
    (Malloc.sia_realloc true 0 true 0 (Malloc.sia_push true 0 Malloc.fresh_1m 100).1
        (some 0x8000) 100 200).isSome = true :=
  ⟨⟨((sia_realloc_rejects_bad_arguments 100 0 true true true
        (Reserve.sia_push true Reserve.fresh_1m 100).1 64 true 0 true 0
        (Malloc.sia_push true 0 Malloc.fresh_1m 100).1 0x8000).2.1 (Or.inl rfl)).1,
    ((sia_realloc_rejects_bad_arguments 100 0 true true true
        (Reserve.sia_push true Reserve.fresh_1m 100).1 64 true 0 true 0
        (Malloc.sia_push true 0 Malloc.fresh_1m 100).1 0x8000).2.1 (Or.inl rfl)).2.1⟩,
   ⟨((sia_realloc_rejects_bad_arguments 200 300 true true true
        (Reserve.sia_push true Reserve.fresh_1m 100).1 64 true 0 true 0
        (Malloc.sia_push true 0 Malloc.fresh_1m 100).1 0x8000).2.1
        (Or.inr (Or.inr (by decide)))).1,
    ((sia_realloc_rejects_bad_arguments 200 300 true true true
        (Reserve.sia_push true Reserve.fresh_1m 100).1 64 true 0 true 0
        (Malloc.sia_push true 0 Malloc.fresh_1m 100).1 0x8000).2.1
        (Or.inr (Or.inr (by decide)))).2.2.2.1⟩,
   by
    obtain ⟨r, hr, _⟩ := (sia_realloc_rejects_bad_arguments 100 200 true true true
        (Reserve.sia_push true Reserve.fresh_1m 100).1 64 true 0 true 0
        (Malloc.sia_push true 0 Malloc.fresh_1m 100).1 0x8000).2.2 (Or.inr (by decide))
    rw [hr]; rfl⟩

/-! ## Error retrieval -/

/-- C20: `sia_get_error` returns the error stored in the slot it is asked for (the
arena slot, or the thread slot when the argument is NULL), leaves that slot with code
`SIA_ERR_NONE`, and a second call on the same slot returns code `SIA_ERR_NONE`; on
both backends. -/
theorem sia_get_error_read_and_clear (s : Reserve.State) (m : Malloc.State) (arena_null : Bool) :
    ((Reserve.sia_get_error s arena_null).2
        = (if arena_null then s.last_error else s.arena._last_error) ∧
      (if arena_null then (Reserve.sia_get_error s arena_null).1.last_error.code
        else (Reserve.sia_get_error s arena_null).1.arena._last_error.code) = SIA_ERR_NONE ∧
      (Reserve.sia_get_error (Reserve.sia_get_error s arena_null).1 arena_null).2.code
        = SIA_ERR_NONE) ∧
    ((Malloc.sia_get_error m arena_null).2
        = (if arena_null then m.last_error else m.arena._last_error) ∧
      (if arena_null then (Malloc.sia_get_error m arena_null).1.last_error.code
        else (Malloc.sia_get_error m arena_null).1.arena._last_error.code) = SIA_ERR_NONE ∧
      (Malloc.sia_get_error (Malloc.sia_get_error m arena_null).1 arena_null).2.code
        = SIA_ERR_NONE) := by
  cases arena_null <;> exact ⟨⟨rfl, rfl, rfl⟩, ⟨rfl, rfl, rfl⟩⟩


/-! ## Temp scopes and reset -/

/-- C14: the round trip `temp_begin; push_zero(n); temp_end` on the chunked arena
created with `max = 1 MiB, block = 4096, align = 8` after `push(1)`.  The temp saves
`pos = 1`; `push_zero(4096)` succeeds in a new node and leaves `pos = 4104`;
`temp_end` pops 4103 bytes, 7 more than the two nodes hold, and reads through the
NULL `prev` pointer of the first node instead of returning with `pos = 1`.  On the
reserve backend `push_zero(5000)` on the arena of 4096 bytes calls `SIA_MEMSET` with
the NULL that `sia_push` returned. -/
theorem temp_round_trip_walks_off_chain :
    (Malloc.sia_push true 0 Malloc.fresh_1m 1).2 = some 0x10000 ∧
    (Malloc.sia_temp_begin (Malloc.sia_push true 0 Malloc.fresh_1m 1).1)._pos = 1 ∧
    ((Malloc.sia_push_zero true 0x20000 (Malloc.sia_push true 0 Malloc.fresh_1m 1).1 4096).map
      (fun r => (r.2, r.1.arena._pos, r.1.arena.cur_node, r.1.arena.prev)))
      = some (some 0x20000, 4104, { size := 4096, pos := 4096, data := 0x20000 },
          [{ size := 4096, pos := 1, data := 0x10000 }]) ∧
    ((Malloc.sia_push_zero true 0x20000 (Malloc.sia_push true 0 Malloc.fresh_1m 1).1 4096).bind
      (fun r => Malloc.sia_temp_end r.1
        (Malloc.sia_temp_begin (Malloc.sia_push true 0 Malloc.fresh_1m 1).1))).isNone = true ∧
    (Reserve.sia_push true Reserve.fresh_4k 5000).2 = none ∧
    (Reserve.sia_push_zero true Reserve.fresh_4k 5000).isNone = true := by
  refine ⟨?_, ?_, ?_, ?_, ?_, ?_⟩ <;> decide

/-- C15 as stated fails on the reserve arena created with `max = 4096, block = 64 KiB`:
`sia_create` records `commit_pos = 65536` above `size = 4096`, and the empty scope
`temp_end(temp_begin(a))` pops 0 bytes, which lowers `commit_pos` to 4096. -/
theorem empty_temp_scope_lowers_commit_pos :
    Reserve.sia_create 4096 true true ⟨4096, 65536, 8⟩ no_error zero_mem
      = .ok Reserve.fresh_4k_block_64k ∧
    Reserve.fresh_4k_block_64k.arena.commit_pos = 65536 ∧
    (Reserve.sia_temp_begin Reserve.fresh_4k_block_64k)._pos = 64 ∧
    (Reserve.sia_temp_end Reserve.fresh_4k_block_64k
      (Reserve.sia_temp_begin Reserve.fresh_4k_block_64k)).arena.commit_pos = 4096 ∧
    (Reserve.sia_temp_end Reserve.fresh_4k_block_64k
      (Reserve.sia_temp_begin Reserve.fresh_4k_block_64k)).arena._pos = 64 := by
  refine ⟨rfl, ?_, ?_, ?_, ?_⟩ <;> decide

/-- C16: `sia_reset` on the chunked arena created with `max = 1 MiB, block = 4096,
align = 8` after the successful calls `push(3); push(5000)`.  The arena `pos` is 5008,
the nodes hold 5000 and 3 bytes; `sia_reset` pops 5008 bytes and reads through the
NULL `prev` pointer of the first node: it does not complete and `pos` does not
return to 0. -/
theorem chunked_reset_walks_off_chain :
    (Malloc.sia_push true 0 Malloc.fresh_1m 3).2 = some 0x10000 ∧
    (Malloc.sia_push true 0x20000 (Malloc.sia_push true 0 Malloc.fresh_1m 3).1 5000).2
      = some 0x20000 ∧
    (Malloc.sia_push true 0x20000 (Malloc.sia_push true 0 Malloc.fresh_1m 3).1 5000).1.arena._pos
      = 5008 ∧
    (Malloc.sia_push true 0x20000 (Malloc.sia_push true 0 Malloc.fresh_1m 3).1 5000).1.arena._last_error.code
      = SIA_ERR_NONE ∧
    Malloc.nodes (Malloc.sia_push true 0x20000 (Malloc.sia_push true 0 Malloc.fresh_1m 3).1 5000).1.arena
      = [{ size := 8192, pos := 5000, data := 0x20000 }, { size := 4096, pos := 3, data := 0x10000 }] ∧
    (Malloc.sia_reset
      (Malloc.sia_push true 0x20000 (Malloc.sia_push true 0 Malloc.fresh_1m 3).1 5000).1).isNone
      = true := by
  refine ⟨?_, ?_, ?_, ?_, ?_, ?_⟩ <;> decide

/-! ## Merge -/

/-- C17: the merge of the claim.  X and Y are reserve arenas with the default
alignment 8 whose live bytes are "HELLO" and "WORLD".  `sia_merge([X, Y])`, with the
creation and every commit succeeding, returns NULL with `SIA_ERR_MERGE_FAILED`: the
second push is aligned to offset 72, so the merged arena ends at `pos = 77` and the
check `pos - MIN_POS == 10` fails. -/
theorem merge_hello_world_fails :
    Reserve.arena_hello.arena._align = 8 ∧
    Reserve.live_bytes Reserve.arena_hello = [72, 69, 76, 76, 79] ∧
    Reserve.live_bytes Reserve.arena_world = [87, 79, 82, 76, 68] ∧
    Reserve.sia_merge 4096 true true (fun _ => true)
        [some Reserve.arena_hello, some Reserve.arena_world] no_error zero_mem
      = .error ⟨SIA_ERR_MERGE_FAILED, "Merge validation failed: size mismatch"⟩ := by
  refine ⟨?_, ?_, ?_, rfl⟩ <;> decide

/-- C18: the merge of one reserve arena holding 4096 live bytes (one page).  The
destination is created with `max = 4096`, so its `size` is 4096 and the push of 4096
bytes at `MIN_POS = 64` fails the capacity check: `sia_merge([a])` returns NULL with
`SIA_ERR_MERGE_FAILED`.  The same happens with 4040 live bytes, while the arena
holding the 5 bytes of "HELLO" is copied. -/
theorem merge_single_page_fails :
    (Reserve.sia_push true Reserve.fresh_1m 4096).2 = some 64 ∧
    (Reserve.live_bytes (Reserve.sia_push true Reserve.fresh_1m 4096).1).length = 4096 ∧
    Reserve.sia_merge 4096 true true (fun _ => true)
        [some (Reserve.sia_push true Reserve.fresh_1m 4096).1] no_error zero_mem
      = .error ⟨SIA_ERR_MERGE_FAILED, "Failed to allocate space in merged arena"⟩ ∧
    Reserve.sia_merge 4096 true true (fun _ => true)
        [some (Reserve.sia_push true Reserve.fresh_1m 4040).1] no_error zero_mem
      = .error ⟨SIA_ERR_MERGE_FAILED, "Failed to allocate space in merged arena"⟩ ∧
    (Reserve.sia_merge 4096 true true (fun _ => true)
        [some Reserve.arena_hello] no_error zero_mem).toOption.map Reserve.live_bytes
      = some [72, 69, 76, 76, 79] := by
  refine ⟨by decide, ?_, rfl, rfl, by decide⟩
  simp [Reserve.live_bytes]
  decide


/-! ## Realloc of a block that is not the last one -/

/-- A reserve push that passes the capacity check with its commit granted: result,
position and the parts of the state it leaves alone. -/
theorem Reserve.sia_push_of_fits (s : Reserve.State) (n : Nat)
    (h : ¬ add64 s.arena._pos n > s.arena._size) :
    (Reserve.sia_push true s n).2 = some (SIA_ALIGN_UP_POW2 s.arena._pos s.arena._align) ∧
    (Reserve.sia_push true s n).1.arena._pos
      = add64 (SIA_ALIGN_UP_POW2 s.arena._pos s.arena._align) n ∧
    (Reserve.sia_push true s n).1.mem = s.mem ∧
    (Reserve.sia_push true s n).1.arena._last_error = s.arena._last_error ∧
    (Reserve.sia_push true s n).1.last_error = s.last_error ∧
    (Reserve.sia_push true s n).1.arena._size = s.arena._size ∧
    (Reserve.sia_push true s n).1.arena._align = s.arena._align ∧
    (Reserve.sia_push true s n).1.arena._block_size = s.arena._block_size := by
  unfold Reserve.sia_push
  rw [if_neg h]
  simp only [Bool.not_true, Bool.false_eq_true, if_false]
  split_ifs <;> exact ⟨rfl, rfl, rfl, rfl, rfl, rfl, rfl, rfl⟩

/-- The macro leaves a multiple of the power of two where it is. -/
theorem SIA_ALIGN_UP_POW2_of_aligned (x k : Nat) (hk : k < 64) (hx : x + 2 ^ k ≤ 2 ^ 64)
    (hmod : x % 2 ^ k = 0) : SIA_ALIGN_UP_POW2 x (2 ^ k) = x := by
  obtain ⟨h1, h2⟩ := SIA_ALIGN_UP_POW2_bounds x k hk hx
  have h3 := SIA_ALIGN_UP_POW2_mod x k hk
  have hpos : 0 < 2 ^ k := Nat.two_pow_pos k
  obtain ⟨c, hc⟩ := Nat.dvd_of_mod_eq_zero hmod
  obtain ⟨d, hd⟩ := Nat.dvd_of_mod_eq_zero h3
  rw [hd] at h1 h2 ⊢
  rw [hc] at h1 h2 ⊢
  have : d < c + 1 := by
    by_contra hcon
    have : c + 1 ≤ d := by omega
    have := Nat.mul_le_mul_left (2 ^ k) this
    rw [Nat.mul_add, Nat.mul_one] at this
    omega
  have : c ≤ d := Nat.le_of_mul_le_mul_left h1 hpos
  have : d = c := by omega
  rw [this]

/-- The projections of the state and pointer the copying branch of the reserve
`sia_realloc` returns. -/
theorem Reserve.realloc_copy_result (st : Reserve.State) (q p old : Nat) :
    ((({ st with mem := Reserve.SIA_MEMCPY st.mem q p old } : Reserve.State), some q) :
        Reserve.State × Option Nat).2 = some q ∧
    ((({ st with mem := Reserve.SIA_MEMCPY st.mem q p old } : Reserve.State), some q) :
        Reserve.State × Option Nat).1.arena = st.arena ∧
    ((({ st with mem := Reserve.SIA_MEMCPY st.mem q p old } : Reserve.State), some q) :
        Reserve.State × Option Nat).1.last_error = st.last_error ∧
    ((({ st with mem := Reserve.SIA_MEMCPY st.mem q p old } : Reserve.State), some q) :
        Reserve.State × Option Nat).1.mem = Reserve.SIA_MEMCPY st.mem q p old :=
  ⟨rfl, rfl, rfl, rfl⟩

/-- C11: growing a block that is not the last one, reserve backend.  The arena has
`align = 2^k`; A is `old` bytes at the aligned offset `a ≥ MIN_POS`, B is `nb ≥ 1`
bytes at `b` with `a + old ≤ b` and `b + nb ≤ pos`; `new > old` fits
(`align_up(pos) + new ≤ size`, no `sia_u64` wraps) and the commit of the push is
granted.  Then `realloc(a, old, new)` returns the offset `q = align_up(pos)`, which is
not `a` and not below the previous `pos`; `pos` becomes `q + new`; the first `old`
bytes at `q` are the bytes that were at `a`; no byte below the previous `pos` changes,
in particular none of B, and no error is recorded. -/
theorem sia_realloc_non_last_copies (k : Nat) (hk : k < 32) (c1 c2 : Bool)
    (s : Reserve.State) (a old new b nb : Nat)
    (halign : s.arena._align = 2 ^ k)
    (ha_al : a % s.arena._align = 0) (ha : Reserve.SIA_MIN_POS ≤ a)
    (hb1 : a + old ≤ b) (hnb : 1 ≤ nb) (hb2 : b + nb ≤ s.arena._pos)
    (hnew : old < new)
    (hwrap : s.arena._pos + s.arena._align ≤ 2 ^ 64) (hsize : s.arena._size < 2 ^ 64)
    (hfit : SIA_ALIGN_UP_POW2 s.arena._pos s.arena._align + new ≤ s.arena._size) :
    (Reserve.sia_realloc c1 c2 true s (some a) old new).2
      = some (SIA_ALIGN_UP_POW2 s.arena._pos s.arena._align) ∧
    SIA_ALIGN_UP_POW2 s.arena._pos s.arena._align ≠ a ∧
    s.arena._pos ≤ SIA_ALIGN_UP_POW2 s.arena._pos s.arena._align ∧
    (Reserve.sia_realloc c1 c2 true s (some a) old new).1.arena._pos
      = SIA_ALIGN_UP_POW2 s.arena._pos s.arena._align + new ∧
    (∀ i, i < old →
      (Reserve.sia_realloc c1 c2 true s (some a) old new).1.mem
        (SIA_ALIGN_UP_POW2 s.arena._pos s.arena._align + i) = s.mem (a + i)) ∧
    (∀ j, j < s.arena._pos →
      (Reserve.sia_realloc c1 c2 true s (some a) old new).1.mem j = s.mem j) ∧
    (∀ j, j < nb →
      (Reserve.sia_realloc c1 c2 true s (some a) old new).1.mem (b + j) = s.mem (b + j)) ∧
    (Reserve.sia_realloc c1 c2 true s (some a) old new).1.arena._last_error
      = s.arena._last_error := by
  have hk64 : k < 64 := by omega
  have hU : U64 = 2 ^ 64 := rfl
  obtain ⟨hq1, hq2⟩ := SIA_ALIGN_UP_POW2_bounds s.arena._pos k hk64 (by rw [← halign]; exact hwrap)
  rw [← halign] at hq1 hq2
  have haa : SIA_ALIGN_UP_POW2 a s.arena._align = a := by
    rw [halign]
    exact SIA_ALIGN_UP_POW2_of_aligned a k hk64 (by rw [← halign]; omega) (by rw [← halign]; exact ha_al)
  have hend : add64 a old = a + old := by
    unfold add64; rw [hU]; exact Nat.mod_eq_of_lt (by omega)
  have hvalid : Reserve._sia_is_valid_ptr s a old = true := by
    unfold Reserve._sia_is_valid_ptr
    rw [decide_eq_true_iff]
    omega
  have hlast : Reserve._sia_is_last_allocation s a old = false := by
    unfold Reserve._sia_is_last_allocation
    rw [if_neg (by omega)]
    simp only []
    rw [haa, hend, decide_eq_false_iff_not]
    omega
  have hcheck : ¬ add64 s.arena._pos new > s.arena._size := by
    unfold add64; rw [hU, Nat.mod_eq_of_lt (by omega)]; omega
  obtain ⟨hp2, hppos, hpmem, hperr, _⟩ := Reserve.sia_push_of_fits s new hcheck
  have hnpos : add64 (SIA_ALIGN_UP_POW2 s.arena._pos s.arena._align) new
      = SIA_ALIGN_UP_POW2 s.arena._pos s.arena._align + new := by
    unfold add64; rw [hU]; exact Nat.mod_eq_of_lt (by omega)
  have e : Reserve.sia_realloc c1 c2 true s (some a) old new
      = ({ (Reserve.sia_push true s new).1 with
            mem := Reserve.SIA_MEMCPY (Reserve.sia_push true s new).1.mem
              (SIA_ALIGN_UP_POW2 s.arena._pos s.arena._align) a old },
         some (SIA_ALIGN_UP_POW2 s.arena._pos s.arena._align)) := by
    have h0 : new ≠ 0 := by omega
    have hnle : ¬ new ≤ old := by omega
    simp only [Reserve.sia_realloc, h0, hnle, hvalid, hlast, if_false, Bool.not_true,
      Bool.false_eq_true, haa, hend]
    rw [if_neg (by omega)]
    rw [hp2]
  rw [e]
  clear e
  obtain ⟨h2, harena, _, hmem⟩ := Reserve.realloc_copy_result (Reserve.sia_push true s new).1
    (SIA_ALIGN_UP_POW2 s.arena._pos s.arena._align) a old
  refine ⟨h2, by omega, hq1, ?_, ?_, ?_, ?_, ?_⟩
  · rw [harena, hppos, hnpos]
  · intro i hi
    rw [hmem, hpmem]
    unfold Reserve.SIA_MEMCPY
    rw [if_pos (by omega)]
    congr 1
    omega
  · intro j hj
    rw [hmem, hpmem]
    unfold Reserve.SIA_MEMCPY
    rw [if_neg (by omega)]
  · intro j hj
    rw [hmem, hpmem]
    unfold Reserve.SIA_MEMCPY
    rw [if_neg (by omega)]
  · rw [harena, hperr]


/-- C11 at the input of the claim: on the arena created with `max = 1 MiB,
block = 64 KiB, align = 8`, A is `push(100)` at offset 64 and B is `push(100)` at
offset 168, `pos = 268`.  `realloc(A, 100, 200)` returns offset 272, `pos` becomes
472, the 100 bytes at 272 are those of A and the bytes of B are untouched. -/
theorem sia_realloc_non_last_copies_witness :
    (Reserve.sia_push true Reserve.fresh_1m 100).2 = some 64 ∧
    (Reserve.sia_push true (Reserve.sia_push true Reserve.fresh_1m 100).1 100).2 = some 168 ∧
    (Reserve.sia_push true (Reserve.sia_push true Reserve.fresh_1m 100).1 100).1.arena._pos
      = 268 ∧
    (Reserve.sia_realloc true true true
      (Reserve.sia_push true (Reserve.sia_push true Reserve.fresh_1m 100).1 100).1
      (some 64) 100 200).2 = some 272 ∧
    (Reserve.sia_realloc true true true
      (Reserve.sia_push true (Reserve.sia_push true Reserve.fresh_1m 100).1 100).1
      (some 64) 100 200).1.arena._pos = 472 ∧
    (∀ i, i < 100 →
      (Reserve.sia_realloc true true true
        (Reserve.sia_push true (Reserve.sia_push true Reserve.fresh_1m 100).1 100).1
        (some 64) 100 200).1.mem (272 + i)
      = (Reserve.sia_push true (Reserve.sia_push true Reserve.fresh_1m 100).1 100).1.mem (64 + i)) ∧
    (∀ j, j < 100 →
      (Reserve.sia_realloc true true true
        (Reserve.sia_push true (Reserve.sia_push true Reserve.fresh_1m 100).1 100).1
        (some 64) 100 200).1.mem (168 + j)
      = (Reserve.sia_push true (Reserve.sia_push true Reserve.fresh_1m 100).1 100).1.mem (168 + j)) :=
  ⟨by decide, by decide, by decide, by decide, by decide,
   (sia_realloc_non_last_copies 3 (by decide) true true
      (Reserve.sia_push true (Reserve.sia_push true Reserve.fresh_1m 100).1 100).1
      64 100 200 168 100 (by decide) (by decide) (by decide) (by decide) (by decide)
      (by decide) (by decide) (by decide) (by decide) (by decide)).2.2.2.2.1,
   (sia_realloc_non_last_copies 3 (by decide) true true
      (Reserve.sia_push true (Reserve.sia_push true Reserve.fresh_1m 100).1 100).1
      64 100 200 168 100 (by decide) (by decide) (by decide) (by decide) (by decide)
      (by decide) (by decide) (by decide) (by decide) (by decide)).2.2.2.2.2.2.1⟩


/-! ## The empty temp scope -/

/-- Subtracting zero from a `sia_u64`. -/
theorem sub64_zero (a : Nat) (ha : a < 2 ^ 64) : sub64 a 0 = a := by
  rw [sub64_eq a 0 ha (Nat.zero_le _)]
  rfl

/-- Subtracting a `sia_u64` from itself. -/
theorem sub64_self (a : Nat) (ha : a < 2 ^ 64) : sub64 a a = 0 := by
  rw [sub64_eq a a ha le_rfl]
  exact Nat.sub_self a

/-- The state after a reserve pop that passes the check. -/
theorem Reserve.sia_pop_eq_of_le (s : Reserve.State) (k : Nat)
    (h : ¬ k > sub64 s.arena._pos Reserve.SIA_MIN_POS) :
    Reserve.sia_pop s k
      = { s with arena := { s.arena with
            _pos := SIA_MAX Reserve.SIA_MIN_POS (sub64 s.arena._pos k)
            commit_pos := min s.arena.commit_pos
              (min s.arena._size
                (SIA_ALIGN_UP_POW2 (SIA_MAX Reserve.SIA_MIN_POS (sub64 s.arena._pos k))
                  s.arena._block_size)) } } := by
  unfold Reserve.sia_pop
  rw [if_neg h]
  simp only []
  rw [SIA_MIN_eq]
  split_ifs with h2
  · rw [Nat.min_eq_right (le_of_lt h2)]
  · rw [Nat.min_eq_left (not_lt.mp h2)]

/-- A reserve pop of 0 bytes, for a position at or above `MIN_POS`: only the commit
position can change. -/
theorem Reserve.sia_pop_zero (s : Reserve.State)
    (hmin : Reserve.SIA_MIN_POS ≤ s.arena._pos) (hpos : s.arena._pos < 2 ^ 64) :
    Reserve.sia_pop s 0
      = { s with arena := { s.arena with
            commit_pos := min s.arena.commit_pos
              (min s.arena._size (SIA_ALIGN_UP_POW2 s.arena._pos s.arena._block_size)) } } := by
  have hmax : SIA_MAX Reserve.SIA_MIN_POS (sub64 s.arena._pos 0) = s.arena._pos := by
    rw [sub64_zero _ hpos, SIA_MAX_eq]
    omega
  rw [Reserve.sia_pop_eq_of_le s 0 (Nat.not_lt_zero _), hmax]

/-- The loop of the chunked `sia_pop` stops at once when nothing is left to pop. -/
theorem Malloc.sia_pop_loop_zero (node : Malloc._sia_malloc_node)
    (l : List Malloc._sia_malloc_node) :
    Malloc.sia_pop_loop 0 node l = some (0, node, l) := by
  cases l <;> simp [Malloc.sia_pop_loop]

/-- Reading the commit position a state update has just set. -/
theorem Reserve.commit_pos_update (s : Reserve.State) (c : Nat) :
    ({ s with arena := { s.arena with commit_pos := c } } : Reserve.State).arena.commit_pos
      = c := rfl

/-- C15, amended: the empty temp scope on an arena whose position `pos ≥ MIN_POS` is a
`sia_u64`.  On the reserve backend `temp_end(temp_begin(a))` pops 0 bytes: it leaves
`pos`, the error slots and the memory as they are and sets `commit_pos` to the smaller
of its old value and `min(size, SIA_ALIGN_UP_POW2(pos, block_size))`; the whole state
is unchanged exactly when `commit_pos` does not exceed that bound.  On the chunked
backend (`pos` and the `pos` of the current node being `sia_u64`) the whole state,
node chain included, is unchanged. -/
theorem empty_temp_scope (s : Reserve.State) (m : Malloc.State)
    (hmin : Reserve.SIA_MIN_POS ≤ s.arena._pos) (hpos : s.arena._pos < 2 ^ 64)
    (hm1 : m.arena._pos < 2 ^ 64) (hm2 : m.arena.cur_node.pos < 2 ^ 64) :
    Reserve.sia_temp_end s (Reserve.sia_temp_begin s)
      = { s with arena := { s.arena with
            commit_pos := min s.arena.commit_pos
              (min s.arena._size (SIA_ALIGN_UP_POW2 s.arena._pos s.arena._block_size)) } } ∧
    (Reserve.sia_temp_end s (Reserve.sia_temp_begin s) = s ↔
      s.arena.commit_pos
        ≤ min s.arena._size (SIA_ALIGN_UP_POW2 s.arena._pos s.arena._block_size)) ∧
    Malloc.sia_temp_end m (Malloc.sia_temp_begin m) = some m := by
  have hr : Reserve.sia_temp_end s (Reserve.sia_temp_begin s) = Reserve.sia_pop s 0 := by
    unfold Reserve.sia_temp_end Reserve.sia_temp_begin Reserve.sia_pop_to
    simp only [sub64_self _ hpos]
  refine ⟨?_, ⟨?_, ?_⟩, ?_⟩
  · rw [hr, Reserve.sia_pop_zero s hmin hpos]
  · intro he
    rw [hr, Reserve.sia_pop_zero s hmin hpos] at he
    have hc := Reserve.commit_pos_update s (min s.arena.commit_pos
      (min s.arena._size (SIA_ALIGN_UP_POW2 s.arena._pos s.arena._block_size)))
    rw [he] at hc
    omega
  · intro hc
    rw [hr, Reserve.sia_pop_zero s hmin hpos, Nat.min_eq_left hc]
  · unfold Malloc.sia_temp_end Malloc.sia_temp_begin Malloc.sia_pop_to Malloc.sia_pop
    simp only [sub64_self _ hm1, gt_iff_lt, Nat.not_lt_zero, if_false,
      Malloc.sia_pop_loop_zero, sub64_zero _ hm1, sub64_zero _ hm2]

/-- C15 amended, at concrete inputs: the reserve arena at `pos = 164` and the chunked
arena with two nodes after `push(1); push(4096)`. -/
theorem empty_temp_scope_witness :
    Reserve.SIA_MIN_POS ≤ (Reserve.sia_push true Reserve.fresh_1m 100).1.arena._pos ∧
    (Reserve.sia_push true Reserve.fresh_1m 100).1.arena.commit_pos
      ≤ min (Reserve.sia_push true Reserve.fresh_1m 100).1.arena._size
          (SIA_ALIGN_UP_POW2 (Reserve.sia_push true Reserve.fresh_1m 100).1.arena._pos
            (Reserve.sia_push true Reserve.fresh_1m 100).1.arena._block_size) ∧
    Reserve.sia_temp_end (Reserve.sia_push true Reserve.fresh_1m 100).1
        (Reserve.sia_temp_begin (Reserve.sia_push true Reserve.fresh_1m 100).1)
      = (Reserve.sia_push true Reserve.fresh_1m 100).1 ∧
    Malloc.sia_temp_end
        (Malloc.sia_push true 0x20000 (Malloc.sia_push true 0 Malloc.fresh_1m 1).1 4096).1
        (Malloc.sia_temp_begin
          (Malloc.sia_push true 0x20000 (Malloc.sia_push true 0 Malloc.fresh_1m 1).1 4096).1)
      = some (Malloc.sia_push true 0x20000 (Malloc.sia_push true 0 Malloc.fresh_1m 1).1 4096).1 :=
  ⟨by decide, by decide,
   (empty_temp_scope (Reserve.sia_push true Reserve.fresh_1m 100).1
      (Malloc.sia_push true 0x20000 (Malloc.sia_push true 0 Malloc.fresh_1m 1).1 4096).1
      (by decide) (by decide) (by decide) (by decide)).2.1.mpr (by decide),
   (empty_temp_scope (Reserve.sia_push true Reserve.fresh_1m 100).1
      (Malloc.sia_push true 0x20000 (Malloc.sia_push true 0 Malloc.fresh_1m 1).1 4096).1
      (by decide) (by decide) (by decide) (by decide)).2.2⟩


/-! ## Scratch pool -/

/-- The loop of `sia_scratch_get` over slots none of which is NULL: either every
slot conflicts and `out` is returned, or the temp is taken on the last slot that
does not conflict. -/
theorem Scratch.sia_scratch_get_loop_spec (pos_of : Nat → Nat) (conflicts : List Nat) :
    ∀ (l : List Nat) (out : Scratch.sia_temp), 0 ∉ l →
      ∃ t, Scratch.sia_scratch_get_loop pos_of conflicts l out = some t ∧
        (((∀ x ∈ l, x ∈ conflicts) ∧ t = out) ∨
          ∃ pre x post, l = pre ++ x :: post ∧ x ∉ conflicts ∧ (∀ y ∈ post, y ∈ conflicts) ∧
            t = { arena := x, _pos := pos_of x }) := by
  intro l
  induction l with
  | nil =>
    intro out _
    exact ⟨out, rfl, Or.inl ⟨fun x hx => absurd hx (List.not_mem_nil x), rfl⟩⟩
  | cons a rest ih =>
    intro out h0
    have ha0 : a ≠ 0 := fun h => h0 (h ▸ List.mem_cons_self a rest)
    have hrest : 0 ∉ rest := fun h => h0 (List.mem_cons_of_mem a h)
    by_cases hc : a ∈ conflicts
    · obtain ⟨t, ht, hspec⟩ := ih out hrest
      refine ⟨t, ?_, ?_⟩
      · rw [Scratch.sia_scratch_get_loop, if_pos hc]
        exact ht
      · rcases hspec with ⟨hall, hout⟩ | ⟨pre, x, post, hl, hx, hpost, hxt⟩
        · left
          refine ⟨?_, hout⟩
          intro x hx
          rcases List.mem_cons.mp hx with h | h
          · rw [h]; exact hc
          · exact hall x h
        · right
          exact ⟨a :: pre, x, post, by rw [hl]; rfl, hx, hpost, hxt⟩
    · obtain ⟨t, ht, hspec⟩ := ih { arena := a, _pos := pos_of a } hrest
      refine ⟨t, ?_, ?_⟩
      · rw [Scratch.sia_scratch_get_loop, if_neg hc, if_neg ha0]
        exact ht
      · right
        rcases hspec with ⟨hall, hout⟩ | ⟨pre, x, post, hl, hx, hpost, hxt⟩
        · exact ⟨[], a, rest, rfl, hc, hall, hout⟩
        · exact ⟨a :: pre, x, post, by rw [hl]; rfl, hx, hpost, hxt⟩

/-- C19: `sia_scratch_get` when the pool, after the lazy creation of the first call,
holds distinct arenas none of which is NULL.  The call returns a temp.  If some slot
is not in `conflicts`, the temp is on the last such slot (every later slot
conflicts), with the saved position equal to the `pos` of that arena, so its arena
is not NULL and not in `conflicts`; this is the case whenever there are fewer
conflicts than slots.  If every slot conflicts, the temp is the zero temp, whose
arena is NULL. -/
theorem sia_scratch_get_spec (created scratch_arenas : List Nat) (pos_of : Nat → Nat)
    (conflicts : List Nat)
    (hnd : (Scratch.sia_scratch_get created scratch_arenas pos_of conflicts).1.Nodup)
    (h0 : 0 ∉ (Scratch.sia_scratch_get created scratch_arenas pos_of conflicts).1) :
    ∃ t, (Scratch.sia_scratch_get created scratch_arenas pos_of conflicts).2 = some t ∧
      ((∃ x ∈ (Scratch.sia_scratch_get created scratch_arenas pos_of conflicts).1,
          x ∉ conflicts) →
        ∃ pre post,
          (Scratch.sia_scratch_get created scratch_arenas pos_of conflicts).1
            = pre ++ t.arena :: post ∧
          t.arena ∉ conflicts ∧ (∀ y ∈ post, y ∈ conflicts) ∧
          t._pos = pos_of t.arena ∧ t.arena ≠ 0) ∧
      (conflicts.length
          < (Scratch.sia_scratch_get created scratch_arenas pos_of conflicts).1.length →
        ∃ x ∈ (Scratch.sia_scratch_get created scratch_arenas pos_of conflicts).1,
          x ∉ conflicts) ∧
      ((∀ x ∈ (Scratch.sia_scratch_get created scratch_arenas pos_of conflicts).1,
          x ∈ conflicts) → t = { arena := 0, _pos := 0 }) := by
  unfold Scratch.sia_scratch_get at hnd h0 ⊢
  simp only [] at hnd h0 ⊢
  generalize (if scratch_arenas.head? = some 0 then created else scratch_arenas) = pool
    at hnd h0 ⊢
  obtain ⟨t, ht, hspec⟩ :=
    Scratch.sia_scratch_get_loop_spec pos_of conflicts pool { arena := 0, _pos := 0 } h0
  refine ⟨t, ht, ?_, ?_, ?_⟩
  · rintro ⟨x, hx, hxc⟩
    rcases hspec with ⟨hall, _⟩ | ⟨pre, y, post, hl, hy, hpost, hyt⟩
    · exact absurd (hall x hx) hxc
    · rw [hyt]
      refine ⟨pre, post, hl, hy, hpost, rfl, ?_⟩
      intro hy0
      apply h0
      rw [hl]
      simp only [List.mem_append, List.mem_cons]
      exact Or.inr (Or.inl hy0.symm)
  · intro hlen
    by_contra hcon
    push_neg at hcon
    have hsub : pool ⊆ conflicts := fun x hx => hcon x hx
    have := List.Subperm.length_le (List.Nodup.subperm hnd hsub)
    omega
  · intro hall
    rcases hspec with ⟨_, hout⟩ | ⟨pre, y, post, hl, hy, _, _⟩
    · exact hout
    · exfalso
      apply hy
      apply hall
      rw [hl]
      simp

/-- C19 on the first call: the pool is still NULL, `sia_create` returns the arenas
at the addresses 0x1000 and 0x2000, the first is given as conflict.  The temp is on
the second arena with its position 164 as saved position; with both arenas given as
conflicts the zero temp is returned. -/
theorem sia_scratch_get_spec_witness :
    (Scratch.sia_scratch_get [0x1000, 0x2000] [0, 0]
      (fun a => if a = 0x2000 then 164 else 64) [0x1000]).1 = [0x1000, 0x2000] ∧
    (Scratch.sia_scratch_get [0x1000, 0x2000] [0, 0]
      (fun a => if a = 0x2000 then 164 else 64) [0x1000]).2
      = some { arena := 0x2000, _pos := 164 } ∧
    (Scratch.sia_scratch_get [0x1000, 0x2000] [0x1000, 0x2000]
      (fun a => if a = 0x2000 then 164 else 64) [0x2000, 0x1000]).2
      = some { arena := 0, _pos := 0 } ∧
    (∃ t, (Scratch.sia_scratch_get [0x1000, 0x2000] [0, 0]
        (fun a => if a = 0x2000 then 164 else 64) [0x1000]).2 = some t ∧
      ((∃ x ∈ (Scratch.sia_scratch_get [0x1000, 0x2000] [0, 0]
          (fun a => if a = 0x2000 then 164 else 64) [0x1000]).1, x ∉ [0x1000]) →
        ∃ pre post,
          (Scratch.sia_scratch_get [0x1000, 0x2000] [0, 0]
            (fun a => if a = 0x2000 then 164 else 64) [0x1000]).1
            = pre ++ t.arena :: post ∧
          t.arena ∉ [0x1000] ∧ (∀ y ∈ post, y ∈ [0x1000]) ∧
          t._pos = (fun a => if a = 0x2000 then 164 else 64) t.arena ∧ t.arena ≠ 0) ∧
      (([0x1000] : List Nat).length
          < (Scratch.sia_scratch_get [0x1000, 0x2000] [0, 0]
              (fun a => if a = 0x2000 then 164 else 64) [0x1000]).1.length →
        ∃ x ∈ (Scratch.sia_scratch_get [0x1000, 0x2000] [0, 0]
          (fun a => if a = 0x2000 then 164 else 64) [0x1000]).1, x ∉ [0x1000]) ∧
      ((∀ x ∈ (Scratch.sia_scratch_get [0x1000, 0x2000] [0, 0]
          (fun a => if a = 0x2000 then 164 else 64) [0x1000]).1, x ∈ [0x1000]) →
        t = { arena := 0, _pos := 0 })) :=
  ⟨by decide, by decide, by decide,
   sia_scratch_get_spec [0x1000, 0x2000] [0, 0] (fun a => if a = 0x2000 then 164 else 64)
     [0x1000] (by decide) (by decide)⟩

/-! ## Reset on the reserve backend -/

/-- A reserve pop never changes the size of the arena. -/
theorem Reserve.sia_pop_size (s : Reserve.State) (k : Nat) :
    (Reserve.sia_pop s k).arena._size = s.arena._size := by
  unfold Reserve.sia_pop
  simp only []
  split_ifs <;> rfl

/-- Reset on the reserve backend: in every state `sia_reset` sets `pos` to
`MIN_POS`, and a push
of `n` bytes with `MIN_POS + n ≤ size` that follows returns a pointer when its
commit is granted. -/
theorem Reserve.sia_reset_then_push (s : Reserve.State) (n : Nat)
    (hn : Reserve.SIA_MIN_POS + n ≤ s.arena._size) :
    (Reserve.sia_reset s).arena._pos = Reserve.SIA_MIN_POS ∧
    (Reserve.sia_reset s).arena._size = s.arena._size ∧
    ∃ p, (Reserve.sia_push true (Reserve.sia_reset s) n).2 = some p := by
  have h64 := Reserve.SIA_MIN_POS_eq
  have hcheck : ¬ sub64 s.arena._pos Reserve.SIA_MIN_POS
      > sub64 s.arena._pos Reserve.SIA_MIN_POS := lt_irrefl _
  have hback : sub64 s.arena._pos (sub64 s.arena._pos Reserve.SIA_MIN_POS)
      = Reserve.SIA_MIN_POS := by
    rw [h64]
    unfold sub64 U64
    omega
  have hreset : Reserve.sia_reset s = Reserve.sia_pop s (sub64 s.arena._pos Reserve.SIA_MIN_POS) := by
    unfold Reserve.sia_reset Reserve.sia_pop_to
    rfl
  have hp : (Reserve.sia_reset s).arena._pos = Reserve.SIA_MIN_POS := by
    rw [hreset, Reserve.sia_pop_pos_of_le s _ hcheck, hback, SIA_MAX_eq]
    exact max_self _
  have hs : (Reserve.sia_reset s).arena._size = s.arena._size := by
    rw [hreset]
    exact Reserve.sia_pop_size s _
  refine ⟨hp, hs, _, (Reserve.sia_push_of_fits (Reserve.sia_reset s) n ?_).1⟩
  rw [hp, hs]
  unfold add64 U64
  have := Nat.mod_le (Reserve.SIA_MIN_POS + n) (2 ^ 64)
  omega


/-! ## Errors in both slots -/

/-- The two error slots after the statements of an error site, reserve backend. -/
theorem Reserve.raise_slots (s : Reserve.State) (c : sia_error_code) (msg : String) :
    (Reserve.raise s c msg).arena._last_error = ⟨c, msg⟩ ∧
    (Reserve.raise s c msg).last_error = ⟨c, msg⟩ := ⟨rfl, rfl⟩

/-- The two error slots after the statements of an error site, chunked backend. -/
theorem Malloc.raise_slots_chunked (s : Malloc.State) (c : sia_error_code) (msg : String) :
    (Malloc.raise s c msg).arena._last_error = ⟨c, msg⟩ ∧
    (Malloc.raise s c msg).last_error = ⟨c, msg⟩ := ⟨rfl, rfl⟩

/-- A reserve push that returns NULL has stored one error in both slots: out of
memory when the capacity check failed, commit failure otherwise. -/
theorem Reserve.sia_push_none (c : Bool) (s : Reserve.State) (n : Nat)
    (h : (Reserve.sia_push c s n).2 = none) :
    (Reserve.sia_push c s n).1.arena._last_error = (Reserve.sia_push c s n).1.last_error ∧
    (Reserve.sia_push c s n).1.last_error.code
      = (if add64 s.arena._pos n > s.arena._size then SIA_ERR_OUT_OF_MEMORY
         else SIA_ERR_COMMIT_FAILED) := by
  unfold Reserve.sia_push at h ⊢
  simp only [] at h ⊢
  split_ifs at h ⊢ with h1 h2 h3
  · exact ⟨rfl, rfl⟩
  · exact ⟨rfl, rfl⟩

/-- A chunked push that returns NULL has stored one error in both slots: out of
memory when the capacity check failed, malloc failure otherwise. -/
theorem Malloc.sia_push_none_chunked (ok : Bool) (data : Nat) (s : Malloc.State) (n : Nat)
    (h : (Malloc.sia_push ok data s n).2 = none) :
    (Malloc.sia_push ok data s n).1.arena._last_error
      = (Malloc.sia_push ok data s n).1.last_error ∧
    (Malloc.sia_push ok data s n).1.last_error.code
      = (if add64 s.arena._pos n > s.arena._size then SIA_ERR_OUT_OF_MEMORY
         else SIA_ERR_MALLOC_FAILED) := by
  unfold Malloc.sia_push at h ⊢
  simp only [] at h ⊢
  split_ifs at h ⊢ with h1 h2 h3
  · exact ⟨rfl, rfl⟩
  · exact ⟨rfl, rfl⟩


/-- The reserve `sia_realloc` of a pointer that is not NULL, as its first attempt
followed by `sia_realloc_grow`. -/
theorem Reserve.sia_realloc_some_eq (c1 c2 c3 : Bool) (s : Reserve.State) (p old new : Nat) :
    Reserve.sia_realloc c1 c2 c3 s (some p) old new =
      if new = 0 then (Reserve.raise s SIA_ERR_INVALID_PTR "New size is 0", none)
      else if new ≤ old then
        if !Reserve._sia_is_valid_ptr s p old then
          (Reserve.raise s SIA_ERR_INVALID_PTR "Invalid pointer for realloc", none)
        else (s, some p)
      else if !Reserve._sia_is_valid_ptr s p old then
        (Reserve.raise s SIA_ERR_INVALID_PTR "Invalid pointer for realloc", none)
      else if Reserve._sia_is_last_allocation s p old then
        if (Reserve.sia_push c1 s (sub64 new old)).2 = some (p + old) then
          ((Reserve.sia_push c1 s (sub64 new old)).1, some p)
        else
          Reserve.sia_realloc_grow c2 c3
            (Reserve.sia_pop (Reserve.sia_push c1 s (sub64 new old)).1 (sub64 new old)) p old new
      else Reserve.sia_realloc_grow c2 c3 s p old new := by
  by_cases h0 : new = 0
  · simp only [Reserve.sia_realloc, h0, if_true]
  by_cases hle : new ≤ old
  · simp only [Reserve.sia_realloc, h0, hle, if_true, if_false]
  cases hv : Reserve._sia_is_valid_ptr s p old
  · simp only [Reserve.sia_realloc, h0, hle, hv, if_true, if_false, Bool.not_false]
  cases hl : Reserve._sia_is_last_allocation s p old
  · simp only [Reserve.sia_realloc, Reserve.sia_realloc_grow, h0, hle, hv, hl, if_true, if_false,
      Bool.not_true, Bool.false_eq_true]
  by_cases hr : (Reserve.sia_push c1 s (sub64 new old)).2 = some (p + old)
  · simp only [Reserve.sia_realloc, h0, hle, hv, hl, hr, if_true, if_false,
      Bool.not_true, Bool.false_eq_true]
  · simp only [Reserve.sia_realloc, Reserve.sia_realloc_grow, h0, hle, hv, hl, hr, if_true, if_false,
      Bool.not_true, Bool.false_eq_true]


/-- A NULL result of the second part of the reserve `sia_realloc` comes with the same
error in both slots, `CommitFailed` or `ReallocFailed`. -/
theorem Reserve.sia_realloc_grow_none (c2 c3 : Bool) (s : Reserve.State) (p old new : Nat)
    (h : (Reserve.sia_realloc_grow c2 c3 s p old new).2 = none) :
    (Reserve.sia_realloc_grow c2 c3 s p old new).1.arena._last_error
      = (Reserve.sia_realloc_grow c2 c3 s p old new).1.last_error ∧
    ((Reserve.sia_realloc_grow c2 c3 s p old new).1.last_error.code = SIA_ERR_COMMIT_FAILED ∨
     (Reserve.sia_realloc_grow c2 c3 s p old new).1.last_error.code = SIA_ERR_REALLOC_FAILED) := by
  unfold Reserve.sia_realloc_grow at h ⊢
  generalize Reserve.SIA_MIN_POS = mp at h ⊢
  simp only [] at h ⊢
  split_ifs at h ⊢ with h1 h2 h3
  · exact ⟨rfl, Or.inl rfl⟩
  · cases hr : (Reserve.sia_push c3 s new).2 with
    | none => exact ⟨rfl, Or.inr rfl⟩
    | some q => rw [hr] at h; exact absurd h (Option.some_ne_none q)


/-- A NULL result of the reserve `sia_realloc` of a pointer that is not NULL comes with
the same error in both slots: `InvalidPtr`, `CommitFailed` or `ReallocFailed`. -/
theorem Reserve.sia_realloc_none (c1 c2 c3 : Bool) (s : Reserve.State) (p old new : Nat)
    (h : (Reserve.sia_realloc c1 c2 c3 s (some p) old new).2 = none) :
    (Reserve.sia_realloc c1 c2 c3 s (some p) old new).1.arena._last_error
      = (Reserve.sia_realloc c1 c2 c3 s (some p) old new).1.last_error ∧
    ((Reserve.sia_realloc c1 c2 c3 s (some p) old new).1.last_error.code = SIA_ERR_INVALID_PTR ∨
     (Reserve.sia_realloc c1 c2 c3 s (some p) old new).1.last_error.code = SIA_ERR_COMMIT_FAILED ∨
     (Reserve.sia_realloc c1 c2 c3 s (some p) old new).1.last_error.code
       = SIA_ERR_REALLOC_FAILED) := by
  rw [Reserve.sia_realloc_some_eq] at h ⊢
  split_ifs at h ⊢ with h0 hle hv hv2 hl hr
  · exact ⟨rfl, Or.inl rfl⟩
  · exact ⟨rfl, Or.inl rfl⟩
  · exact ⟨rfl, Or.inl rfl⟩
  · have g := Reserve.sia_realloc_grow_none c2 c3 _ p old new h
    exact ⟨g.1, Or.inr g.2⟩
  · have g := Reserve.sia_realloc_grow_none c2 c3 _ p old new h
    exact ⟨g.1, Or.inr g.2⟩


/-- A NULL result of the second part of the chunked `sia_realloc` comes with
`ReallocFailed` in both slots. -/
theorem Malloc.sia_realloc_grow_none_chunked (ok2 : Bool) (data2 : Nat) (s : Malloc.State)
    (p old new : Nat) (h : (Malloc.sia_realloc_grow ok2 data2 s p old new).2 = none) :
    (Malloc.sia_realloc_grow ok2 data2 s p old new).1.arena._last_error
      = (Malloc.sia_realloc_grow ok2 data2 s p old new).1.last_error ∧
    (Malloc.sia_realloc_grow ok2 data2 s p old new).1.last_error.code
      = SIA_ERR_REALLOC_FAILED := by
  unfold Malloc.sia_realloc_grow at h ⊢
  simp only [] at h ⊢
  split_ifs at h ⊢ with h1
  cases hr : (Malloc.sia_push ok2 data2 s new).2 with
  | none => exact ⟨rfl, rfl⟩
  | some q => rw [hr] at h; exact absurd h (Option.some_ne_none q)

/-- A NULL result of the chunked `sia_realloc` of a pointer that is not NULL comes with
the same error in both slots: `InvalidPtr` or `ReallocFailed`. -/
theorem Malloc.sia_realloc_none_chunked (ok1 : Bool) (data1 : Nat) (ok2 : Bool) (data2 : Nat)
    (s : Malloc.State) (p old new : Nat) (r : Malloc.State × Option Nat)
    (h : Malloc.sia_realloc ok1 data1 ok2 data2 s (some p) old new = some r)
    (hn : r.2 = none) :
    r.1.arena._last_error = r.1.last_error ∧
    (r.1.last_error.code = SIA_ERR_INVALID_PTR ∨
     r.1.last_error.code = SIA_ERR_REALLOC_FAILED) := by
  unfold Malloc.sia_realloc at h
  simp only [] at h
  split_ifs at h with h0 hle hv hv2 hl hr
  · cases h; exact ⟨rfl, Or.inl rfl⟩
  · cases h; exact ⟨rfl, Or.inl rfl⟩
  · cases h; exact absurd hn (Option.some_ne_none p)
  · cases h; exact ⟨rfl, Or.inl rfl⟩
  · cases h; exact absurd hn (Option.some_ne_none p)
  · cases hp : Malloc.sia_pop (Malloc.sia_push ok1 data1 s (sub64 new old)).1 (sub64 new old) with
    | none => rw [hp] at h; exact absurd h (Option.noConfusion)
    | some s1 =>
      rw [hp] at h
      have e : Malloc.sia_realloc_grow ok2 data2 s1 p old new = r := Option.some.inj h
      rw [← e] at hn ⊢
      have g := Malloc.sia_realloc_grow_none_chunked ok2 data2 s1 p old new hn
      exact ⟨g.1, Or.inr g.2⟩
  · have e : Malloc.sia_realloc_grow ok2 data2 s p old new = r := Option.some.inj h
    rw [← e] at hn ⊢
    have g := Malloc.sia_realloc_grow_none_chunked ok2 data2 s p old new hn
    exact ⟨g.1, Or.inr g.2⟩

/-- A chunked pop of more than `pos` bytes that returns has recorded `CannotPopMore`
in both slots. -/
theorem Malloc.sia_pop_of_gt_chunked (s s1 : Malloc.State) (k : Nat) (hk : k > s.arena._pos)
    (h : Malloc.sia_pop s k = some s1) :
    s1.arena._last_error = ⟨SIA_ERR_CANNOT_POP_MORE, "Attempted to pop too much memory"⟩ ∧
    s1.last_error = ⟨SIA_ERR_CANNOT_POP_MORE, "Attempted to pop too much memory"⟩ := by
  unfold Malloc.sia_pop at h
  rw [if_pos hk] at h
  simp only [] at h
  split at h
  · exact absurd h (Option.noConfusion)
  · cases h; exact ⟨rfl, rfl⟩


/-- C21: every error site of push, pop and realloc stores the error in the arena slot
and in the thread slot at once, whatever the two slots held before.  A push that
returns NULL leaves both slots equal, with `OutOfMemory` when the capacity check
failed and else `CommitFailed` (reserve) or `MallocFailed` (chunked); a pop of too
many bytes leaves `CannotPopMore` in both (on the chunked backend: when the call
returns); a realloc that returns NULL leaves both slots equal, with `InvalidPtr`,
`CommitFailed` or `ReallocFailed`. -/
theorem errors_recorded_in_both_slots (s : Reserve.State) (m : Malloc.State)
    (n p old new data1 data2 : Nat) (c1 c2 c3 ok1 ok2 : Bool) :
    ((Reserve.sia_push c1 s n).2 = none →
      (Reserve.sia_push c1 s n).1.arena._last_error = (Reserve.sia_push c1 s n).1.last_error ∧
      (Reserve.sia_push c1 s n).1.last_error.code
        = (if add64 s.arena._pos n > s.arena._size then SIA_ERR_OUT_OF_MEMORY
           else SIA_ERR_COMMIT_FAILED)) ∧
    ((Malloc.sia_push ok1 data1 m n).2 = none →
      (Malloc.sia_push ok1 data1 m n).1.arena._last_error
        = (Malloc.sia_push ok1 data1 m n).1.last_error ∧
      (Malloc.sia_push ok1 data1 m n).1.last_error.code
        = (if add64 m.arena._pos n > m.arena._size then SIA_ERR_OUT_OF_MEMORY
           else SIA_ERR_MALLOC_FAILED)) ∧
    (n > sub64 s.arena._pos Reserve.SIA_MIN_POS →
      (Reserve.sia_pop s n).arena._last_error
        = ⟨SIA_ERR_CANNOT_POP_MORE, "Attempted to pop too much memory"⟩ ∧
      (Reserve.sia_pop s n).last_error
        = ⟨SIA_ERR_CANNOT_POP_MORE, "Attempted to pop too much memory"⟩) ∧
    (n > m.arena._pos → ∀ m1, Malloc.sia_pop m n = some m1 →
      m1.arena._last_error = ⟨SIA_ERR_CANNOT_POP_MORE, "Attempted to pop too much memory"⟩ ∧
      m1.last_error = ⟨SIA_ERR_CANNOT_POP_MORE, "Attempted to pop too much memory"⟩) ∧
    ((Reserve.sia_realloc c1 c2 c3 s (some p) old new).2 = none →
      (Reserve.sia_realloc c1 c2 c3 s (some p) old new).1.arena._last_error
        = (Reserve.sia_realloc c1 c2 c3 s (some p) old new).1.last_error ∧
      ((Reserve.sia_realloc c1 c2 c3 s (some p) old new).1.last_error.code
          = SIA_ERR_INVALID_PTR ∨
       (Reserve.sia_realloc c1 c2 c3 s (some p) old new).1.last_error.code
          = SIA_ERR_COMMIT_FAILED ∨
       (Reserve.sia_realloc c1 c2 c3 s (some p) old new).1.last_error.code
          = SIA_ERR_REALLOC_FAILED)) ∧
    (∀ r, Malloc.sia_realloc ok1 data1 ok2 data2 m (some p) old new = some r → r.2 = none →
      r.1.arena._last_error = r.1.last_error ∧
      (r.1.last_error.code = SIA_ERR_INVALID_PTR ∨
       r.1.last_error.code = SIA_ERR_REALLOC_FAILED)) := by
  refine ⟨Reserve.sia_push_none c1 s n, Malloc.sia_push_none_chunked ok1 data1 m n, ?_, ?_,
    Reserve.sia_realloc_none c1 c2 c3 s p old new, ?_⟩
  · intro h
    rw [Reserve.sia_pop_of_gt s n h]
    exact Reserve.raise_slots s _ _
  · intro h m1 hm
    exact Malloc.sia_pop_of_gt_chunked m m1 n h hm
  · intro r hr hn
    exact Malloc.sia_realloc_none_chunked ok1 data1 ok2 data2 m p old new r hr hn

/-- C21, on inputs: on the arena of 4096 bytes a push of 5000 bytes fails with
`OutOfMemory` in both slots, and popping 5000 bytes from the state it leaves then
puts `CannotPopMore` in both. -/
theorem errors_recorded_in_both_slots_witness :
    (Reserve.sia_push true Reserve.fresh_4k 5000).2 = none ∧
    (Reserve.sia_push true Reserve.fresh_4k 5000).1.arena._last_error.code
      = SIA_ERR_OUT_OF_MEMORY ∧
    (Reserve.sia_push true Reserve.fresh_4k 5000).1.last_error.code = SIA_ERR_OUT_OF_MEMORY ∧
    (Reserve.sia_pop (Reserve.sia_push true Reserve.fresh_4k 5000).1 5000).arena._last_error.code
      = SIA_ERR_CANNOT_POP_MORE ∧
    (Reserve.sia_pop (Reserve.sia_push true Reserve.fresh_4k 5000).1 5000).last_error.code
      = SIA_ERR_CANNOT_POP_MORE := by
  have h1 := (errors_recorded_in_both_slots Reserve.fresh_4k Malloc.fresh_1m 5000 0 0 0 0 0
    true true true true true).1 (by decide)
  have h2 := (errors_recorded_in_both_slots (Reserve.sia_push true Reserve.fresh_4k 5000).1
    Malloc.fresh_1m 5000 0 0 0 0 0 true true true true true).2.2.1 (by decide)
  refine ⟨by decide, ?_, ?_, ?_, ?_⟩
  · rw [h1.1, h1.2]; decide
  · rw [h1.2]; decide
  · rw [h2.1]
  · rw [h2.2]


/-! ## Reserve backend: growth of the committed prefix -/

/-- Without wrap-around the macro is the ceiling to a multiple of `2^k`. -/
theorem SIA_ALIGN_UP_POW2_ceil (x k : Nat) (hk : k < 64) (hx : x + 2 ^ k ≤ 2 ^ 64) :
    SIA_ALIGN_UP_POW2 x (2 ^ k) = (x + (2 ^ k - 1)) / 2 ^ k * 2 ^ k := by
  have hb1 : 1 ≤ (2:Nat) ^ k := Nat.one_le_two_pow
  rw [SIA_ALIGN_UP_POW2_eq x k hk, Nat.mod_eq_of_lt (by omega), Nat.mod_eq_of_lt (by omega)]

/-- C26: a reserve push that returns a pointer moves `pos` to
`new_pos = align_up(pos, align) + n`; when `new_pos` exceeds `commit_pos` the new
`commit_pos` is `SIA_MIN(SIA_ALIGN_UP_POW2(new_pos, block_size), size)`, which for a
power-of-two block and no wrap-around is `min(ceil_to_block(new_pos), size)`; when
`new_pos <= commit_pos`, `commit_pos` does not change. -/
theorem reserve_push_commit_growth (c : Bool) (s : Reserve.State) (n off : Nat)
    (h : (Reserve.sia_push c s n).2 = some off) :
    (Reserve.sia_push c s n).1.arena._pos
      = add64 (SIA_ALIGN_UP_POW2 s.arena._pos s.arena._align) n ∧
    ((Reserve.sia_push c s n).1.arena._pos > s.arena.commit_pos →
      (Reserve.sia_push c s n).1.arena.commit_pos
        = SIA_MIN (SIA_ALIGN_UP_POW2 (Reserve.sia_push c s n).1.arena._pos s.arena._block_size)
            s.arena._size ∧
      ∀ j, j < 64 → s.arena._block_size = 2 ^ j →
        (Reserve.sia_push c s n).1.arena._pos + 2 ^ j ≤ 2 ^ 64 →
        (Reserve.sia_push c s n).1.arena.commit_pos
          = min (((Reserve.sia_push c s n).1.arena._pos + (2 ^ j - 1)) / 2 ^ j * 2 ^ j)
              s.arena._size) ∧
    ((Reserve.sia_push c s n).1.arena._pos ≤ s.arena.commit_pos →
      (Reserve.sia_push c s n).1.arena.commit_pos = s.arena.commit_pos) := by
  unfold Reserve.sia_push at h ⊢
  simp only [] at h ⊢
  split_ifs at h ⊢ with h1 h2 h3
  · refine ⟨rfl, fun _ => ⟨rfl, ?_⟩, fun hle => absurd h2 (not_lt.mpr hle)⟩
    intro j hj hb hw
    simp only []
    rw [hb, SIA_ALIGN_UP_POW2_ceil _ j hj hw, SIA_MIN_eq]
  · exact ⟨rfl, fun hgt => absurd hgt h2, fun _ => rfl⟩

/-- C26, on inputs: on the fresh arena with 64 KiB blocks and 1 MiB of size, pushing
70 KiB moves `pos` to 71744 and leaves `commit_pos == 128 KiB`. -/
theorem reserve_push_commit_growth_witness :
    (Reserve.sia_push true Reserve.fresh_1m 71680).2 = some 64 ∧
    (Reserve.sia_push true Reserve.fresh_1m 71680).1.arena._pos = 71744 ∧
    (Reserve.sia_push true Reserve.fresh_1m 71680).1.arena.commit_pos = 131072 ∧
    (Reserve.sia_push true Reserve.fresh_1m 71680).1.arena.commit_pos
      = min (((Reserve.sia_push true Reserve.fresh_1m 71680).1.arena._pos + (2 ^ 16 - 1))
               / 2 ^ 16 * 2 ^ 16) Reserve.fresh_1m.arena._size := by
  have h := reserve_push_commit_growth true Reserve.fresh_1m 71680 64 (by decide)
  exact ⟨by decide, by decide, by decide,
    (h.2.1 (by decide)).2 16 (by decide) (by decide) (by decide)⟩


/-! ## Zeroed pushes -/

/-- When `sia_push` returns a pointer, `sia_push_zero` returns the same pointer and the
state `sia_push` leaves with the `n` bytes at the pointer set to 0 and every other
byte as it was (both backends). -/
theorem sia_push_zero_of_some (c : Bool) (s : Reserve.State) (ok : Bool) (data : Nat)
    (m : Malloc.State) (n : Nat) :
    (∀ off, (Reserve.sia_push c s n).2 = some off →
      ∃ st, Reserve.sia_push_zero c s n = some (st, some off) ∧
        st.arena = (Reserve.sia_push c s n).1.arena ∧
        st.last_error = (Reserve.sia_push c s n).1.last_error ∧
        (∀ i, off ≤ i → i < off + n → st.mem i = 0) ∧
        (∀ i, ¬ (off ≤ i ∧ i < off + n) → st.mem i = s.mem i)) ∧
    (∀ off, (Malloc.sia_push ok data m n).2 = some off →
      ∃ st, Malloc.sia_push_zero ok data m n = some (st, some off) ∧
        st.arena = (Malloc.sia_push ok data m n).1.arena ∧
        st.last_error = (Malloc.sia_push ok data m n).1.last_error ∧
        (∀ i, off ≤ i → i < off + n → st.mem i = 0) ∧
        (∀ i, ¬ (off ≤ i ∧ i < off + n) → st.mem i = m.mem i)) := by
  constructor
  · intro off h
    have hmem : (Reserve.sia_push c s n).1.mem = s.mem := by
      unfold Reserve.sia_push
      simp only []
      split_ifs <;> rfl
    refine ⟨{ (Reserve.sia_push c s n).1 with
      mem := Reserve.SIA_MEMSET (Reserve.sia_push c s n).1.mem off 0 n }, ?_, rfl, rfl, ?_, ?_⟩
    · unfold Reserve.sia_push_zero
      simp only []
      rw [h]
    · intro i h1 h2
      simp only [Reserve.SIA_MEMSET, h1, h2, and_self, if_true]
    · intro i hi
      simp only [Reserve.SIA_MEMSET, hi, if_false, hmem]
  · intro off h
    have hmem : (Malloc.sia_push ok data m n).1.mem = m.mem := by
      unfold Malloc.sia_push
      simp only []
      split_ifs <;> rfl
    refine ⟨{ (Malloc.sia_push ok data m n).1 with
      mem := Malloc.SIA_MEMSET (Malloc.sia_push ok data m n).1.mem off 0 n }, ?_, rfl, rfl, ?_, ?_⟩
    · unfold Malloc.sia_push_zero
      simp only []
      rw [h]
    · intro i h1 h2
      simp only [Malloc.SIA_MEMSET, h1, h2, and_self, if_true]
    · intro i hi
      simp only [Malloc.SIA_MEMSET, hi, if_false, hmem]

/-- C23: `sia_push_zero` calls `SIA_MEMSET(out, 0, size)` without testing `out`.  On the
reserve arena of 1 MiB with 64 KiB blocks, `push_zero(71680)` with the commit refused:
`sia_push` returns NULL (`CommitFailed`) and the 71680 bytes are written through NULL
instead of NULL being returned.  On the chunked arena of 8192 bytes `push_zero(9000)`:
`sia_push` returns NULL (`OutOfMemory`) and 9000 bytes are written through NULL. -/
theorem push_zero_memsets_through_null :
    (Reserve.sia_push false Reserve.fresh_1m 71680).2 = none ∧
    (Reserve.sia_push false Reserve.fresh_1m 71680).1.last_error.code = SIA_ERR_COMMIT_FAILED ∧
    (Reserve.sia_push_zero false Reserve.fresh_1m 71680).isNone = true ∧
    (Malloc.sia_push true 0x20000 Malloc.fresh_8k 9000).2 = none ∧
    (Malloc.sia_push true 0x20000 Malloc.fresh_8k 9000).1.last_error.code
      = SIA_ERR_OUT_OF_MEMORY ∧
    (Malloc.sia_push_zero true 0x20000 Malloc.fresh_8k 9000).isNone = true := by
  refine ⟨?_, ?_, ?_, ?_, ?_, ?_⟩ <;> decide

/-! ## Chunked backend: when a push opens a node -/

/-- C25: the chunked push decides to open a node by `arena->_pos >= node->size`, with the
position of the whole arena.  On the arena created with `max = 1 MiB, block = 4096,
align = 8`: `push(100)`, then `push(5000)` opens a node of 8192 bytes holding 5000 and
leaves the arena position at 5104; `push(3100)` fits that node
(`5000 + 3100 = 8100 < 8192`) but `5104 + 3100 = 8204 >= 8192`, so the call opens a
third node instead of serving the request from the current one. -/
theorem chunked_push_spawns_though_request_fits :
    (Malloc.sia_push true 0x20000 (Malloc.sia_push true 0 Malloc.fresh_1m 100).1 5000).1.arena.cur_node
      = { size := 8192, pos := 5000, data := 0x20000 } ∧
    (Malloc.sia_push true 0x20000 (Malloc.sia_push true 0 Malloc.fresh_1m 100).1 5000).1.arena._pos
      = 5104 ∧
    SIA_ALIGN_UP_POW2 5000 8 + 3100 = 8100 ∧
    (Malloc.sia_push true 0x30000
      (Malloc.sia_push true 0x20000 (Malloc.sia_push true 0 Malloc.fresh_1m 100).1 5000).1 3100).2
      = some 0x30000 ∧
    (Malloc.sia_push true 0x30000
      (Malloc.sia_push true 0x20000 (Malloc.sia_push true 0 Malloc.fresh_1m 100).1 5000).1
        3100).1.arena.cur_node
      = { size := 4096, pos := 3100, data := 0x30000 } ∧
    (Malloc.sia_push true 0x30000
      (Malloc.sia_push true 0x20000 (Malloc.sia_push true 0 Malloc.fresh_1m 100).1 5000).1
        3100).1.arena.prev
      = [{ size := 8192, pos := 5000, data := 0x20000 },
         { size := 4096, pos := 100, data := 0x10000 }] := by
  refine ⟨?_, ?_, ?_, ?_, ?_, ?_⟩ <;> decide


/-! ## How far a push moves the position -/

/-- The position a reserve push leaves when it returns a pointer. -/
theorem Reserve.sia_push_pos_of_some (c : Bool) (s : Reserve.State) (n off : Nat)
    (h : (Reserve.sia_push c s n).2 = some off) :
    (Reserve.sia_push c s n).1.arena._pos
      = add64 (SIA_ALIGN_UP_POW2 s.arena._pos s.arena._align) n ∧
    ¬ add64 s.arena._pos n > s.arena._size := by
  unfold Reserve.sia_push at h ⊢
  simp only [] at h ⊢
  split_ifs at h ⊢ with h1 h2 h3
  · exact ⟨rfl, h1⟩
  · exact ⟨rfl, h1⟩

/-- The position a chunked push leaves when it returns a pointer. -/
theorem Malloc.sia_push_pos_of_some_chunked (ok : Bool) (data : Nat) (m : Malloc.State) (n off : Nat)
    (h : (Malloc.sia_push ok data m n).2 = some off) :
    (Malloc.sia_push ok data m n).1.arena._pos
      = add64 m.arena._pos
          (add64 (sub64 (SIA_ALIGN_UP_POW2 m.arena.cur_node.pos m.arena._align)
            m.arena.cur_node.pos % U32) n) := by
  unfold Malloc.sia_push at h ⊢
  simp only [] at h ⊢
  split_ifs at h ⊢ with h1 h2 h3
  · rfl
  · rfl

/-- Where no `sia_u64` sum wraps, a push that returns a pointer moves the position up
by at least `n` and at most `n + align - 1`, for `align = 2^k` (both backends; on the
chunked one the padding is that of the position of the current node). -/
theorem sia_push_pos_growth_without_wrap (k : Nat) (hk : k < 32)
    (c : Bool) (s : Reserve.State) (ok : Bool) (data : Nat) (m : Malloc.State) (n : Nat) :
    (∀ off, s.arena._align = 2 ^ k → s.arena._pos + 2 ^ k + n ≤ 2 ^ 64 →
      (Reserve.sia_push c s n).2 = some off →
      s.arena._pos + n ≤ (Reserve.sia_push c s n).1.arena._pos ∧
      (Reserve.sia_push c s n).1.arena._pos ≤ s.arena._pos + n + (2 ^ k - 1)) ∧
    (∀ off, m.arena._align = 2 ^ k → m.arena.cur_node.pos ≤ m.arena._pos →
      m.arena._pos + 2 ^ k + n ≤ 2 ^ 64 →
      (Malloc.sia_push ok data m n).2 = some off →
      m.arena._pos + n ≤ (Malloc.sia_push ok data m n).1.arena._pos ∧
      (Malloc.sia_push ok data m n).1.arena._pos ≤ m.arena._pos + n + (2 ^ k - 1)) := by
  have hk64 : k < 64 := by omega
  have hpw : (2:Nat) ^ k < 2 ^ 32 := Nat.pow_lt_pow_right (by decide) hk
  have hb1 : 1 ≤ (2:Nat) ^ k := Nat.one_le_two_pow
  constructor
  · intro off ha hw h
    rw [(Reserve.sia_push_pos_of_some c s n off h).1, ha]
    obtain ⟨b1, b2⟩ := SIA_ALIGN_UP_POW2_bounds s.arena._pos k hk64 (by omega)
    unfold add64 U64
    rw [Nat.mod_eq_of_lt (by omega)]
    constructor <;> omega
  · intro off ha hn hw h
    rw [Malloc.sia_push_pos_of_some_chunked ok data m n off h, ha]
    obtain ⟨b1, b2⟩ := SIA_ALIGN_UP_POW2_bounds m.arena.cur_node.pos k hk64 (by omega)
    rw [sub64_eq _ _ (by omega) b1]
    unfold add64 U64 U32
    rw [Nat.mod_eq_of_lt (show SIA_ALIGN_UP_POW2 m.arena.cur_node.pos (2 ^ k)
      - m.arena.cur_node.pos < 2 ^ 32 by omega)]
    rw [Nat.mod_eq_of_lt (show SIA_ALIGN_UP_POW2 m.arena.cur_node.pos (2 ^ k)
      - m.arena.cur_node.pos + n < 2 ^ 64 by omega)]
    rw [Nat.mod_eq_of_lt (by omega)]
    constructor <;> omega

/-- C27: the sums of `sia_push` are `sia_u64` sums and wrap.  On the reserve arena created
with `max = 4096, block = 4096, align = 8` (pos 64), `push(2^64 - 1)` passes the capacity
check because `64 + (2^64 - 1)` wraps to 63, returns the pointer at offset 64 and leaves
`pos = 63`: the position went down by one instead of up by at least `n`.  The chunked
arena does the same from `pos = 16`: `push(2^64 - 8)` returns a pointer and leaves
`pos = 8`. -/
theorem push_wraps_pos_backwards :
    Reserve.fresh_4k.arena._pos = 64 ∧ Reserve.fresh_4k.arena._align = 2 ^ 3 ∧
    (Reserve.sia_push true Reserve.fresh_4k (2 ^ 64 - 1)).2 = some 64 ∧
    (Reserve.sia_push true Reserve.fresh_4k (2 ^ 64 - 1)).1.arena._pos = 63 ∧
    (Malloc.sia_push true 0 Malloc.fresh_1m 16).1.arena._pos = 16 ∧
    (Malloc.sia_push true 0 (Malloc.sia_push true 0 Malloc.fresh_1m 16).1 (2 ^ 64 - 8)).2
      = some 0x10010 ∧
    (Malloc.sia_push true 0 (Malloc.sia_push true 0 Malloc.fresh_1m 16).1 (2 ^ 64 - 8)).1.arena._pos
      = 8 := by
  refine ⟨?_, ?_, ?_, ?_, ?_, ?_, ?_⟩ <;> decide


/-! ## The capacity boundary of a fresh reserve arena -/

/-- The arena a successful reserve `sia_create` returns, field by field. -/
theorem Reserve.sia_create_ok (page : Nat) (r c : Bool) (desc : sia_desc) (g : sia_error)
    (mem : Nat → Nat) (s : Reserve.State)
    (h : Reserve.sia_create page r c desc g mem = .ok s) :
    s.arena._pos = Reserve.SIA_MIN_POS ∧
    s.arena._size = (_sia_init_common page desc).max_size ∧
    s.arena._block_size = (_sia_init_common page desc).block_size ∧
    s.arena._align = (_sia_init_common page desc).align ∧
    s.arena.commit_pos = (_sia_init_common page desc).block_size ∧
    s.arena._last_error = ⟨SIA_ERR_NONE, ""⟩ ∧ s.last_error = g ∧ s.mem = mem := by
  unfold Reserve.sia_create at h
  simp only [] at h
  split_ifs at h with h1 h2
  injection h with h
  subst h
  exact ⟨rfl, rfl, rfl, rfl, rfl, rfl, rfl, rfl⟩

/-- A reserve push that fails the capacity check only records `OutOfMemory`. -/
theorem Reserve.sia_push_of_over (c : Bool) (s : Reserve.State) (n : Nat)
    (h : add64 s.arena._pos n > s.arena._size) :
    Reserve.sia_push c s n
      = (Reserve.raise s SIA_ERR_OUT_OF_MEMORY "Arena ran out of memory", none) := by
  unfold Reserve.sia_push
  rw [if_pos h]

/-- C24 as stated fails on the arena created with `max = 4096, block = 4096,
align = 128`: `pos = MIN_POS = 64` is not a multiple of 128, so `push(size - MIN_POS)`
returns offset 128 and leaves `pos = 4160`, not `size = 4096`. -/
theorem fresh_push_overshoots_size_with_align_128 :
    ((Reserve.sia_create 4096 true true ⟨4096, 4096, 128⟩ no_error zero_mem).toOption.map
      (fun s => (s.arena._pos, s.arena._size, s.arena._align,
        (Reserve.sia_push true s (s.arena._size - Reserve.SIA_MIN_POS)).2,
        (Reserve.sia_push true s (s.arena._size - Reserve.SIA_MIN_POS)).1.arena._pos)))
      = some (64, 4096, 128, some 128, 4160) ∧
    (Reserve.sia_push true Reserve.fresh_4k_align_128 (4096 - 64)).1.arena._pos = 4160 := by
  constructor <;> decide

/-- C24, amended: on the arena a reserve `sia_create` returns with the default alignment
or a power-of-two alignment of at most 64, and a size of at least `MIN_POS` (below
`2^64 - 65`), `pos = MIN_POS`; `push(size - MIN_POS)` with its commit granted returns
the pointer at offset `MIN_POS` and leaves `pos == size`; `push(size + 1)` returns NULL
with `OutOfMemory` in both error slots and leaves `pos` alone. -/
theorem fresh_reserve_capacity_boundary (page : Nat) (desc : sia_desc) (g : sia_error)
    (mem : Nat → Nat) (s : Reserve.State) (k : Nat) (c : Bool) (hk : k ≤ 6)
    (hc : Reserve.sia_create page true true desc g mem = .ok s)
    (ha : desc.align = 0 ∨ desc.align = 2 ^ k)
    (hlo : Reserve.SIA_MIN_POS ≤ s.arena._size) (hhi : s.arena._size + 65 < 2 ^ 64) :
    s.arena._pos = Reserve.SIA_MIN_POS ∧
    (Reserve.sia_push true s (s.arena._size - Reserve.SIA_MIN_POS)).2
      = some Reserve.SIA_MIN_POS ∧
    (Reserve.sia_push true s (s.arena._size - Reserve.SIA_MIN_POS)).1.arena._pos
      = s.arena._size ∧
    (Reserve.sia_push c s (s.arena._size + 1)).2 = none ∧
    (Reserve.sia_push c s (s.arena._size + 1)).1.arena._last_error.code
      = SIA_ERR_OUT_OF_MEMORY ∧
    (Reserve.sia_push c s (s.arena._size + 1)).1.last_error.code = SIA_ERR_OUT_OF_MEMORY ∧
    (Reserve.sia_push c s (s.arena._size + 1)).1.arena._pos = s.arena._pos := by
  obtain ⟨hpos, -, -, halign, -⟩ := Reserve.sia_create_ok page true true desc g mem s hc
  have hmp := Reserve.SIA_MIN_POS_eq
  have hal : ∃ j, j ≤ 6 ∧ s.arena._align = 2 ^ j := by
    rw [halign]
    unfold _sia_init_common
    simp only []
    rcases ha with h0 | h1
    · exact ⟨3, by omega, by rw [if_pos h0]; rfl⟩
    · by_cases h0 : desc.align = 0
      · exact ⟨3, by omega, by rw [if_pos h0]; rfl⟩
      · exact ⟨k, hk, by rw [if_neg h0]; exact h1⟩
  obtain ⟨j, hj, haj⟩ := hal
  have hpj : (2:Nat) ^ j ≤ 2 ^ 6 := Nat.pow_le_pow_right (by decide) hj
  have hup : SIA_ALIGN_UP_POW2 s.arena._pos s.arena._align = 64 := by
    rw [hpos, haj, hmp]
    have hj64 : j < 64 := by omega
    have hw : 64 + 2 ^ j ≤ 2 ^ 64 :=
      le_trans (Nat.add_le_add_left hpj 64) (by decide)
    exact SIA_ALIGN_UP_POW2_of_aligned 64 j hj64 hw
      (Nat.mod_eq_zero_of_dvd (pow_dvd_pow 2 hj))
  have hsum : add64 64 (s.arena._size - 64) = s.arena._size := by
    unfold add64 U64
    rw [Nat.mod_eq_of_lt (show 64 + (s.arena._size - 64) < 2 ^ 64 by omega)]
    omega
  have hsum1 : add64 64 (s.arena._size + 1) = s.arena._size + 65 := by
    unfold add64 U64
    rw [Nat.mod_eq_of_lt (show 64 + (s.arena._size + 1) < 2 ^ 64 by omega)]
    omega
  have hfit : ¬ add64 s.arena._pos (s.arena._size - Reserve.SIA_MIN_POS) > s.arena._size := by
    rw [hpos, hmp, hsum]
    omega
  have hover : add64 s.arena._pos (s.arena._size + 1) > s.arena._size := by
    rw [hpos, hmp, hsum1]
    omega
  obtain ⟨p1, p2, -⟩ := Reserve.sia_push_of_fits s (s.arena._size - Reserve.SIA_MIN_POS) hfit
  refine ⟨hpos, ?_, ?_, ?_, ?_, ?_, ?_⟩
  · rw [p1, hup, hmp]
  · rw [p2, hup, hmp, hsum]
  · rw [Reserve.sia_push_of_over c s _ hover]
  · rw [Reserve.sia_push_of_over c s _ hover]; rfl
  · rw [Reserve.sia_push_of_over c s _ hover]; rfl
  · rw [Reserve.sia_push_of_over c s _ hover]; rfl


/-- C24 amended, on inputs: the arena created with `max = 4096, block = 4096, align = 8`
and 4096-byte pages: `push(4032)` returns the pointer at offset 64 and leaves
`pos = 4096`; `push(4097)` returns NULL with `OutOfMemory`. -/
theorem fresh_reserve_capacity_boundary_witness :
    Reserve.fresh_4k.arena._pos = Reserve.SIA_MIN_POS ∧
    (Reserve.sia_push true Reserve.fresh_4k
      (Reserve.fresh_4k.arena._size - Reserve.SIA_MIN_POS)).2 = some Reserve.SIA_MIN_POS ∧
    (Reserve.sia_push true Reserve.fresh_4k
      (Reserve.fresh_4k.arena._size - Reserve.SIA_MIN_POS)).1.arena._pos
      = Reserve.fresh_4k.arena._size ∧
    (Reserve.sia_push true Reserve.fresh_4k (Reserve.fresh_4k.arena._size + 1)).2 = none ∧
    (Reserve.sia_push true Reserve.fresh_4k
      (Reserve.fresh_4k.arena._size + 1)).1.arena._last_error.code = SIA_ERR_OUT_OF_MEMORY ∧
    (Reserve.sia_push true Reserve.fresh_4k
      (Reserve.fresh_4k.arena._size + 1)).1.last_error.code = SIA_ERR_OUT_OF_MEMORY ∧
    (Reserve.sia_push true Reserve.fresh_4k (Reserve.fresh_4k.arena._size + 1)).1.arena._pos
      = Reserve.fresh_4k.arena._pos :=
  fresh_reserve_capacity_boundary 4096 ⟨4096, 4096, 8⟩ no_error zero_mem Reserve.fresh_4k 3 true
    (by decide) rfl (Or.inr rfl) (by decide) (by decide)


/-! ## Rounding up to a power of two -/

/-- One step `v |= v >> m` of the bit smear: if the bits of `y` are those positions from
which a set bit of `x` is less than `m` places up, the bits of `y | (y >> m)` are the
positions from which a set bit of `x` is less than `2 m` places up. -/
theorem or_shift_testBit (x y m : Nat)
    (h : ∀ i, y.testBit i = true ↔ ∃ d, d < m ∧ x.testBit (i + d) = true) (i : Nat) :
    (y ||| (y >>> m)).testBit i = true ↔ ∃ d, d < 2 * m ∧ x.testBit (i + d) = true := by
  rw [Nat.testBit_or, Nat.testBit_shiftRight, Bool.or_eq_true, h, h]
  constructor
  · rintro (⟨d, hd, hx⟩ | ⟨d, hd, hx⟩)
    · exact ⟨d, by omega, hx⟩
    · refine ⟨m + d, by omega, ?_⟩
      rw [← hx]
      congr 1
      omega
  · rintro ⟨d, hd, hx⟩
    by_cases hdm : d < m
    · exact Or.inl ⟨d, hdm, hx⟩
    · refine Or.inr ⟨d - m, by omega, ?_⟩
      rw [← hx]
      congr 1
      omega

/-- The highest bit of a positive number is set. -/
theorem testBit_size_sub_one (x : Nat) (hx : 0 < x) : x.testBit (Nat.size x - 1) = true := by
  have hn : 0 < Nat.size x := Nat.size_pos.mpr hx
  have h1 : 2 ^ (Nat.size x - 1) ≤ x := Nat.lt_size.mp (by omega)
  have h2 : x < 2 ^ Nat.size x := Nat.lt_size_self x
  have e : 2 ^ Nat.size x = 2 * 2 ^ (Nat.size x - 1) := by
    rw [← pow_succ']
    congr 1
    omega
  have hd : x / 2 ^ (Nat.size x - 1) = 1 :=
    Nat.div_eq_of_lt_le (by omega) (by omega)
  rw [Nat.testBit_to_div_mod, hd]
  decide

/-- The five smear steps of `_sia_round_pow2` set every bit below the highest set bit of
a 32-bit value: the result is `2^(size x) - 1`. -/
theorem smear_eq (x : Nat) (hx : x < 2 ^ 32) :
    ((((x ||| (x >>> 1)) ||| ((x ||| (x >>> 1)) >>> 2))
        ||| (((x ||| (x >>> 1)) ||| ((x ||| (x >>> 1)) >>> 2)) >>> 4))
      ||| ((((x ||| (x >>> 1)) ||| ((x ||| (x >>> 1)) >>> 2))
        ||| (((x ||| (x >>> 1)) ||| ((x ||| (x >>> 1)) >>> 2)) >>> 4)) >>> 8))
    ||| (((((x ||| (x >>> 1)) ||| ((x ||| (x >>> 1)) >>> 2))
        ||| (((x ||| (x >>> 1)) ||| ((x ||| (x >>> 1)) >>> 2)) >>> 4))
      ||| ((((x ||| (x >>> 1)) ||| ((x ||| (x >>> 1)) >>> 2))
        ||| (((x ||| (x >>> 1)) ||| ((x ||| (x >>> 1)) >>> 2)) >>> 4)) >>> 8)) >>> 16)
    = 2 ^ Nat.size x - 1 := by
  have h0 : ∀ i, x.testBit i = true ↔ ∃ d, d < 1 ∧ x.testBit (i + d) = true := by
    intro i
    constructor
    · intro h
      exact ⟨0, by omega, h⟩
    · rintro ⟨d, hd, h⟩
      have : d = 0 := by omega
      subst this
      exact h
  have h1 := or_shift_testBit x _ 1 h0
  have h2 := or_shift_testBit x _ 2 h1
  have h3 := or_shift_testBit x _ 4 h2
  have h4 := or_shift_testBit x _ 8 h3
  have h5 := or_shift_testBit x _ 16 h4
  have hn : Nat.size x ≤ 32 := Nat.size_le.mpr hx
  apply Nat.eq_of_testBit_eq
  intro i
  rw [Nat.testBit_two_pow_sub_one, Bool.eq_iff_iff, h5, decide_eq_true_iff]
  constructor
  · rintro ⟨d, hd, h⟩
    by_contra hi
    have hlt : x < 2 ^ (i + d) :=
      lt_of_lt_of_le (Nat.lt_size_self x) (Nat.pow_le_pow_right (by decide) (by omega))
    rw [Nat.testBit_lt_two_pow hlt] at h
    exact Bool.false_ne_true h
  · intro hi
    have hpos : 0 < x := Nat.size_pos.mp (by omega)
    refine ⟨Nat.size x - 1 - i, by omega, ?_⟩
    have e : i + (Nat.size x - 1 - i) = Nat.size x - 1 := by omega
    rw [e]
    exact testBit_size_sub_one x hpos

/-- The function `_sia_round_pow2` returns `2^(size (v - 1))` reduced to 32 bits, where
`v - 1` is the 32-bit difference and `size` the number of binary digits. -/
theorem _sia_round_pow2_eq (v : Nat) :
    _sia_round_pow2 v = 2 ^ Nat.size ((v % 2 ^ 32 + (2 ^ 32 - 1)) % 2 ^ 32) % 2 ^ 32 := by
  have hx : (v % 2 ^ 32 + (2 ^ 32 - 1)) % 2 ^ 32 < 2 ^ 32 := Nat.mod_lt _ (by decide)
  have hs := smear_eq _ hx
  have h1 : 1 ≤ 2 ^ Nat.size ((v % 2 ^ 32 + (2 ^ 32 - 1)) % 2 ^ 32) := Nat.one_le_two_pow
  unfold _sia_round_pow2 U32
  simp only []
  rw [hs, Nat.sub_add_cancel h1]


/-- For `1 <= v <= 2^31` the function returns `2^k` with `k = size (v - 1) <= 31`, the
least power of two at or above `v`. -/
theorem _sia_round_pow2_of_le (v : Nat) (h1 : 1 ≤ v) (h2 : v ≤ 2 ^ 31) :
    _sia_round_pow2 v = 2 ^ Nat.size (v - 1) ∧ Nat.size (v - 1) ≤ 31 ∧
    v ≤ 2 ^ Nat.size (v - 1) ∧ ∀ j, v ≤ 2 ^ j → Nat.size (v - 1) ≤ j := by
  have e : (v % 2 ^ 32 + (2 ^ 32 - 1)) % 2 ^ 32 = v - 1 := by omega
  have hk : Nat.size (v - 1) ≤ 31 := Nat.size_le.mpr (by omega)
  have hp : (2:Nat) ^ Nat.size (v - 1) ≤ 2 ^ 31 := Nat.pow_le_pow_right (by decide) hk
  have hlt := Nat.lt_size_self (v - 1)
  refine ⟨?_, hk, by omega, ?_⟩
  · rw [_sia_round_pow2_eq, e, Nat.mod_eq_of_lt (by omega)]
  · intro j hj
    exact Nat.size_le.mpr (by omega)

/-- For `v = 0` and for `2^31 < v < 2^32` the function returns 0. -/
theorem _sia_round_pow2_of_gt (v : Nat) (h : v = 0 ∨ (2 ^ 31 < v ∧ v < 2 ^ 32)) :
    _sia_round_pow2 v = 0 := by
  have hx : (v % 2 ^ 32 + (2 ^ 32 - 1)) % 2 ^ 32 < 2 ^ 32 := Nat.mod_lt _ (by decide)
  have hge : 2 ^ 31 ≤ (v % 2 ^ 32 + (2 ^ 32 - 1)) % 2 ^ 32 := by omega
  have h32 : Nat.size ((v % 2 ^ 32 + (2 ^ 32 - 1)) % 2 ^ 32) = 32 :=
    le_antisymm (Nat.size_le.mpr hx) (Nat.lt_size.mpr hge)
  rw [_sia_round_pow2_eq, h32]
  decide

/-- C29: for `1 <= v <= 2^31`, `_sia_round_pow2(v)` is a power of two `2^k`, `k <= 31`,
with `v <= 2^k` and `2^k <= 2^j` for every power of two `2^j >= v`; it returns `2^k` for
`v = 2^k`, `k <= 31`; for `v = 0` and for every 32-bit `v > 2^31` it returns 0. -/
theorem sia_round_pow2_spec (v : Nat) :
    (1 ≤ v → v ≤ 2 ^ 31 →
      ∃ k, k ≤ 31 ∧ _sia_round_pow2 v = 2 ^ k ∧ v ≤ 2 ^ k ∧ ∀ j, v ≤ 2 ^ j → 2 ^ k ≤ 2 ^ j) ∧
    (∀ k, k ≤ 31 → _sia_round_pow2 (2 ^ k) = 2 ^ k) ∧
    _sia_round_pow2 0 = 0 ∧
    (2 ^ 31 < v → v < 2 ^ 32 → _sia_round_pow2 v = 0) := by
  refine ⟨?_, ?_, by decide, fun h1 h2 => _sia_round_pow2_of_gt v (Or.inr ⟨h1, h2⟩)⟩
  · intro h1 h2
    obtain ⟨e, hk, hv, hl⟩ := _sia_round_pow2_of_le v h1 h2
    exact ⟨_, hk, e, hv, fun j hj => Nat.pow_le_pow_right (by decide) (hl j hj)⟩
  · intro k hk
    have hp : (2:Nat) ^ k ≤ 2 ^ 31 := Nat.pow_le_pow_right (by decide) hk
    obtain ⟨e, -, hv, hl⟩ := _sia_round_pow2_of_le (2 ^ k) Nat.one_le_two_pow hp
    have h1 := hl k (le_refl _)
    have h2 : k ≤ Nat.size (2 ^ k - 1) :=
      (Nat.pow_le_pow_iff_right (by decide)).mp hv
    rw [e]
    congr 1
    omega

/-- C29, on inputs: 5000 rounds to 8192, 4096 to itself, `2^31 + 1` to 0. -/
theorem sia_round_pow2_spec_witness :
    (∃ k, k ≤ 31 ∧ _sia_round_pow2 5000 = 2 ^ k ∧ 5000 ≤ 2 ^ k ∧
      ∀ j, 5000 ≤ 2 ^ j → 2 ^ k ≤ 2 ^ j) ∧
    _sia_round_pow2 5000 = 8192 ∧ _sia_round_pow2 (2 ^ 12) = 2 ^ 12 ∧
    _sia_round_pow2 (2 ^ 31 + 1) = 0 :=
  ⟨(sia_round_pow2_spec 5000).1 (by decide) (by decide), by decide,
    (sia_round_pow2_spec 5000).2.1 12 (by decide),
    (sia_round_pow2_spec (2 ^ 31 + 1)).2.2.2 (by decide) (by decide)⟩


/-! ## Sizes computed by creation -/

/-- The function `_sia_round_pow2` is the identity on the powers of two up to `2^31`. -/
theorem _sia_round_pow2_pow (k : Nat) (hk : k ≤ 31) : _sia_round_pow2 (2 ^ k) = 2 ^ k := by
  have hp : (2:Nat) ^ k ≤ 2 ^ 31 := Nat.pow_le_pow_right (by decide) hk
  obtain ⟨e, -, hv, hl⟩ := _sia_round_pow2_of_le (2 ^ k) Nat.one_le_two_pow hp
  have h1 := hl k (le_refl _)
  have h2 : k ≤ Nat.size (2 ^ k - 1) := (Nat.pow_le_pow_iff_right (by decide)).mp hv
  rw [e]
  congr 1
  omega

/-- For `1 <= v <= 2^31` the rounded value is below `2 v`. -/
theorem _sia_round_pow2_lt_double (v : Nat) (h1 : 1 ≤ v) (h2 : v ≤ 2 ^ 31) :
    _sia_round_pow2 v + 1 ≤ 2 * v := by
  obtain ⟨e, -, -, -⟩ := _sia_round_pow2_of_le v h1 h2
  rw [e]
  by_cases hk : Nat.size (v - 1) = 0
  · rw [hk]
    omega
  · have h3 : 2 ^ (Nat.size (v - 1) - 1) ≤ v - 1 := Nat.lt_size.mp (by omega)
    have e2 : 2 ^ Nat.size (v - 1) = 2 * 2 ^ (Nat.size (v - 1) - 1) := by
      rw [← pow_succ']
      congr 1
      omega
    omega

/-- The fields `_sia_init_common` computes. -/
theorem _sia_init_common_fields (page : Nat) (desc : sia_desc) :
    (_sia_init_common page desc).max_size = SIA_ALIGN_UP_POW2 desc.desired_max_size page ∧
    (_sia_init_common page desc).block_size
      = _sia_round_pow2 (SIA_ALIGN_UP_POW2
          (if desc.desired_block_size = 0 then
            SIA_ALIGN_UP_POW2 (SIA_ALIGN_UP_POW2 desc.desired_max_size page / 8) page % U32
           else desc.desired_block_size) page % U32) ∧
    (_sia_init_common page desc).align = (if desc.align = 0 then sizeof_ptr else desc.align) :=
  ⟨rfl, rfl, rfl⟩

/-- C22 as stated fails for `max = 4096, block = 65536`: with 4096-byte pages the size
is 4096 and the block size 65536, so `size >= block_size` does not hold; and for
`max = 0, block = 0` the block size is 0, not a power of two at or above the page. -/
theorem init_common_block_above_size :
    (_sia_init_common 4096 ⟨4096, 65536, 8⟩).max_size = 4096 ∧
    (_sia_init_common 4096 ⟨4096, 65536, 8⟩).block_size = 65536 ∧
    (_sia_init_common 4096 ⟨0, 0, 8⟩).max_size = 0 ∧
    (_sia_init_common 4096 ⟨0, 0, 8⟩).block_size = 0 := by
  refine ⟨?_, ?_, ?_, ?_⟩ <;> decide


/-- C22, amended: with pages of `2^p` bytes (`p <= 31`) and
`desired_max_size + page <= 2^64`, the size is the least multiple of the page at or above
`desired_max_size`.  Let `b` be the block request (`desired_block_size`, or the
page-rounded `size / 8` in 32 bits when that is 0) rounded up to the page, in 32 bits.
When `1 <= b <= 2^31` the block size is the least power of two at or above `b`, and it
is at least the page; when `b = 0` or `b > 2^31` the block size is 0.  When
`desired_block_size` is 0, `size >= block_size`. -/
theorem init_common_sizing (p : Nat) (desc : sia_desc) (q b : Nat) (hp : p ≤ 31)
    (hmax : desc.desired_max_size + 2 ^ p ≤ 2 ^ 64) (hblk : desc.desired_block_size < 2 ^ 32)
    (hq : q = if desc.desired_block_size = 0 then
        ((_sia_init_common (2 ^ p) desc).max_size / 8 + (2 ^ p - 1)) / 2 ^ p * 2 ^ p % 2 ^ 32
      else desc.desired_block_size)
    (hb : b = (q + (2 ^ p - 1)) / 2 ^ p * 2 ^ p % 2 ^ 32) :
    ((_sia_init_common (2 ^ p) desc).max_size % 2 ^ p = 0 ∧
      desc.desired_max_size ≤ (_sia_init_common (2 ^ p) desc).max_size ∧
      (_sia_init_common (2 ^ p) desc).max_size < desc.desired_max_size + 2 ^ p) ∧
    (1 ≤ b → b ≤ 2 ^ 31 →
      ∃ k, k ≤ 31 ∧ (_sia_init_common (2 ^ p) desc).block_size = 2 ^ k ∧ b ≤ 2 ^ k ∧
        (∀ j, b ≤ 2 ^ j → 2 ^ k ≤ 2 ^ j) ∧ 2 ^ p ≤ 2 ^ k) ∧
    (b = 0 ∨ 2 ^ 31 < b → (_sia_init_common (2 ^ p) desc).block_size = 0) ∧
    (desc.desired_block_size = 0 →
      (_sia_init_common (2 ^ p) desc).block_size ≤ (_sia_init_common (2 ^ p) desc).max_size) := by
  obtain ⟨eS, eB, -⟩ := _sia_init_common_fields (2 ^ p) desc
  have hp64 : p < 64 := by omega
  have hP1 : 1 ≤ 2 ^ p := Nat.one_le_two_pow
  have hP : 2 ^ p ≤ 2 ^ 31 := Nat.pow_le_pow_right (by decide) hp
  have hdvd : 2 ^ p ∣ 2 ^ 32 := pow_dvd_pow 2 (by omega)
  obtain ⟨s1, s2⟩ := SIA_ALIGN_UP_POW2_bounds desc.desired_max_size p hp64 hmax
  have s3 := SIA_ALIGN_UP_POW2_mod desc.desired_max_size p hp64
  rw [← eS] at s1 s2 s3 eB
  generalize (_sia_init_common (2 ^ p) desc).max_size = S at *
  generalize (_sia_init_common (2 ^ p) desc).block_size = B at *
  have hS8 : S / 8 + 2 ^ p ≤ 2 ^ 64 := by omega
  have hq32 : q < 2 ^ 32 := by
    rw [hq]
    split_ifs
    · exact Nat.mod_lt _ (by decide)
    · exact hblk
  have hq64 : q + 2 ^ p ≤ 2 ^ 64 := by omega
  have hq2 : q = if desc.desired_block_size = 0 then SIA_ALIGN_UP_POW2 (S / 8) (2 ^ p) % U32
      else desc.desired_block_size := by
    rw [hq, SIA_ALIGN_UP_POW2_ceil (S / 8) p hp64 hS8]
    rfl
  have eB2 : B = _sia_round_pow2 b := by
    rw [eB, ← hq2, SIA_ALIGN_UP_POW2_ceil q p hp64 hq64, hb]
    rfl
  have hbmod : b % 2 ^ p = 0 := by
    rw [hb, Nat.mod_mod_of_dvd _ hdvd]
    exact Nat.mul_mod_left _ _
  have hb32 : b < 2 ^ 32 := by
    rw [hb]
    exact Nat.mod_lt _ (by decide)
  have hzero : b = 0 ∨ 2 ^ 31 < b → B = 0 := by
    intro h
    rw [eB2]
    apply _sia_round_pow2_of_gt
    rcases h with h | h
    · exact Or.inl h
    · exact Or.inr ⟨h, hb32⟩
  refine ⟨⟨s3, s1, s2⟩, ?_, hzero, ?_⟩
  · intro h1 h2
    obtain ⟨e, hk, hv, hl⟩ := _sia_round_pow2_of_le b h1 h2
    have hbP : 2 ^ p ≤ b := Nat.le_of_dvd (by omega) (Nat.dvd_of_mod_eq_zero hbmod)
    exact ⟨_, hk, by rw [eB2, e], hv, fun j hj => Nat.pow_le_pow_right (by decide) (hl j hj),
      le_trans hbP hv⟩
  · intro h0
    rw [if_pos h0] at hq
    -- the page-rounded size / 8
    have c1 : S / 8 ≤ (S / 8 + (2 ^ p - 1)) / 2 ^ p * 2 ^ p ∧
        (S / 8 + (2 ^ p - 1)) / 2 ^ p * 2 ^ p < S / 8 + 2 ^ p := by
      have := SIA_ALIGN_UP_POW2_bounds (S / 8) p hp64 hS8
      rwa [SIA_ALIGN_UP_POW2_ceil (S / 8) p hp64 hS8] at this
    have cmod : (S / 8 + (2 ^ p - 1)) / 2 ^ p * 2 ^ p % 2 ^ p = 0 := Nat.mul_mod_left _ _
    generalize (S / 8 + (2 ^ p - 1)) / 2 ^ p * 2 ^ p = c at hq c1 cmod
    have hqc : q ≤ c := by
      rw [hq]
      exact Nat.mod_le _ _
    have hqmod : q % 2 ^ p = 0 := by
      rw [hq, Nat.mod_mod_of_dvd _ hdvd]
      exact cmod
    have hbq : b = q := by
      have e1 := SIA_ALIGN_UP_POW2_of_aligned q p hp64 hq64 hqmod
      rw [SIA_ALIGN_UP_POW2_ceil q p hp64 hq64] at e1
      rw [hb, e1]
      exact Nat.mod_eq_of_lt hq32
    obtain ⟨j, hj⟩ := Nat.dvd_of_mod_eq_zero hbmod
    rcases Nat.lt_or_ge j 2 with hj2 | hj2
    · rcases Nat.lt_or_ge j 1 with hj1 | hj1
      · have hb0 : b = 0 := by
          have : j = 0 := by omega
          rw [hj, this, Nat.mul_zero]
        rw [hzero (Or.inl hb0)]
        exact Nat.zero_le _
      · have hbP : b = 2 ^ p := by
          have : j = 1 := by omega
          rw [hj, this, Nat.mul_one]
        have hSpos : 0 < S := by omega
        have hPS : 2 ^ p ≤ S := Nat.le_of_dvd hSpos (Nat.dvd_of_mod_eq_zero s3)
        rw [eB2, hbP, _sia_round_pow2_pow p hp]
        exact hPS
    · have hb2 : 2 ^ p * 2 ≤ b := by
        rw [hj]
        exact Nat.mul_le_mul_left _ hj2
      rcases Nat.lt_or_ge (2 ^ 31) b with hbig | hsmall
      · rw [hzero (Or.inr hbig)]
        exact Nat.zero_le _
      · have hd := _sia_round_pow2_lt_double b (by omega) hsmall
        rw [← eB2] at hd
        omega


/-- C22 amended, on inputs: `max = 1 MiB, block = 0` with 4096-byte pages gives the size
1 MiB, the rounded request `b = 131072` and the block size `2^17 = 131072`, at least the
page and at most the size. -/
theorem init_common_sizing_witness :
    (_sia_init_common (2 ^ 12) ⟨1048576, 0, 8⟩).max_size = 1048576 ∧
    (_sia_init_common (2 ^ 12) ⟨1048576, 0, 8⟩).block_size = 2 ^ 17 ∧
    ((_sia_init_common (2 ^ 12) ⟨1048576, 0, 8⟩).max_size % 2 ^ 12 = 0 ∧
      1048576 ≤ (_sia_init_common (2 ^ 12) ⟨1048576, 0, 8⟩).max_size ∧
      (_sia_init_common (2 ^ 12) ⟨1048576, 0, 8⟩).max_size < 1048576 + 2 ^ 12) ∧
    (∃ k, k ≤ 31 ∧ (_sia_init_common (2 ^ 12) ⟨1048576, 0, 8⟩).block_size = 2 ^ k ∧
      131072 ≤ 2 ^ k ∧ (∀ j, 131072 ≤ 2 ^ j → 2 ^ k ≤ 2 ^ j) ∧ 2 ^ 12 ≤ 2 ^ k) ∧
    (_sia_init_common (2 ^ 12) ⟨1048576, 0, 8⟩).block_size
      ≤ (_sia_init_common (2 ^ 12) ⟨1048576, 0, 8⟩).max_size := by
  have h := init_common_sizing 12 ⟨1048576, 0, 8⟩ 131072 131072 (by decide) (by decide)
    (by decide) (by decide) (by decide)
  exact ⟨by decide, by decide, h.1, h.2.1 (by decide) (by decide), h.2.2.2 rfl⟩


/-! ## Reserve backend: exact commit tracking -/

/-- For 64-bit `y` and `m`, the bits of `y` outside `m` and those inside `m` add up to
`y`. -/
theorem and_compl_add_and (y m : Nat) (hy : y < 2 ^ 64) (hm : m < 2 ^ 64) :
    (y &&& (2 ^ 64 - 1 - m)) + (y &&& m) = y := by
  have ha : y &&& (2 ^ 64 - 1 - m) ≤ y := Nat.and_le_left
  have hb : y &&& m ≤ y := Nat.and_le_left
  have e : 2 ^ 64 - 1 - m = 2 ^ 64 - (m + 1) := by omega
  have hdis : (y &&& (2 ^ 64 - 1 - m)) &&& (y &&& m) = 0 := by
    apply Nat.eq_of_testBit_eq
    intro i
    rw [e]
    simp only [Nat.testBit_and, Nat.testBit_two_pow_sub_succ hm, Nat.zero_testBit]
    cases y.testBit i <;> cases m.testBit i <;> simp
  have hor : (y &&& (2 ^ 64 - 1 - m)) ||| (y &&& m) = y := by
    apply Nat.eq_of_testBit_eq
    intro i
    rw [e]
    simp only [Nat.testBit_or, Nat.testBit_and, Nat.testBit_two_pow_sub_succ hm]
    by_cases hi : i < 64
    · cases y.testBit i <;> cases m.testBit i <;> simp [hi]
    · have hlt : y < 2 ^ i := lt_of_lt_of_le hy (Nat.pow_le_pow_right (by decide) (by omega))
      simp [Nat.testBit_lt_two_pow hlt]
  have key := BitVec.add_eq_or_of_and_eq_zero (BitVec.ofNat 64 (y &&& (2 ^ 64 - 1 - m)))
    (BitVec.ofNat 64 (y &&& m)) (by
      apply BitVec.eq_of_toNat_eq
      rw [BitVec.toNat_and, BitVec.toNat_ofNat, BitVec.toNat_ofNat,
        Nat.mod_eq_of_lt (by omega), Nat.mod_eq_of_lt (by omega), hdis]
      rfl)
  have key2 := congrArg BitVec.toNat key
  rw [BitVec.toNat_add, BitVec.toNat_or, BitVec.toNat_ofNat, BitVec.toNat_ofNat,
    Nat.mod_eq_of_lt (show y &&& (2 ^ 64 - 1 - m) < 2 ^ 64 by omega),
    Nat.mod_eq_of_lt (show y &&& m < 2 ^ 64 by omega), hor] at key2
  omega

/-- Whatever the positive `b`, without wrap-around the macro returns a value in
`[x, x + b - 1]`. -/
theorem SIA_ALIGN_UP_POW2_range (x b : Nat) (hb : 1 ≤ b) (hb64 : b < 2 ^ 64)
    (hx : x + b ≤ 2 ^ 64) :
    x ≤ SIA_ALIGN_UP_POW2 x b ∧ SIA_ALIGN_UP_POW2 x b ≤ x + (b - 1) := by
  have hsub : sub64 b 1 = b - 1 := sub64_eq b 1 (by omega) hb
  have hnot : not64 (b - 1) = 2 ^ 64 - 1 - (b - 1) := by
    unfold not64 U64
    rw [Nat.mod_eq_of_lt (by omega)]
  have hadd : add64 (x % U64) (b - 1) = x + (b - 1) := by
    unfold add64 U64
    rw [Nat.mod_eq_of_lt (show x < 2 ^ 64 by omega), Nat.mod_eq_of_lt (by omega)]
  unfold SIA_ALIGN_UP_POW2
  rw [hsub, hnot, hadd]
  have h1 := and_compl_add_and (x + (b - 1)) (b - 1) (by omega) (by omega)
  have h2 : (x + (b - 1)) &&& (b - 1) ≤ b - 1 := Nat.and_le_right
  have h3 : (x + (b - 1)) &&& (2 ^ 64 - 1 - (b - 1)) ≤ x + (b - 1) := Nat.and_le_left
  constructor <;> omega

/-- The result of the macro is a `sia_u64`. -/
theorem SIA_ALIGN_UP_POW2_lt (x b : Nat) : SIA_ALIGN_UP_POW2 x b < 2 ^ 64 := by
  unfold SIA_ALIGN_UP_POW2
  have h1 : add64 (x % U64) (sub64 b 1) < 2 ^ 64 := by
    unfold add64 U64
    exact Nat.mod_lt _ (by decide)
  exact lt_of_le_of_lt Nat.and_le_left h1

/-- The ceiling to a multiple of `B` is monotone. -/
theorem ceil_mono (B x y : Nat) (h : x ≤ y) :
    (x + (B - 1)) / B * B ≤ (y + (B - 1)) / B * B :=
  Nat.mul_le_mul_right _ (Nat.div_le_div_right (by omega))

/-- A value between `x` and the ceiling of `x` has the same ceiling. -/
theorem ceil_of_between (B x y : Nat) (hB : 0 < B) (h1 : x ≤ y)
    (h2 : y ≤ (x + (B - 1)) / B * B) :
    (y + (B - 1)) / B * B = (x + (B - 1)) / B * B := by
  apply le_antisymm _ (ceil_mono B x y h1)
  apply Nat.mul_le_mul_right
  have h3 : y + (B - 1) < ((x + (B - 1)) / B + 1) * B := by
    rw [Nat.add_mul, Nat.one_mul]
    omega
  exact Nat.lt_succ_iff.mp ((Nat.div_lt_iff_lt_mul hB).mpr h3)


/-- The invariant reads only the five numbers of the arena. -/
theorem Reserve.tracked_inv_congr (j : Nat) (s t : Reserve.State)
    (h1 : t.arena._pos = s.arena._pos) (h2 : t.arena._size = s.arena._size)
    (h3 : t.arena._block_size = s.arena._block_size) (h4 : t.arena._align = s.arena._align)
    (h5 : t.arena.commit_pos = s.arena.commit_pos) (hi : Reserve.tracked_inv j s) :
    Reserve.tracked_inv j t := by
  unfold Reserve.tracked_inv at hi ⊢
  rw [h1, h2, h3, h4, h5]
  exact hi

/-- Recording an error keeps the invariant. -/
theorem Reserve.tracked_inv_raise (j : Nat) (s : Reserve.State) (c : sia_error_code)
    (msg : String) (hi : Reserve.tracked_inv j s) :
    Reserve.tracked_inv j (Reserve.raise s c msg) :=
  Reserve.tracked_inv_congr j s _ rfl rfl rfl rfl rfl hi

/-- The invariant survives a move of `pos` upwards that commits up to the block above
the new `pos` when the new `pos` exceeds `commit_pos`. -/
theorem Reserve.tracked_inv_grow (j : Nat) (s t : Reserve.State)
    (hi : Reserve.tracked_inv j s)
    (h2 : t.arena._size = s.arena._size)
    (h3 : t.arena._block_size = s.arena._block_size) (h4 : t.arena._align = s.arena._align)
    (hle : s.arena._pos ≤ t.arena._pos) (hw : t.arena._pos + 2 ^ j ≤ 2 ^ 64)
    (hc : t.arena.commit_pos
      = if t.arena._pos > s.arena.commit_pos then
          SIA_MIN (SIA_ALIGN_UP_POW2 t.arena._pos s.arena._block_size) s.arena._size
        else s.arena.commit_pos) :
    Reserve.tracked_inv j t := by
  unfold Reserve.tracked_inv at hi ⊢
  obtain ⟨hj, hb, ha1, ha2, hs, hp, hpw, hcm⟩ := hi
  rw [h2, h3, h4]
  refine ⟨hj, hb, ha1, ha2, hs, le_trans hp hle, hw, ?_⟩
  rw [hc, hb, SIA_ALIGN_UP_POW2_ceil _ j hj hw, SIA_MIN_eq]
  split_ifs with hgt
  · exact Nat.min_comm _ _
  · have hpos : 0 < 2 ^ j := Nat.two_pow_pos j
    have hbt := ceil_of_between (2 ^ j) s.arena._pos t.arena._pos hpos hle (by omega)
    rw [hbt]
    exact hcm

/-- The invariant survives a move of `pos` downwards, not below `MIN_POS`, that lowers
`commit_pos` to the block above the new `pos`. -/
theorem Reserve.tracked_inv_shrink (j : Nat) (s t : Reserve.State)
    (hi : Reserve.tracked_inv j s)
    (h2 : t.arena._size = s.arena._size)
    (h3 : t.arena._block_size = s.arena._block_size) (h4 : t.arena._align = s.arena._align)
    (hge : Reserve.SIA_MIN_POS ≤ t.arena._pos) (hle : t.arena._pos ≤ s.arena._pos)
    (hc : t.arena.commit_pos
      = min s.arena.commit_pos
          (SIA_MIN s.arena._size (SIA_ALIGN_UP_POW2 t.arena._pos s.arena._block_size))) :
    Reserve.tracked_inv j t := by
  unfold Reserve.tracked_inv at hi ⊢
  obtain ⟨hj, hb, ha1, ha2, hs, hp, hpw, hcm⟩ := hi
  rw [h2, h3, h4]
  have hw : t.arena._pos + 2 ^ j ≤ 2 ^ 64 := by omega
  refine ⟨hj, hb, ha1, ha2, hs, hge, hw, ?_⟩
  rw [hc, hb, SIA_ALIGN_UP_POW2_ceil _ j hj hw, SIA_MIN_eq, hcm]
  have hm := ceil_mono (2 ^ j) t.arena._pos s.arena._pos hle
  omega


/-- The commit position after a reserve push that passes the capacity check with its
commit granted. -/
theorem Reserve.sia_push_commit_of_fits (s : Reserve.State) (n : Nat)
    (h : ¬ add64 s.arena._pos n > s.arena._size) :
    (Reserve.sia_push true s n).1.arena.commit_pos
      = if add64 (SIA_ALIGN_UP_POW2 s.arena._pos s.arena._align) n > s.arena.commit_pos then
          SIA_MIN (SIA_ALIGN_UP_POW2 (add64 (SIA_ALIGN_UP_POW2 s.arena._pos s.arena._align) n)
            s.arena._block_size) s.arena._size
        else s.arena.commit_pos := by
  unfold Reserve.sia_push
  rw [if_neg h]
  simp only [Bool.not_true, Bool.false_eq_true, if_false]
  split_ifs <;> rfl

/-- A reserve push with its commit granted keeps the invariant, and moves `pos` up by
less than `align + n`. -/
theorem Reserve.sia_push_tracked (j : Nat) (s : Reserve.State) (n : Nat)
    (hi : Reserve.tracked_inv j s)
    (hw : s.arena._pos + s.arena._align + n + 2 ^ j ≤ 2 ^ 64) :
    Reserve.tracked_inv j (Reserve.sia_push true s n).1 ∧
    (Reserve.sia_push true s n).1.arena._pos ≤ s.arena._pos + s.arena._align + n ∧
    (Reserve.sia_push true s n).1.arena._align = s.arena._align := by
  by_cases h : add64 s.arena._pos n > s.arena._size
  · rw [Reserve.sia_push_of_over true s n h]
    exact ⟨Reserve.tracked_inv_raise j s _ _ hi, Nat.le_add_right_of_le (Nat.le_add_right _ _),
      rfl⟩
  · obtain ⟨-, p2, -, -, -, p6, p7, p8⟩ := Reserve.sia_push_of_fits s n h
    have p9 := Reserve.sia_push_commit_of_fits s n h
    have hi2 := hi
    unfold Reserve.tracked_inv at hi2
    obtain ⟨hj, hb, ha1, ha2, hs, hp, hpw, hcm⟩ := hi2
    obtain ⟨r1, r2⟩ := SIA_ALIGN_UP_POW2_range s.arena._pos s.arena._align ha1 ha2 (by omega)
    have hadd : add64 (SIA_ALIGN_UP_POW2 s.arena._pos s.arena._align) n
        = SIA_ALIGN_UP_POW2 s.arena._pos s.arena._align + n := by
      unfold add64 U64
      exact Nat.mod_eq_of_lt (by omega)
    rw [hadd] at p2 p9
    refine ⟨Reserve.tracked_inv_grow j s _ hi p6 p8 p7 (by omega) (by omega) ?_, by omega, p7⟩
    rw [p9, p2]

/-- A reserve pop never changes the block size and the alignment. -/
theorem Reserve.sia_pop_block_align (s : Reserve.State) (k : Nat) :
    (Reserve.sia_pop s k).arena._block_size = s.arena._block_size ∧
    (Reserve.sia_pop s k).arena._align = s.arena._align := by
  unfold Reserve.sia_pop
  simp only []
  split_ifs <;> exact ⟨rfl, rfl⟩

/-- A reserve pop keeps the invariant and does not move `pos` up. -/
theorem Reserve.sia_pop_tracked (j : Nat) (s : Reserve.State) (k : Nat)
    (hi : Reserve.tracked_inv j s) :
    Reserve.tracked_inv j (Reserve.sia_pop s k) ∧
    (Reserve.sia_pop s k).arena._pos ≤ s.arena._pos ∧
    (Reserve.sia_pop s k).arena._align = s.arena._align := by
  by_cases h : k > sub64 s.arena._pos Reserve.SIA_MIN_POS
  · rw [Reserve.sia_pop_of_gt s k h]
    exact ⟨Reserve.tracked_inv_raise j s _ _ hi, le_refl _, rfl⟩
  · have hi2 := hi
    unfold Reserve.tracked_inv at hi2
    obtain ⟨hj, hb, ha1, ha2, hs, hp, hpw, hcm⟩ := hi2
    have hP : 0 < 2 ^ j := Nat.two_pow_pos j
    have hmp := Reserve.SIA_MIN_POS_eq
    have q1 := Reserve.sia_pop_pos_of_le s k h
    have q2 := Reserve.sia_pop_commit_of_le s k h
    have q3 := Reserve.sia_pop_size s k
    obtain ⟨q4, q5⟩ := Reserve.sia_pop_block_align s k
    rw [← q1] at q2
    rw [sub64_eq _ _ (by omega) hp] at h
    have hk : sub64 s.arena._pos k = s.arena._pos - k := sub64_eq _ _ (by omega) (by omega)
    rw [hk, SIA_MAX_eq] at q1
    exact ⟨Reserve.tracked_inv_shrink j s _ hi q3 q4 q5 (by omega) (by omega) q2, by omega, q5⟩


/-- The second part of the reserve `sia_realloc`, its commits granted, keeps the
invariant. -/
theorem Reserve.sia_realloc_grow_tracked (j : Nat) (s : Reserve.State) (p old new : Nat)
    (hi : Reserve.tracked_inv j s) (hlt : old < new)
    (hw : s.arena._pos + s.arena._align + new + 2 ^ j ≤ 2 ^ 64) :
    Reserve.tracked_inv j (Reserve.sia_realloc_grow true true s p old new).1 := by
  have hi2 := hi
  unfold Reserve.tracked_inv at hi2
  obtain ⟨hj, hb, ha1, ha2, hs, hp, hpw, hcm⟩ := hi2
  have hsub : sub64 new old = new - old := sub64_eq _ _ (by omega) (by omega)
  have hadd : add64 s.arena._pos (new - old) = s.arena._pos + (new - old) := by
    unfold add64 U64
    exact Nat.mod_eq_of_lt (by omega)
  unfold Reserve.sia_realloc_grow
  generalize Reserve.SIA_MIN_POS = mp
  simp only [Bool.not_true, Bool.false_eq_true, if_false]
  rw [hsub, hadd]
  split_ifs with hcond hgt
  · refine Reserve.tracked_inv_grow j s _ hi rfl rfl rfl ?_ ?_ ?_
    · simp only []
      omega
    · simp only []
      omega
    · simp only []
      rw [if_pos hgt]
  · refine Reserve.tracked_inv_grow j s _ hi rfl rfl rfl ?_ ?_ ?_
    · simp only []
      omega
    · simp only []
      omega
    · simp only []
      rw [if_neg hgt]
  · obtain ⟨hpush, -, -⟩ := Reserve.sia_push_tracked j s new hi hw
    cases hr : (Reserve.sia_push true s new).2 with
    | none => exact Reserve.tracked_inv_raise j _ _ _ hpush
    | some q => exact Reserve.tracked_inv_congr j _ _ rfl rfl rfl rfl rfl hpush

/-- The reserve `sia_realloc`, its commits granted, keeps the invariant. -/
theorem Reserve.sia_realloc_tracked (j : Nat) (s : Reserve.State) (ptr : Option Nat)
    (old new : Nat) (hi : Reserve.tracked_inv j s)
    (hw : s.arena._pos + 2 * s.arena._align + 2 * new + 2 ^ j ≤ 2 ^ 64) :
    Reserve.tracked_inv j (Reserve.sia_realloc true true true s ptr old new).1 := by
  have hP : 0 < 2 ^ j := Nat.two_pow_pos j
  cases ptr with
  | none =>
    have e : Reserve.sia_realloc true true true s none old new = Reserve.sia_push true s new :=
      rfl
    rw [e]
    exact (Reserve.sia_push_tracked j s new hi (by omega)).1
  | some p =>
    rw [Reserve.sia_realloc_some_eq]
    split_ifs with h0 hle hv hv2 hl hr
    · exact Reserve.tracked_inv_raise j s _ _ hi
    · exact Reserve.tracked_inv_raise j s _ _ hi
    · exact hi
    · exact Reserve.tracked_inv_raise j s _ _ hi
    · have hsub : sub64 new old = new - old := sub64_eq _ _ (by omega) (by omega)
      rw [hsub]
      exact (Reserve.sia_push_tracked j s (new - old) hi (by omega)).1
    · have hsub : sub64 new old = new - old := sub64_eq _ _ (by omega) (by omega)
      rw [hsub]
      obtain ⟨a1, a2, a3⟩ := Reserve.sia_push_tracked j s (new - old) hi (by omega)
      obtain ⟨b1, b2, b3⟩ := Reserve.sia_pop_tracked j _ (new - old) a1
      exact Reserve.sia_realloc_grow_tracked j _ p old new b1 (by omega)
        (by rw [b3, a3]; omega)
    · exact Reserve.sia_realloc_grow_tracked j s p old new hi (by omega) (by omega)


/-- One call with its commits granted and without wrap-around keeps the invariant. -/
theorem Reserve.step_tracked (j : Nat) (s : Reserve.State) (op : Reserve.Op)
    (hi : Reserve.tracked_inv j s) (hw : Reserve.no_wrap s op) :
    Reserve.tracked_inv j (Reserve.step s op) := by
  have hb : s.arena._block_size = 2 ^ j := hi.2.1
  cases op with
  | push n =>
    have hw2 : s.arena._pos + s.arena._align + n + s.arena._block_size ≤ 2 ^ 64 := hw
    rw [hb] at hw2
    exact (Reserve.sia_push_tracked j s n hi hw2).1
  | pop k => exact (Reserve.sia_pop_tracked j s k hi).1
  | pop_to pos =>
    have e : Reserve.step s (.pop_to pos) = Reserve.sia_pop s (sub64 s.arena._pos pos) := rfl
    rw [e]
    exact (Reserve.sia_pop_tracked j s (sub64 s.arena._pos pos) hi).1
  | reset =>
    have e : Reserve.step s .reset
        = Reserve.sia_pop s (sub64 s.arena._pos Reserve.SIA_MIN_POS) := rfl
    rw [e]
    exact (Reserve.sia_pop_tracked j s (sub64 s.arena._pos Reserve.SIA_MIN_POS) hi).1
  | realloc ptr old new =>
    have hw2 : s.arena._pos + 2 * s.arena._align + 2 * new + s.arena._block_size ≤ 2 ^ 64 := hw
    rw [hb] at hw2
    exact Reserve.sia_realloc_tracked j s ptr old new hi hw2

/-- A sequence of calls with their commits granted and without wrap-around keeps the
invariant. -/
theorem Reserve.run_tracked (j : Nat) (ops : List Reserve.Op) :
    ∀ s : Reserve.State, Reserve.tracked_inv j s → Reserve.run_no_wrap s ops →
      Reserve.tracked_inv j (Reserve.run s ops) := by
  induction ops with
  | nil =>
    intro s hi _
    exact hi
  | cons op ops ih =>
    intro s hi hw
    exact ih (Reserve.step s op) (Reserve.step_tracked j s op hi hw.1) hw.2

/-- The invariant gives exact commit tracking in the terms of the macros. -/
theorem Reserve.tracked_of_inv (j : Nat) (s : Reserve.State) (hi : Reserve.tracked_inv j s) :
    Reserve.tracked s := by
  unfold Reserve.tracked_inv at hi
  obtain ⟨hj, hb, ha1, ha2, hs, hp, hpw, hcm⟩ := hi
  unfold Reserve.tracked
  rw [hb, SIA_ALIGN_UP_POW2_ceil _ j hj hpw, SIA_MIN_eq]
  exact ⟨hcm, hp⟩

/-- The arena a reserve `sia_create` returns satisfies the invariant when its block size
is a power of two with `MIN_POS <= block_size <= size`. -/
theorem Reserve.sia_create_tracked (page : Nat) (desc : sia_desc) (g : sia_error)
    (mem : Nat → Nat) (s : Reserve.State) (j : Nat) (hj : j < 64)
    (hc : Reserve.sia_create page true true desc g mem = .ok s)
    (halign : desc.align < 2 ^ 32)
    (hb : s.arena._block_size = 2 ^ j)
    (h1 : Reserve.SIA_MIN_POS ≤ s.arena._block_size)
    (h2 : s.arena._block_size ≤ s.arena._size) :
    Reserve.tracked_inv j s := by
  obtain ⟨c1, c2, c3, c4, c5, -⟩ := Reserve.sia_create_ok page true true desc g mem s hc
  have hmp := Reserve.SIA_MIN_POS_eq
  have hsz : s.arena._size < 2 ^ 64 := by
    rw [c2, (_sia_init_common_fields page desc).1]
    exact SIA_ALIGN_UP_POW2_lt _ _
  have hal : 1 ≤ s.arena._align ∧ s.arena._align < 2 ^ 64 := by
    rw [c4, (_sia_init_common_fields page desc).2.2]
    unfold sizeof_ptr
    split_ifs <;> omega
  have hcp : s.arena.commit_pos = 2 ^ j := by rw [c5, ← c3, hb]
  rw [hb] at h1 h2
  have hceil : (s.arena._pos + (2 ^ j - 1)) / 2 ^ j * 2 ^ j = 2 ^ j := by
    rw [c1, hmp]
    have e : (64 + (2 ^ j - 1)) / 2 ^ j = 1 :=
      Nat.div_eq_of_lt_le (by omega) (by omega)
    rw [e, Nat.one_mul]
  have hpj : 2 ^ j ≤ 2 ^ 63 := Nat.pow_le_pow_right (by decide) (by omega)
  unfold Reserve.tracked_inv
  refine ⟨hj, hb, hal.1, hal.2, hsz, by omega, by omega, ?_⟩
  rw [hceil, hcp]
  omega


/-- C28: exact commit tracking on the reserve backend.  Let `s` be the arena `sia_create`
returns (reservation and commit granted) with a block size `2^j` such that
`MIN_POS <= block_size <= size`.  After any sequence of push, pop, pop_to, reset and
realloc calls whose commits are all granted and in which no `sia_u64` sum wraps,
whether the calls succeed or fail, `commit_pos == min(size, ceil_to_block(pos))` and
`pos >= MIN_POS`; the same holds right after create. -/
theorem reserve_commit_tracking (page : Nat) (desc : sia_desc) (g : sia_error)
    (mem : Nat → Nat) (s : Reserve.State) (j : Nat) (ops : List Reserve.Op) (hj : j < 64)
    (hc : Reserve.sia_create page true true desc g mem = .ok s)
    (halign : desc.align < 2 ^ 32)
    (hb : s.arena._block_size = 2 ^ j)
    (h1 : Reserve.SIA_MIN_POS ≤ s.arena._block_size)
    (h2 : s.arena._block_size ≤ s.arena._size)
    (hw : Reserve.run_no_wrap s ops) :
    Reserve.tracked s ∧ Reserve.tracked (Reserve.run s ops) ∧
    (Reserve.run s ops).arena.commit_pos
      = min (Reserve.run s ops).arena._size
          (((Reserve.run s ops).arena._pos + (2 ^ j - 1)) / 2 ^ j * 2 ^ j) ∧
    Reserve.SIA_MIN_POS ≤ (Reserve.run s ops).arena._pos ∧
    (Reserve.run s ops).arena._block_size = 2 ^ j := by
  have h0 := Reserve.sia_create_tracked page desc g mem s j hj hc halign hb h1 h2
  have hr := Reserve.run_tracked j ops s h0 hw
  refine ⟨Reserve.tracked_of_inv j s h0, Reserve.tracked_of_inv j _ hr, ?_, ?_, ?_⟩
  · exact hr.2.2.2.2.2.2.2
  · exact hr.2.2.2.2.2.1
  · exact hr.2.1

/-- C28, on inputs: the arena created with `max = 1 MiB, block = 64 KiB, align = 8`;
`push(71680)`, `realloc` of that block to 200000 bytes, `pop(1000)`, `pop_to(100000)`
and `reset`, all commits granted. -/
theorem reserve_commit_tracking_witness :
    Reserve.tracked Reserve.fresh_1m ∧
    Reserve.tracked (Reserve.run Reserve.fresh_1m
      [.push 71680, .realloc (some 64) 71680 200000, .pop 1000, .pop_to 100000, .reset]) ∧
    (Reserve.run Reserve.fresh_1m
      [.push 71680, .realloc (some 64) 71680 200000, .pop 1000, .pop_to 100000,
        .reset]).arena.commit_pos
      = min (Reserve.run Reserve.fresh_1m
          [.push 71680, .realloc (some 64) 71680 200000, .pop 1000, .pop_to 100000,
            .reset]).arena._size
          (((Reserve.run Reserve.fresh_1m
            [.push 71680, .realloc (some 64) 71680 200000, .pop 1000, .pop_to 100000,
              .reset]).arena._pos + (2 ^ 16 - 1)) / 2 ^ 16 * 2 ^ 16) ∧
    Reserve.SIA_MIN_POS ≤ (Reserve.run Reserve.fresh_1m
      [.push 71680, .realloc (some 64) 71680 200000, .pop 1000, .pop_to 100000,
        .reset]).arena._pos ∧
    (Reserve.run Reserve.fresh_1m
      [.push 71680, .realloc (some 64) 71680 200000, .pop 1000, .pop_to 100000,
        .reset]).arena._block_size = 2 ^ 16 :=
  reserve_commit_tracking 4096 ⟨1048576, 65536, 8⟩ no_error zero_mem Reserve.fresh_1m 16
    [.push 71680, .realloc (some 64) 71680 200000, .pop 1000, .pop_to 100000, .reset]
    (by decide) rfl (by decide) (by decide) (by decide) (by decide) (by decide)

end SiArena
